import Mathlib

/-!
# ImViewGuizmo: a shallow embedding of `Manipulate`

The single source file `ImViewGuizmo.h` defines one stateful routine, `Manipulate`, which is
called once per frame.  It reads the host input (time, mouse), updates the persistent `Context`
and the caller-owned camera pose, and returns whether it wrote the camera.

Modelling decisions.

* `float` is modelled by an arbitrary linearly ordered field `F` (exact arithmetic, no rounding,
  no NaN, and `x / 0 = 0`).  Every definition is generic in `F` and computable, so it runs on
  `ℚ`.
* Two places where binary32 and the field part ways are made explicit.  The animation completes
  when the eased parameter reaches 1, and rounding decides that comparison: the stages are also
  given with the computation of the eased parameter as an argument (`ManipulateWith`), which is
  instantiated with the exact one and with the binary32 one (`binary32Easing`, built on the
  rounding `fl32`).  `normalize` of the zero vector divides by zero, which binary32 answers
  with a NaN and the field with 0: `tickNormalizeArgs` lists the vectors the animation tick
  normalises, so that a statement can say whether the zero vector is among them.
* `sqrt`, `sin` and `cos` come from the C library; they are passed in as a `MathOps F` record.
  Theorems that need a property of them assume exactly that property.
* The GLM and ImGui helpers used by `Manipulate` are not part of the repository.  They are
  transcribed from GLM (right-handed, `[-1,1]` depth defaults) in namespace `glm`, keeping GLM's
  names, so that `Manipulate` can be read side by side with the header.
* Draw calls (header lines 260-286) only read the state and write to the draw list; they are
  left out.  The colour, label and line-width fields of `Style` are only read there.
* The global `Context` and `Style`, and the host input read through `ImGui::GetIO()`, are
  explicit arguments.
-/

namespace glm

/-- Two floats: `ImVec2`. -/
structure vec2 (F : Type) where
  x : F
  y : F
deriving DecidableEq

/-- GLM `vec3`. -/
structure vec3 (F : Type) where
  x : F
  y : F
  z : F
deriving DecidableEq

/-- GLM `vec4`. -/
structure vec4 (F : Type) where
  x : F
  y : F
  z : F
  w : F
deriving DecidableEq

/-- GLM `quat`, by component name (`w` is the scalar part). -/
structure quat (F : Type) where
  w : F
  x : F
  y : F
  z : F
deriving DecidableEq

/-- GLM `mat3`: three columns, `m[i]` is column `i`. -/
structure mat3 (F : Type) where
  c0 : vec3 F
  c1 : vec3 F
  c2 : vec3 F
deriving DecidableEq

/-- GLM `mat4`: four columns, `m[i]` is column `i`. -/
structure mat4 (F : Type) where
  c0 : vec4 F
  c1 : vec4 F
  c2 : vec4 F
  c3 : vec4 F
deriving DecidableEq

/-- The C library functions the header reaches through GLM. -/
structure MathOps (F : Type) where
  sqrt : F → F
  sin : F → F
  cos : F → F

variable {F : Type} [LinearOrderedField F]

instance : Add (vec3 F) := ⟨fun a b => ⟨a.x + b.x, a.y + b.y, a.z + b.z⟩⟩
instance : Sub (vec3 F) := ⟨fun a b => ⟨a.x - b.x, a.y - b.y, a.z - b.z⟩⟩
instance : Neg (vec3 F) := ⟨fun a => ⟨-a.x, -a.y, -a.z⟩⟩
/-- Vector times scalar, `v * s`. -/
instance : HMul (vec3 F) F (vec3 F) := ⟨fun a s => ⟨a.x * s, a.y * s, a.z * s⟩⟩
/-- Scalar times vector, `s * v`. -/
instance : HMul F (vec3 F) (vec3 F) := ⟨fun s a => ⟨s * a.x, s * a.y, s * a.z⟩⟩
/-- Vector divided by scalar, `v / s`. -/
instance : HDiv (vec3 F) F (vec3 F) := ⟨fun a s => ⟨a.x / s, a.y / s, a.z / s⟩⟩

instance : Add (vec4 F) := ⟨fun a b => ⟨a.x + b.x, a.y + b.y, a.z + b.z, a.w + b.w⟩⟩
instance : Sub (vec4 F) := ⟨fun a b => ⟨a.x - b.x, a.y - b.y, a.z - b.z, a.w - b.w⟩⟩
/-- Componentwise product of two `vec4`. -/
instance : Mul (vec4 F) := ⟨fun a b => ⟨a.x * b.x, a.y * b.y, a.z * b.z, a.w * b.w⟩⟩
/-- Vector times scalar, `v * s`. -/
instance : HMul (vec4 F) F (vec4 F) := ⟨fun a s => ⟨a.x * s, a.y * s, a.z * s, a.w * s⟩⟩

/-- The `std::min(a, b)` of `<algorithm>`: `(b < a) ? b : a`. -/
def stdMin (a b : F) : F := if b < a then b else a

/-- GLM `max(a, b)`: `(a < b) ? b : a`. -/
def max (a b : F) : F := if a < b then b else a

/-- GLM `dot` on `vec3`. -/
def dot (a b : vec3 F) : F := a.x * b.x + a.y * b.y + a.z * b.z

/-- GLM `cross`. -/
def cross (a b : vec3 F) : vec3 F :=
  ⟨a.y * b.z - b.y * a.z, a.z * b.x - b.z * a.x, a.x * b.y - b.x * a.y⟩

/-- GLM `length`: `sqrt(dot(v, v))`. -/
def length (ops : MathOps F) (v : vec3 F) : F := ops.sqrt (dot v v)

/-- GLM `length2` (gtx/norm): `dot(v, v)`. -/
def length2 (v : vec3 F) : F := dot v v

/-- GLM `inversesqrt`: `1 / sqrt(x)`. -/
def inversesqrt (ops : MathOps F) (x : F) : F := 1 / ops.sqrt x

/-- GLM `normalize`: `v * inversesqrt(dot(v, v))`. -/
def normalize (ops : MathOps F) (v : vec3 F) : vec3 F := v * inversesqrt ops (dot v v)

/-- GLM `mix` on scalars: `x * (1 - a) + y * a`. -/
def mix (x y a : F) : F := x * (1 - a) + y * a

/-- GLM `mix` on `vec3` with a scalar weight. -/
def mix3 (x y : vec3 F) (a : F) : vec3 F := x * (1 - a) + y * a

/-- GLM `angleAxis`: `quat(cos(a/2), v * sin(a/2))`. -/
def angleAxis (ops : MathOps F) (angle : F) (v : vec3 F) : quat F :=
  let s := ops.sin (angle * (1 / 2))
  ⟨ops.cos (angle * (1 / 2)), v.x * s, v.y * s, v.z * s⟩

/-- GLM `quat * quat`. -/
def quatMul (p q : quat F) : quat F :=
  ⟨p.w * q.w - p.x * q.x - p.y * q.y - p.z * q.z,
   p.w * q.x + p.x * q.w + p.y * q.z - p.z * q.y,
   p.w * q.y + p.y * q.w + p.z * q.x - p.x * q.z,
   p.w * q.z + p.z * q.w + p.x * q.y - p.y * q.x⟩

/-- GLM `quat * vec3`: `v + ((uv * q.w) + uuv) * 2` with `uv = cross(qv, v)`,
`uuv = cross(qv, uv)`. -/
def quatRotate (q : quat F) (v : vec3 F) : vec3 F :=
  let QuatVector : vec3 F := ⟨q.x, q.y, q.z⟩
  let uv := cross QuatVector v
  let uuv := cross QuatVector uv
  v + ((uv * q.w) + uuv) * (2 : F)

/-- GLM `dot` on quaternions. -/
def quatDot (a b : quat F) : F := (a.w * b.w + a.x * b.x) + (a.y * b.y + a.z * b.z)

/-- GLM `mat3_cast`. -/
def mat3_cast (q : quat F) : mat3 F :=
  let qxx := q.x * q.x
  let qyy := q.y * q.y
  let qzz := q.z * q.z
  let qxz := q.x * q.z
  let qxy := q.x * q.y
  let qyz := q.y * q.z
  let qwx := q.w * q.x
  let qwy := q.w * q.y
  let qwz := q.w * q.z
  ⟨⟨1 - 2 * (qyy + qzz), 2 * (qxy + qwz), 2 * (qxz - qwy)⟩,
   ⟨2 * (qxy - qwz), 1 - 2 * (qxx + qzz), 2 * (qyz + qwx)⟩,
   ⟨2 * (qxz + qwy), 2 * (qyz - qwx), 1 - 2 * (qxx + qyy)⟩⟩

/-- The `mat4(mat3)` constructor: the 3x3 block, padded with the identity. -/
def mat4_of_mat3 (m : mat3 F) : mat4 F :=
  ⟨⟨m.c0.x, m.c0.y, m.c0.z, 0⟩, ⟨m.c1.x, m.c1.y, m.c1.z, 0⟩,
   ⟨m.c2.x, m.c2.y, m.c2.z, 0⟩, ⟨0, 0, 0, 1⟩⟩

/-- The `mat3(mat4)` constructor: the upper-left 3x3 block. -/
def mat3_of_mat4 (m : mat4 F) : mat3 F :=
  ⟨⟨m.c0.x, m.c0.y, m.c0.z⟩, ⟨m.c1.x, m.c1.y, m.c1.z⟩, ⟨m.c2.x, m.c2.y, m.c2.z⟩⟩

/-- GLM `mat4_cast`: `mat4(mat3_cast(q))`. -/
def mat4_cast (q : quat F) : mat4 F := mat4_of_mat3 (mat3_cast q)

/-- The `mat4(1.0f)` identity matrix. -/
def mat4_identity : mat4 F := ⟨⟨1, 0, 0, 0⟩, ⟨0, 1, 0, 0⟩, ⟨0, 0, 1, 0⟩, ⟨0, 0, 0, 1⟩⟩

/-- GLM `translate(m, v)`: `m` with column 3 replaced by
`m[0] * v[0] + m[1] * v[1] + m[2] * v[2] + m[3]`. -/
def translate (m : mat4 F) (v : vec3 F) : mat4 F :=
  { m with c3 := m.c0 * v.x + m.c1 * v.y + m.c2 * v.z + m.c3 }

/-- GLM `mat4 * vec4`. -/
def mat4_mulVec (m : mat4 F) (v : vec4 F) : vec4 F :=
  (m.c0 * v.x + m.c1 * v.y) + (m.c2 * v.z + m.c3 * v.w)

/-- GLM `mat4 * mat4`: column `j` of the product is `a * b[j]`. -/
def mat4_mul (a b : mat4 F) : mat4 F :=
  let col (v : vec4 F) : vec4 F := a.c0 * v.x + a.c1 * v.y + a.c2 * v.z + a.c3 * v.w
  ⟨col b.c0, col b.c1, col b.c2, col b.c3⟩

/-- GLM `ortho(left, right, bottom, top, zNear, zFar)` (right-handed, depth `[-1,1]`). -/
def ortho (left right bottom top zNear zFar : F) : mat4 F :=
  ⟨⟨2 / (right - left), 0, 0, 0⟩,
   ⟨0, 2 / (top - bottom), 0, 0⟩,
   ⟨0, 0, -(2 : F) / (zFar - zNear), 0⟩,
   ⟨-(right + left) / (right - left), -(top + bottom) / (top - bottom),
    -(zFar + zNear) / (zFar - zNear), 1⟩⟩

/-- GLM `inverse` of a `mat4` (cofactor expansion, as in `func_matrix.inl`). -/
def inverse (m : mat4 F) : mat4 F :=
  let Coef00 := m.c2.z * m.c3.w - m.c3.z * m.c2.w
  let Coef02 := m.c1.z * m.c3.w - m.c3.z * m.c1.w
  let Coef03 := m.c1.z * m.c2.w - m.c2.z * m.c1.w
  let Coef04 := m.c2.y * m.c3.w - m.c3.y * m.c2.w
  let Coef06 := m.c1.y * m.c3.w - m.c3.y * m.c1.w
  let Coef07 := m.c1.y * m.c2.w - m.c2.y * m.c1.w
  let Coef08 := m.c2.y * m.c3.z - m.c3.y * m.c2.z
  let Coef10 := m.c1.y * m.c3.z - m.c3.y * m.c1.z
  let Coef11 := m.c1.y * m.c2.z - m.c2.y * m.c1.z
  let Coef12 := m.c2.x * m.c3.w - m.c3.x * m.c2.w
  let Coef14 := m.c1.x * m.c3.w - m.c3.x * m.c1.w
  let Coef15 := m.c1.x * m.c2.w - m.c2.x * m.c1.w
  let Coef16 := m.c2.x * m.c3.z - m.c3.x * m.c2.z
  let Coef18 := m.c1.x * m.c3.z - m.c3.x * m.c1.z
  let Coef19 := m.c1.x * m.c2.z - m.c2.x * m.c1.z
  let Coef20 := m.c2.x * m.c3.y - m.c3.x * m.c2.y
  let Coef22 := m.c1.x * m.c3.y - m.c3.x * m.c1.y
  let Coef23 := m.c1.x * m.c2.y - m.c2.x * m.c1.y
  let Fac0 : vec4 F := ⟨Coef00, Coef00, Coef02, Coef03⟩
  let Fac1 : vec4 F := ⟨Coef04, Coef04, Coef06, Coef07⟩
  let Fac2 : vec4 F := ⟨Coef08, Coef08, Coef10, Coef11⟩
  let Fac3 : vec4 F := ⟨Coef12, Coef12, Coef14, Coef15⟩
  let Fac4 : vec4 F := ⟨Coef16, Coef16, Coef18, Coef19⟩
  let Fac5 : vec4 F := ⟨Coef20, Coef20, Coef22, Coef23⟩
  let Vec0 : vec4 F := ⟨m.c1.x, m.c0.x, m.c0.x, m.c0.x⟩
  let Vec1 : vec4 F := ⟨m.c1.y, m.c0.y, m.c0.y, m.c0.y⟩
  let Vec2 : vec4 F := ⟨m.c1.z, m.c0.z, m.c0.z, m.c0.z⟩
  let Vec3 : vec4 F := ⟨m.c1.w, m.c0.w, m.c0.w, m.c0.w⟩
  let Inv0 := Vec1 * Fac0 - Vec2 * Fac1 + Vec3 * Fac2
  let Inv1 := Vec0 * Fac0 - Vec2 * Fac3 + Vec3 * Fac4
  let Inv2 := Vec0 * Fac1 - Vec1 * Fac3 + Vec3 * Fac5
  let Inv3 := Vec0 * Fac2 - Vec1 * Fac4 + Vec2 * Fac5
  let SignA : vec4 F := ⟨1, -1, 1, -1⟩
  let SignB : vec4 F := ⟨-1, 1, -1, 1⟩
  let I0 := Inv0 * SignA
  let I1 := Inv1 * SignB
  let I2 := Inv2 * SignA
  let I3 := Inv3 * SignB
  let Row0 : vec4 F := ⟨I0.x, I1.x, I2.x, I3.x⟩
  let Dot0 := m.c0 * Row0
  let Dot1 := (Dot0.x + Dot0.y) + (Dot0.z + Dot0.w)
  let OneOverDeterminant := 1 / Dot1
  ⟨I0 * OneOverDeterminant, I1 * OneOverDeterminant,
   I2 * OneOverDeterminant, I3 * OneOverDeterminant⟩

/-- GLM `quat_cast` of a `mat3`: pick the largest of the four squared components, take its
square root, and recover the other three from the off-diagonal entries. -/
def quat_cast (ops : MathOps F) (m : mat3 F) : quat F :=
  let fourXSquaredMinus1 := m.c0.x - m.c1.y - m.c2.z
  let fourYSquaredMinus1 := m.c1.y - m.c0.x - m.c2.z
  let fourZSquaredMinus1 := m.c2.z - m.c0.x - m.c1.y
  let fourWSquaredMinus1 := m.c0.x + m.c1.y + m.c2.z
  let b0 : Nat × F := (0, fourWSquaredMinus1)
  let b1 : Nat × F := if b0.2 < fourXSquaredMinus1 then (1, fourXSquaredMinus1) else b0
  let b2 : Nat × F := if b1.2 < fourYSquaredMinus1 then (2, fourYSquaredMinus1) else b1
  let b3 : Nat × F := if b2.2 < fourZSquaredMinus1 then (3, fourZSquaredMinus1) else b2
  let biggestIndex := b3.1
  let fourBiggestSquaredMinus1 := b3.2
  let biggestVal := ops.sqrt (fourBiggestSquaredMinus1 + 1) * (1 / 2)
  let mult := (1 / 4) / biggestVal
  match biggestIndex with
  | 0 => ⟨biggestVal, (m.c1.z - m.c2.y) * mult, (m.c2.x - m.c0.z) * mult,
          (m.c0.y - m.c1.x) * mult⟩
  | 1 => ⟨(m.c1.z - m.c2.y) * mult, biggestVal, (m.c0.y + m.c1.x) * mult,
          (m.c2.x + m.c0.z) * mult⟩
  | 2 => ⟨(m.c2.x - m.c0.z) * mult, (m.c0.y + m.c1.x) * mult, biggestVal,
          (m.c1.z + m.c2.y) * mult⟩
  | _ => ⟨(m.c0.y - m.c1.x) * mult, (m.c2.x + m.c0.z) * mult, (m.c1.z + m.c2.y) * mult,
          biggestVal⟩

/-- GLM `quatLookAt` (right-handed): the rotation whose local `-Z` is `direction`. -/
def quatLookAt (ops : MathOps F) (direction up : vec3 F) : quat F :=
  let c2 : vec3 F := -direction
  let Right := cross up c2
  let c0 : vec3 F := Right * inversesqrt ops (max (1 / 100000) (dot Right Right))
  let c1 : vec3 F := cross c2 c0
  quat_cast ops ⟨c0, c1, c2⟩

end glm

namespace ImViewGuizmo

open glm

variable {F : Type} [LinearOrderedField F]

/-- The fields of `Style` that the logic of `Manipulate` reads. -/
structure Style (F : Type) where
  scale : F
  lineLength : F
  circleRadius : F
  bigCircleRadius : F
  animateSnap : Bool
  snapAnimationDuration : F

/-- The default `Style` of the header. -/
def defaultStyle : Style F :=
  { scale := 1, lineLength := 1 / 2, circleRadius := 15, bigCircleRadius := 80,
    animateSnap := true, snapAnimationDuration := 3 / 10 }

/-- One signed axis end, rebuilt every frame. -/
structure GizmoAxis (F : Type) where
  id : Int
  axisIndex : Int
  depth : F
  direction : vec3 F

/-- The constant `baseSize`. -/
def baseSize : F := 256

/-- The constant `origin`. -/
def origin : vec3 F := ⟨0, 0, 0⟩

/-- The constant `worldRight`, `+X`. -/
def worldRight : vec3 F := ⟨1, 0, 0⟩

/-- The constant `worldUp`, `-Y`. -/
def worldUp : vec3 F := ⟨0, -1, 0⟩

/-- The constant `worldForward`, `+Z`. -/
def worldForward : vec3 F := ⟨0, 0, 1⟩

/-- The table `axisVectors[3]`; an index outside `0..2` is never used. -/
def axisVectors (i : Int) : vec3 F :=
  if i = 0 then ⟨1, 0, 0⟩ else if i = 1 then ⟨0, 1, 0⟩ else ⟨0, 0, 1⟩

/-- The constant `FLT_MAX` of `<cfloat>`: `(2 - 2^-23) * 2^127`. -/
def FLT_MAX : F := (2 - 1 / 2 ^ 23) * 2 ^ 127

/-- The persistent state of the gizmo. -/
structure Context (F : Type) where
  hoveredAxisID : Int
  isDragging : Bool
  isAnimating : Bool
  animationStartTime : F
  startPos : vec3 F
  targetPos : vec3 F
  startUp : vec3 F
  targetUp : vec3 F

/-- The initial `Context` of the header; the four vectors have no initialiser there and are
taken to be zero. -/
def initialContext : Context F :=
  { hoveredAxisID := -1, isDragging := false, isAnimating := false, animationStartTime := 0,
    startPos := ⟨0, 0, 0⟩, targetPos := ⟨0, 0, 0⟩, startUp := ⟨0, 0, 0⟩, targetUp := ⟨0, 0, 0⟩ }

/-- What `Manipulate` reads from the host in one call: `ImGui::GetTime()`, `io.MousePos`,
`io.MouseDelta`, `IsMouseDown(0)`, `IsMouseReleased(0)` and `IsMouseDragging(0)`. -/
structure HostInput (F : Type) where
  time : F
  mousePos : vec2 F
  mouseDelta : vec2 F
  mouseDown : Bool
  mouseReleased : Bool
  mouseDragging : Bool

/-- Everything `Manipulate` may write: the context, the two camera references and the local
`wasModified`. -/
structure State (F : Type) where
  ctx : Context F
  cameraPos : vec3 F
  cameraRot : quat F
  wasModified : Bool

/-- ImGui `ImLengthSqr`. -/
def ImLengthSqr (v : vec2 F) : F := v.x * v.x + v.y * v.y

/-- The eased animation parameter (header lines 163-166). -/
def easedT (style : Style F) (input : HostInput F) (ctx : Context F) : F :=
  let elapsedTime := input.time - ctx.animationStartTime
  let t := stdMin 1 (elapsedTime / style.snapAnimationDuration)
  1 - (1 - t) * (1 - t)

/-- The interpolated direction of the animation tick (header lines 170-176). -/
def currentDir (ops : MathOps F) (ctx : Context F) (t : F) : vec3 F :=
  if 1 / 10000 < length ops ctx.startPos ∧ 1 / 10000 < length ops ctx.targetPos then
    let startDir := normalize ops ctx.startPos
    let targetDir := normalize ops ctx.targetPos
    normalize ops (mix3 startDir targetDir t)
  else
    normalize ops (mix3 ⟨0, 0, 1⟩ (normalize ops ctx.targetPos) t)

/-- Animation logic (header lines 161-195). -/
def animationLogic (ops : MathOps F) (style : Style F) (input : HostInput F) (s : State F) :
    State F :=
  if s.ctx.isAnimating then
    let t := easedT style input s.ctx
    let dir := currentDir ops s.ctx t
    let startDistance := length ops s.ctx.startPos
    let targetDistance := length ops s.ctx.targetPos
    let currentDistance := mix startDistance targetDistance t
    let currentUp := normalize ops (mix3 s.ctx.startUp s.ctx.targetUp t)
    if 1 ≤ t then
      { ctx := { s.ctx with isAnimating := false },
        cameraPos := s.ctx.targetPos,
        cameraRot := quatLookAt ops (normalize ops s.ctx.targetPos) s.ctx.targetUp,
        wasModified := true }
    else
      { s with
        cameraPos := dir * currentDistance,
        cameraRot := quatLookAt ops dir currentUp,
        wasModified := true }
  else s

/-- The matrix `gizmoViewMatrix` (header lines 207-210). -/
def gizmoViewMatrix (cameraPos : vec3 F) (cameraRot : quat F) : mat4 F :=
  let worldMatrix := mat4_mul (translate mat4_identity cameraPos) (mat4_cast cameraRot)
  let viewMatrix := inverse worldMatrix
  mat4_of_mat3 (mat3_of_mat4 viewMatrix)

/-- The matrix `gizmoProjectionMatrix` (header line 211). -/
def gizmoProjectionMatrix : mat4 F := ortho 1 (-1) (-1) 1 (-100) 100

/-- The matrix `gizmoMvp` (header line 212). -/
def gizmoMvp (cameraPos : vec3 F) (cameraRot : quat F) : mat4 F :=
  mat4_mul gizmoProjectionMatrix (gizmoViewMatrix cameraPos cameraRot)

/-- The two `GizmoAxis` records pushed for axis `i` (header lines 216-217). -/
def axisPair (view : mat4 F) (i : Int) : List (GizmoAxis F) :=
  let v : vec3 F := axisVectors i
  let n : vec3 F := -axisVectors i
  [ { id := i * 2, axisIndex := i, depth := (mat4_mulVec view ⟨v.x, v.y, v.z, 0⟩).z,
      direction := v },
    { id := i * 2 + 1, axisIndex := i, depth := (mat4_mulVec view ⟨n.x, n.y, n.z, 0⟩).z,
      direction := n } ]

/-- The vector `axes` before sorting (header lines 214-218). -/
def unsortedAxes (view : mat4 F) : List (GizmoAxis F) :=
  axisPair view 0 ++ axisPair view 1 ++ axisPair view 2

/-- The vector `axes` after `std::sort` by ascending depth (header lines 220-222).  The order
of equal depths is not fixed by `std::sort`; the model keeps their original order. -/
def sortedAxes (view : mat4 F) : List (GizmoAxis F) :=
  List.insertionSort (fun a b => ¬ b.depth < a.depth) (unsortedAxes view)

/-- The lambda `worldToScreen` (header lines 224-232). -/
def worldToScreen (mvp : mat4 F) (position : vec2 F) (gizmoDiameter : F) (worldPos : vec3 F) :
    vec2 F :=
  let clipPos := mat4_mulVec mvp ⟨worldPos.x, worldPos.y, worldPos.z, 1⟩
  if clipPos.w = 0 then ⟨-FLT_MAX, -FLT_MAX⟩
  else
    let ndc : vec3 F := (⟨clipPos.x, clipPos.y, clipPos.z⟩ : vec3 F) / clipPos.w
    ⟨position.x + ndc.x * (gizmoDiameter / 2), position.y - ndc.y * (gizmoDiameter / 2)⟩

/-- One iteration of the handle loop (header lines 245-251), as a step on `hoveredAxisID`. -/
def handleStep (style : Style F) (mvp : mat4 F) (position mousePos : vec2 F) (hovered : Int)
    (axis : GizmoAxis F) : Int :=
  let gizmoDiameter := baseSize * style.scale
  let scaledCircleRadius := style.circleRadius * style.scale
  let minDistanceSq := scaledCircleRadius * scaledCircleRadius
  if axis.depth < -(1 / 10) then hovered
  else
    let handlePos := worldToScreen mvp position gizmoDiameter (axis.direction * style.lineLength)
    if ImLengthSqr ⟨handlePos.x - mousePos.x, handlePos.y - mousePos.y⟩ < minDistanceSq then
      axis.id
    else hovered

/-- The hit test proper (header lines 238-257), run when neither dragging nor animating:
the value of `hoveredAxisID` it leaves. -/
def hitTest (style : Style F) (position mousePos : vec2 F) (cameraPos : vec3 F)
    (cameraRot : quat F) : Int :=
  let gizmoDiameter := baseSize * style.scale
  let scaledCircleRadius := style.circleRadius * style.scale
  let scaledBigCircleRadius := style.bigCircleRadius * style.scale
  let mvp := gizmoMvp cameraPos cameraRot
  let axes := sortedAxes (gizmoViewMatrix cameraPos cameraRot)
  let halfGizmoSize := gizmoDiameter / 2
  let distToCenterSq := ImLengthSqr ⟨mousePos.x - position.x, mousePos.y - position.y⟩
  if distToCenterSq < (halfGizmoSize + scaledCircleRadius) * (halfGizmoSize + scaledCircleRadius)
  then
    let hovered := axes.foldl (handleStep style mvp position mousePos) (-1)
    if hovered = -1 then
      let centerPos := worldToScreen mvp position gizmoDiameter origin
      if ImLengthSqr ⟨centerPos.x - mousePos.x, centerPos.y - mousePos.y⟩
          < scaledBigCircleRadius * scaledBigCircleRadius then 6
      else hovered
    else hovered
  else -1

/-- 2D selection logic (header lines 234-258). -/
def selectionLogic (style : Style F) (input : HostInput F) (position : vec2 F) (s : State F) :
    State F :=
  if !s.ctx.isDragging && !s.ctx.isAnimating then
    { s with ctx := { s.ctx with
        hoveredAxisID := hitTest style position input.mousePos s.cameraPos s.cameraRot } }
  else
    { s with ctx := { s.ctx with hoveredAxisID := -1 } }

/-- The rotation `totalRotation` of one drag frame (header lines 295-300). -/
def totalRotation (ops : MathOps F) (input : HostInput F) (mouseSpeed : F) (cameraRot : quat F) :
    quat F :=
  let yawAngle := -input.mouseDelta.x * mouseSpeed
  let pitchAngle := -input.mouseDelta.y * mouseSpeed
  let yawRotation := angleAxis ops yawAngle worldUp
  let rightAxis := quatRotate cameraRot worldRight
  let pitchRotation := angleAxis ops pitchAngle rightAxis
  quatMul yawRotation pitchRotation

/-- Drag logic (header lines 288-306). -/
def dragLogic (ops : MathOps F) (input : HostInput F) (mouseSpeed : F) (s : State F) : State F :=
  if input.mouseDown then
    let s1 : State F :=
      if !s.ctx.isDragging && s.ctx.hoveredAxisID = 6 then
        { s with ctx := { s.ctx with isDragging := true, isAnimating := false } }
      else s
    if s1.ctx.isDragging then
      let rotation := totalRotation ops input mouseSpeed s1.cameraRot
      { s1 with
        cameraPos := quatRotate rotation s1.cameraPos,
        cameraRot := quatMul rotation s1.cameraRot,
        wasModified := true }
    else s1
  else
    { s with ctx := { s.ctx with isDragging := false } }

/-- The snap target direction for a hovered id (header lines 310-312). -/
def snapTargetDir (hoveredAxisID : Int) : vec3 F :=
  let axisIndex := Int.tdiv hoveredAxisID 2
  let sign : F := if Int.tmod hoveredAxisID 2 = 0 then -1 else 1
  sign * (axisVectors axisIndex : vec3 F)

/-- The snap target up vector for a hovered id (header lines 315-317). -/
def snapTargetUp (hoveredAxisID : Int) : vec3 F :=
  let axisIndex := Int.tdiv hoveredAxisID 2
  let up : vec3 F := if axisIndex = 1 then worldForward else worldUp;
  -up

/-- The animation state stored when an animated snap is triggered (header lines 326-331). -/
def beginAnimation (time : F) (targetPosition targetUp : vec3 F) (s : State F) : State F :=
  { s with ctx := { s.ctx with
      isAnimating := true,
      animationStartTime := time,
      startPos := s.cameraPos,
      targetPos := targetPosition,
      startUp := quatRotate s.cameraRot ⟨0, 1, 0⟩,
      targetUp := targetUp } }

/-- Snap logic (header lines 308-338). -/
def snapLogic (ops : MathOps F) (style : Style F) (input : HostInput F) (snapDistance : F)
    (s : State F) : State F :=
  if input.mouseReleased && decide (0 ≤ s.ctx.hoveredAxisID) && decide (s.ctx.hoveredAxisID ≤ 5)
      && !input.mouseDragging then
    let targetDir : vec3 F := snapTargetDir s.ctx.hoveredAxisID
    let targetPosition := targetDir * snapDistance
    let targetUp : vec3 F := snapTargetUp s.ctx.hoveredAxisID
    let targetRotation := quatLookAt ops targetDir targetUp
    if style.animateSnap && decide (0 < style.snapAnimationDuration) then
      let pos_is_different := decide (1 / 10000 < length2 (s.cameraPos - targetPosition))
      let rot_is_different := decide (1 / 10000 < 1 - |quatDot s.cameraRot targetRotation|)
      if pos_is_different || rot_is_different then
        beginAnimation input.time targetPosition targetUp s
      else s
    else
      { s with cameraRot := targetRotation, cameraPos := targetPosition, wasModified := true }
  else s

/-- The routine `Manipulate` (header lines 153-341): the four stages in source order, started
with `wasModified = false`.  The result carries the context and camera after the call and the
returned flag. -/
def Manipulate (ops : MathOps F) (style : Style F) (input : HostInput F) (ctx : Context F)
    (cameraPos : vec3 F) (cameraRot : quat F) (position : vec2 F) (snapDistance mouseSpeed : F) :
    State F :=
  let s0 : State F := ⟨ctx, cameraPos, cameraRot, false⟩
  let s1 := animationLogic ops style input s0
  let s2 := selectionLogic style input position s1
  let s3 := dragLogic ops input mouseSpeed s2
  snapLogic ops style input snapDistance s3

/-! ## Concrete frames used as witnesses -/

/-- The identity rotation. -/
def identityRot : quat F := ⟨1, 0, 0, 0⟩

/-- A host input with all buttons up, no motion, at time `time`, mouse at `mousePos`. -/
def idleInput (time : F) (mousePos : vec2 F) : HostInput F :=
  { time := time, mousePos := mousePos, mouseDelta := ⟨0, 0⟩, mouseDown := false,
    mouseReleased := false, mouseDragging := false }

/-- The button is held at `mousePos` and the mouse moved by `mouseDelta` since last frame. -/
def heldInput (time : F) (mousePos mouseDelta : vec2 F) : HostInput F :=
  { idleInput time mousePos with mouseDelta := mouseDelta, mouseDown := true }

/-- The button was released this frame at `mousePos`, without a drag gesture. -/
def clickInput (time : F) (mousePos : vec2 F) : HostInput F :=
  { idleInput time mousePos with mouseReleased := true }

/-- A context in the middle of a drag. -/
def draggingContext : Context F := { initialContext with isDragging := true }

/-- A context in the middle of a snap animation from `(0,0,5)` to `(-5,0,0)`, started at
time 0. -/
def animatingContext : Context F :=
  { hoveredAxisID := -1, isDragging := false, isAnimating := true, animationStartTime := 0,
    startPos := ⟨0, 0, 5⟩, targetPos := ⟨-5, 0, 0⟩, startUp := ⟨0, 1, 0⟩, targetUp := ⟨0, 1, 0⟩ }

/-! ## Sequences of calls -/

/-- The arguments of one call of `Manipulate` together with the host input of that frame. -/
structure Call (F : Type) where
  input : HostInput F
  position : vec2 F
  snapDistance : F
  mouseSpeed : F

/-- One call of `Manipulate` on the context and camera left by the previous call; the
`wasModified` field of the result is the value returned by this call. -/
def callManipulate (ops : MathOps F) (style : Style F) (s : State F) (c : Call F) : State F :=
  Manipulate ops style c.input s.ctx s.cameraPos s.cameraRot c.position c.snapDistance
    c.mouseSpeed

/-- A sequence of calls, one per frame, in order. -/
def runCalls (ops : MathOps F) (style : Style F) (s : State F) (cs : List (Call F)) : State F :=
  cs.foldl (callManipulate ops style) s

/-- The state before the first call of the snap scenario: camera at `(0,0,5)` with the identity
rotation, initial context. -/
def scenarioStart : State F := ⟨initialContext, ⟨0, 0, 5⟩, identityRot, false⟩

/-- The calls of the scenarios: gizmo anchored at `(100,100)`, snap distance 5, mouse speed
0.005. -/
def scenarioCall (input : HostInput F) : Call F := ⟨input, ⟨100, 100⟩, 5, 1 / 200⟩

/-- The vector handed to the outer `normalize` of the animation tick (header lines 174 and
176): `currentDir` is its normalisation. -/
def blendedDir (ops : MathOps F) (ctx : Context F) (t : F) : vec3 F :=
  if 1 / 10000 < length ops ctx.startPos ∧ 1 / 10000 < length ops ctx.targetPos then
    mix3 (normalize ops ctx.startPos) (normalize ops ctx.targetPos) t
  else
    mix3 ⟨0, 0, 1⟩ (normalize ops ctx.targetPos) t

/-- The direction of the `GizmoAxis` pushed with id `k` (header lines 216-217): `axisVectors[k/2]`
for even `k`, its negative for odd `k`. -/
def axisDirection (k : Int) : vec3 F :=
  if k % 2 = 0 then axisVectors (k / 2) else -axisVectors (k / 2)

/-- The camera-space depth of the `GizmoAxis` pushed with id `k` (header lines 216-217): the
`z` component of `gizmoViewMatrix * vec4(direction, 0)`. -/
def axisDepth (view : mat4 F) (k : Int) : F :=
  (mat4_mulVec view
    ⟨(axisDirection k : vec3 F).x, (axisDirection k : vec3 F).y, (axisDirection k : vec3 F).z,
      0⟩).z

/-- The screen position of the handle with id `k` (header lines 248 and 270):
`worldToScreen(direction * style.lineLength)`. -/
def handleScreenPos (style : Style F) (position : vec2 F) (cameraPos : vec3 F)
    (cameraRot : quat F) (k : Int) : vec2 F :=
  worldToScreen (gizmoMvp cameraPos cameraRot) position (baseSize * style.scale)
    ((axisDirection k : vec3 F) * style.lineLength)

/-- The screen position of the gizmo centre, `worldToScreen(origin)` (header lines 253, 262). -/
def centerScreenPos (style : Style F) (position : vec2 F) (cameraPos : vec3 F)
    (cameraRot : quat F) : vec2 F :=
  worldToScreen (gizmoMvp cameraPos cameraRot) position (baseSize * style.scale) origin

/-- The componentwise sum of the six handle screen positions. -/
def handleScreenSum (style : Style F) (position : vec2 F) (cameraPos : vec3 F)
    (cameraRot : quat F) : vec2 F :=
  ([0, 1, 2, 3, 4, 5].map (handleScreenPos style position cameraPos cameraRot)).foldl
    (fun acc p => ⟨acc.x + p.x, acc.y + p.y⟩) ⟨0, 0⟩

/-- The parameter `t` of the animation tick before easing (header lines 163-164):
`std::min(1.0f, elapsedTime / style.snapAnimationDuration)`. -/
def tickT (style : Style F) (input : HostInput F) (ctx : Context F) : F :=
  stdMin 1 ((input.time - ctx.animationStartTime) / style.snapAnimationDuration)

/-- The `clamp(x, 0, 1)` of the spec: `min(max(x, 0), 1)`. -/
def specClamp01 (x : F) : F := min (Max.max x 0) 1

/-- The snap target direction as the spec words it: `sign × unit axis vector` with axis index
`id / 2` and `sign = -1` for an even id, `+1` for an odd id. -/
def specSnapDir (k : Int) : vec3 F :=
  (if k % 2 = 0 then (-1 : F) else 1) * (axisVectors (k / 2) : vec3 F)

/-- The snap target up vector as the spec words it: world-forward when snapping to the Y axis,
else world-up, negated. -/
def specSnapUp (k : Int) : vec3 F :=
  if k / 2 = 1 then -worldForward else -worldUp

/-- The vectors that one animation tick passes to `normalize`, in source order: the start and
target positions and their blend, or the target position and its blend with `(0,0,1)` in the
fallback branch (header lines 171-176); the blend of the up vectors (line 183); and the target
position again when the tick completes (line 192). -/
def tickNormalizeArgs (ops : MathOps F) (ctx : Context F) (t : F) : List (vec3 F) :=
  (if 1 / 10000 < length ops ctx.startPos ∧ 1 / 10000 < length ops ctx.targetPos then
    [ctx.startPos, ctx.targetPos,
      mix3 (normalize ops ctx.startPos) (normalize ops ctx.targetPos) t]
  else
    [ctx.targetPos, mix3 ⟨0, 0, 1⟩ (normalize ops ctx.targetPos) t])
  ++ [mix3 ctx.startUp ctx.targetUp t]
  ++ (if 1 ≤ t then [ctx.targetPos] else [])

/-! ## The eased parameter in other arithmetics

Whether an animation tick completes is decided by comparing the eased parameter with 1, and the
outcome of that comparison depends on how the parameter is rounded.  The stages below take the
computation of the eased parameter (header lines 163-166) as an argument `easing`, a function of
the three numbers it reads: the time of the call, `ctx.animationStartTime` and
`style.snapAnimationDuration`.  `exactEasing` computes it in the field and gives back
`Manipulate`; `binary32Easing` computes it with the roundings of IEEE binary32. -/

/-- The eased parameter of header lines 163-166 in exact arithmetic, as a function of the time
of the call, the start time and the duration. -/
def exactEasing (time start duration : F) : F :=
  let elapsedTime := time - start
  let t := stdMin 1 (elapsedTime / duration)
  1 - (1 - t) * (1 - t)

/-- Rounding to the nearest integer, ties to the even one. -/
def roundHalfEven [FloorRing F] (x : F) : Int :=
  if x - ⌊x⌋ < 1 / 2 then ⌊x⌋
  else if 1 / 2 < x - ⌊x⌋ then ⌊x⌋ + 1
  else if ⌊x⌋ % 2 = 0 then ⌊x⌋ else ⌊x⌋ + 1

/-- The binary32 exponent of `x`: the `e` with `2^e ≤ |x| < 2^(e+1)`, and `-126` for every
smaller `|x|` (the subnormal numbers share the exponent of the smallest normal ones). -/
def exponent32 [FloorRing F] (x : F) : Int := Max.max (Int.log 2 |x|) (-126)

/-- Rounding of a number to IEEE binary32, round to nearest, ties to even: the nearest multiple
of `2^(e-23)` for the exponent `e` of `x` (24 significant bits).  Overflow to an infinity, for
`|x|` at `2^128 - 2^103` and above, is not represented. -/
def fl32 [FloorRing F] (x : F) : F :=
  (roundHalfEven (x / 2 ^ (exponent32 x - 23)) : F) * 2 ^ (exponent32 x - 23)

/-- The eased parameter of header lines 163-166 in binary32: each of the three subtractions,
the division and the multiplication is followed by a rounding; `std::min` and the constant
`1.0f` are exact.  The arguments are the binary32 numbers
`static_cast<float>(ImGui::GetTime())`, `ctx.animationStartTime` and
`style.snapAnimationDuration`.  A duration of 0, for which IEEE division gives an infinity or a
NaN, is outside this model; an animation is only started with a positive duration (header
line 321). -/
def binary32Easing [FloorRing F] (time start duration : F) : F :=
  let elapsedTime := fl32 (time - start)
  let t := stdMin 1 (fl32 (elapsedTime / duration))
  fl32 (1 - fl32 (fl32 (1 - t) * fl32 (1 - t)))

/-- Animation logic (header lines 161-195) with the eased parameter computed by `easing`. -/
def animationLogicWith (easing : F → F → F → F) (ops : MathOps F) (style : Style F)
    (input : HostInput F) (s : State F) : State F :=
  if s.ctx.isAnimating then
    let t := easing input.time s.ctx.animationStartTime style.snapAnimationDuration
    let dir := currentDir ops s.ctx t
    let startDistance := length ops s.ctx.startPos
    let targetDistance := length ops s.ctx.targetPos
    let currentDistance := mix startDistance targetDistance t
    let currentUp := normalize ops (mix3 s.ctx.startUp s.ctx.targetUp t)
    if 1 ≤ t then
      { ctx := { s.ctx with isAnimating := false },
        cameraPos := s.ctx.targetPos,
        cameraRot := quatLookAt ops (normalize ops s.ctx.targetPos) s.ctx.targetUp,
        wasModified := true }
    else
      { s with
        cameraPos := dir * currentDistance,
        cameraRot := quatLookAt ops dir currentUp,
        wasModified := true }
  else s

/-- The routine `Manipulate` (header lines 153-341) with the eased parameter computed by
`easing`: the four stages in source order, started with `wasModified = false`. -/
def ManipulateWith (easing : F → F → F → F) (ops : MathOps F) (style : Style F)
    (input : HostInput F) (ctx : Context F) (cameraPos : vec3 F) (cameraRot : quat F)
    (position : vec2 F) (snapDistance mouseSpeed : F) : State F :=
  let s0 : State F := ⟨ctx, cameraPos, cameraRot, false⟩
  let s1 := animationLogicWith easing ops style input s0
  let s2 := selectionLogic style input position s1
  let s3 := dragLogic ops input mouseSpeed s2
  snapLogic ops style input snapDistance s3

/-- One call of `ManipulateWith` on the context and camera left by the previous call; the
`wasModified` field of the result is the value returned by this call. -/
def callManipulateWith (easing : F → F → F → F) (ops : MathOps F) (style : Style F)
    (s : State F) (c : Call F) : State F :=
  ManipulateWith easing ops style c.input s.ctx s.cameraPos s.cameraRot c.position
    c.snapDistance c.mouseSpeed

/-- A sequence of calls of `ManipulateWith`, one per frame, in order. -/
def runCallsWith (easing : F → F → F → F) (ops : MathOps F) (style : Style F) (s : State F)
    (cs : List (Call F)) : State F :=
  cs.foldl (callManipulateWith easing ops style) s

/-- The default `Style` with the duration as the header's literal `0.3f` denotes it: the
binary32 number `10066330 / 2^25` nearest to `0.3`. -/
def binary32Style : Style F := { defaultStyle with snapAnimationDuration := 10066330 / 2 ^ 25 }

/-- GLM `dot` on `vec3` in binary32: the three products and the two sums, left to right, each
followed by a rounding. -/
def dot32 [FloorRing F] (a b : vec3 F) : F :=
  fl32 (fl32 (fl32 (a.x * b.x) + fl32 (a.y * b.y)) + fl32 (a.z * b.z))

/-- GLM `normalize` on `vec3` in binary32: `v * inversesqrt(dot(v, v))` with
`inversesqrt(x) = 1 / sqrt(x)`, every operation followed by a rounding. -/
def normalize32 [FloorRing F] (ops : MathOps F) (v : vec3 F) : vec3 F :=
  let s := fl32 (1 / fl32 (ops.sqrt (dot32 v v)))
  ⟨fl32 (v.x * s), fl32 (v.y * s), fl32 (v.z * s)⟩

end ImViewGuizmo

/-! ## Component lemmas for the vector operations -/

namespace glm

variable {F : Type} [LinearOrderedField F]

theorem vec3_add_def (a b : vec3 F) : a + b = ⟨a.x + b.x, a.y + b.y, a.z + b.z⟩ := rfl
theorem vec3_sub_def (a b : vec3 F) : a - b = ⟨a.x - b.x, a.y - b.y, a.z - b.z⟩ := rfl
theorem vec3_neg_def (a : vec3 F) : -a = ⟨-a.x, -a.y, -a.z⟩ := rfl
theorem vec3_mul_def (a : vec3 F) (s : F) : a * s = ⟨a.x * s, a.y * s, a.z * s⟩ := rfl
theorem vec3_smul_def (s : F) (a : vec3 F) : s * a = ⟨s * a.x, s * a.y, s * a.z⟩ := rfl
theorem vec3_div_def (a : vec3 F) (s : F) : a / s = ⟨a.x / s, a.y / s, a.z / s⟩ := rfl
theorem vec4_add_def (a b : vec4 F) :
    a + b = ⟨a.x + b.x, a.y + b.y, a.z + b.z, a.w + b.w⟩ := rfl
theorem vec4_sub_def (a b : vec4 F) :
    a - b = ⟨a.x - b.x, a.y - b.y, a.z - b.z, a.w - b.w⟩ := rfl
theorem vec4_mul_def (a b : vec4 F) :
    a * b = ⟨a.x * b.x, a.y * b.y, a.z * b.z, a.w * b.w⟩ := rfl
theorem vec4_smul_def (a : vec4 F) (s : F) :
    a * s = ⟨a.x * s, a.y * s, a.z * s, a.w * s⟩ := rfl

end glm

namespace ImViewGuizmo

open glm

variable {F : Type} [LinearOrderedField F]

/-! ## Stage lemmas -/

theorem animationLogic_isDragging (ops : MathOps F) (style : Style F) (input : HostInput F)
    (s : State F) : (animationLogic ops style input s).ctx.isDragging = s.ctx.isDragging := by
  unfold animationLogic
  split
  · dsimp only
    split <;> rfl
  · rfl

theorem animationLogic_isAnimating (ops : MathOps F) (style : Style F) (input : HostInput F)
    (s : State F) :
    (animationLogic ops style input s).ctx.isAnimating
      = (s.ctx.isAnimating && decide (easedT style input s.ctx < 1)) := by
  unfold animationLogic
  by_cases h : s.ctx.isAnimating = true
  · by_cases ht : 1 ≤ easedT style input s.ctx
    · simp [h, ht]
    · simp [h, ht, not_le.mp ht]
  · simp [h]

theorem selectionLogic_flags (style : Style F) (input : HostInput F) (position : vec2 F)
    (s : State F) :
    (selectionLogic style input position s).ctx.isDragging = s.ctx.isDragging ∧
    (selectionLogic style input position s).ctx.isAnimating = s.ctx.isAnimating ∧
    (selectionLogic style input position s).cameraPos = s.cameraPos ∧
    (selectionLogic style input position s).cameraRot = s.cameraRot ∧
    (selectionLogic style input position s).wasModified = s.wasModified := by
  unfold selectionLogic
  split <;> simp

theorem selectionLogic_hovered (style : Style F) (input : HostInput F) (position : vec2 F)
    (s : State F) :
    (selectionLogic style input position s).ctx.hoveredAxisID =
      if s.ctx.isDragging = false ∧ s.ctx.isAnimating = false then
        hitTest style position input.mousePos s.cameraPos s.cameraRot
      else -1 := by
  unfold selectionLogic
  cases s.ctx.isDragging <;> cases s.ctx.isAnimating <;> simp

theorem dragLogic_hovered (ops : MathOps F) (input : HostInput F) (mouseSpeed : F) (s : State F) :
    (dragLogic ops input mouseSpeed s).ctx.hoveredAxisID = s.ctx.hoveredAxisID := by
  unfold dragLogic
  cases input.mouseDown <;> cases hd : s.ctx.isDragging <;>
    by_cases h : s.ctx.hoveredAxisID = 6 <;> simp [*]

theorem dragLogic_isDragging (ops : MathOps F) (input : HostInput F) (mouseSpeed : F)
    (s : State F) :
    (dragLogic ops input mouseSpeed s).ctx.isDragging
      = (input.mouseDown && (s.ctx.isDragging || decide (s.ctx.hoveredAxisID = 6))) := by
  unfold dragLogic
  cases input.mouseDown <;> cases hd : s.ctx.isDragging <;>
    by_cases h : s.ctx.hoveredAxisID = 6 <;> simp [*]

theorem dragLogic_isAnimating (ops : MathOps F) (input : HostInput F) (mouseSpeed : F)
    (s : State F) :
    (dragLogic ops input mouseSpeed s).ctx.isAnimating
      = (s.ctx.isAnimating &&
          !(input.mouseDown && !s.ctx.isDragging && decide (s.ctx.hoveredAxisID = 6))) := by
  unfold dragLogic
  cases input.mouseDown <;> cases hd : s.ctx.isDragging <;>
    by_cases h : s.ctx.hoveredAxisID = 6 <;> simp [*]

theorem dragLogic_wasModified (ops : MathOps F) (input : HostInput F) (mouseSpeed : F)
    (s : State F) :
    (dragLogic ops input mouseSpeed s).wasModified
      = (s.wasModified || (dragLogic ops input mouseSpeed s).ctx.isDragging) := by
  unfold dragLogic
  cases input.mouseDown <;> cases hd : s.ctx.isDragging <;>
    by_cases h : s.ctx.hoveredAxisID = 6 <;> simp [*]

theorem dragLogic_camera (ops : MathOps F) (input : HostInput F) (mouseSpeed : F)
    (s : State F) :
    ((dragLogic ops input mouseSpeed s).cameraPos, (dragLogic ops input mouseSpeed s).cameraRot)
      = if (dragLogic ops input mouseSpeed s).ctx.isDragging then
          (quatRotate (totalRotation ops input mouseSpeed s.cameraRot) s.cameraPos,
           quatMul (totalRotation ops input mouseSpeed s.cameraRot) s.cameraRot)
        else (s.cameraPos, s.cameraRot) := by
  unfold dragLogic
  cases input.mouseDown <;> cases hd : s.ctx.isDragging <;>
    by_cases h : s.ctx.hoveredAxisID = 6 <;> simp [*]

theorem snapLogic_hovered (ops : MathOps F) (style : Style F) (input : HostInput F)
    (snapDistance : F) (s : State F) :
    (snapLogic ops style input snapDistance s).ctx.hoveredAxisID = s.ctx.hoveredAxisID ∧
    (snapLogic ops style input snapDistance s).ctx.isDragging = s.ctx.isDragging := by
  unfold snapLogic
  split
  · dsimp only
    split
    · split <;> simp [beginAnimation]
    · simp
  · simp

theorem snapLogic_isAnimating_imp (ops : MathOps F) (style : Style F) (input : HostInput F)
    (snapDistance : F) (s : State F)
    (h : (snapLogic ops style input snapDistance s).ctx.isAnimating = true) :
    s.ctx.isAnimating = true ∨ (0 ≤ s.ctx.hoveredAxisID ∧ s.ctx.hoveredAxisID ≤ 5) := by
  unfold snapLogic at h
  split at h
  · rename_i hg
    simp only [Bool.and_eq_true, decide_eq_true_eq] at hg
    exact Or.inr ⟨hg.1.1.2, hg.1.2⟩
  · exact Or.inl h

theorem stdMin_one_lt_one (x : F) : stdMin 1 x < 1 ↔ x < 1 := by
  unfold stdMin
  split <;> simp [*]

theorem stdMin_one_le_one (x : F) : stdMin 1 x ≤ 1 := by
  unfold stdMin
  split
  · exact le_of_lt (by assumption)
  · exact le_refl 1

theorem easedT_lt_one_iff (style : Style F) (input : HostInput F) (ctx : Context F) :
    easedT style input ctx < 1 ↔
      (input.time - ctx.animationStartTime) / style.snapAnimationDuration < 1 := by
  refine Iff.trans ?_ (stdMin_one_lt_one _)
  unfold easedT
  dsimp only
  have hle := stdMin_one_le_one
    ((input.time - ctx.animationStartTime) / style.snapAnimationDuration)
  generalize stdMin 1 ((input.time - ctx.animationStartTime) / style.snapAnimationDuration) = t
    at hle
  constructor
  · intro h
    rcases lt_or_eq_of_le hle with h2 | h2
    · exact h2
    · subst h2
      simp at h
  · intro h
    nlinarith [mul_pos (sub_pos.mpr h) (sub_pos.mpr h)]

theorem easedT_le_one (style : Style F) (input : HostInput F) (ctx : Context F) :
    easedT style input ctx ≤ 1 := by
  unfold easedT
  dsimp only
  nlinarith [mul_self_nonneg
    (1 - stdMin 1 ((input.time - ctx.animationStartTime) / style.snapAnimationDuration))]

/-- While the animation is in progress (eased parameter below one) and no drag is active, a
call keeps animating, starts no drag, hovers nothing, keeps the stored animation data and
reports a modification. -/
theorem Manipulate_in_progress (ops : MathOps F) (style : Style F) (input : HostInput F)
    (ctx : Context F) (cameraPos : vec3 F) (cameraRot : quat F) (position : vec2 F)
    (snapDistance mouseSpeed : F)
    (ha : ctx.isAnimating = true) (hd : ctx.isDragging = false)
    (ht : easedT style input ctx < 1) :
    Manipulate ops style input ctx cameraPos cameraRot position snapDistance mouseSpeed =
      { ctx := { ctx with hoveredAxisID := -1 },
        cameraPos := currentDir ops ctx (easedT style input ctx) *
          mix (length ops ctx.startPos) (length ops ctx.targetPos) (easedT style input ctx),
        cameraRot := quatLookAt ops (currentDir ops ctx (easedT style input ctx))
          (normalize ops (mix3 ctx.startUp ctx.targetUp (easedT style input ctx))),
        wasModified := true } := by
  have ht' : ¬ 1 ≤ easedT style input ctx := not_le.mpr ht
  unfold Manipulate animationLogic selectionLogic dragLogic snapLogic
  cases hm : input.mouseDown <;> simp [ha, hd, ht']

/-- Within `Manipulate` the assignment `ctx.isAnimating = false` of the drag start (header
line 292) never changes the flag: the hover id can only be 6 when no animation is running. -/
theorem dragLogic_interrupt_dead (ops : MathOps F) (style : Style F) (input : HostInput F)
    (position : vec2 F) (mouseSpeed : F) (s : State F) :
    (dragLogic ops input mouseSpeed (selectionLogic style input position s)).ctx.isAnimating
      = s.ctx.isAnimating := by
  rw [dragLogic_isAnimating, selectionLogic_hovered, (selectionLogic_flags _ _ _ _).1,
    (selectionLogic_flags _ _ _ _).2.1]
  cases hd : s.ctx.isDragging <;> cases ha : s.ctx.isAnimating <;> simp

/-- The snap stage leaves the camera alone unless it sets `wasModified`. -/
theorem snapLogic_unmodified (ops : MathOps F) (style : Style F) (input : HostInput F)
    (snapDistance : F) (s : State F)
    (h : (snapLogic ops style input snapDistance s).wasModified = false) :
    s.wasModified = false ∧
      (snapLogic ops style input snapDistance s).cameraPos = s.cameraPos ∧
      (snapLogic ops style input snapDistance s).cameraRot = s.cameraRot := by
  unfold snapLogic at h ⊢
  by_cases hg : (input.mouseReleased && decide (0 ≤ s.ctx.hoveredAxisID)
      && decide (s.ctx.hoveredAxisID ≤ 5) && !input.mouseDragging) = true
  · simp only [hg, if_true] at h ⊢
    by_cases ha : (style.animateSnap && decide (0 < style.snapAnimationDuration)) = true
    · simp only [ha, if_true] at h ⊢
      split at h
      · rename_i hdiff
        rw [if_pos hdiff]
        exact ⟨h, rfl, rfl⟩
      · rename_i hdiff
        rw [if_neg hdiff]
        exact ⟨h, rfl, rfl⟩
    · simp [ha] at h
  · simp only [hg, if_false] at h ⊢
    exact ⟨h, rfl, rfl⟩

/-- The animation stage is the identity unless it sets `wasModified`. -/
theorem animationLogic_unmodified (ops : MathOps F) (style : Style F) (input : HostInput F)
    (s : State F) (h : (animationLogic ops style input s).wasModified = false) :
    animationLogic ops style input s = s := by
  unfold animationLogic at h ⊢
  by_cases ha : s.ctx.isAnimating = true
  · simp only [ha, if_true] at h
    split at h <;> simp at h
  · simp only [ha, if_false]
    trivial

/-- A call that returns `false` has written neither camera reference. -/
theorem Manipulate_false_camera (ops : MathOps F) (style : Style F) (input : HostInput F)
    (ctx : Context F) (cameraPos : vec3 F) (cameraRot : quat F) (position : vec2 F)
    (snapDistance mouseSpeed : F)
    (h : (Manipulate ops style input ctx cameraPos cameraRot position snapDistance
      mouseSpeed).wasModified = false) :
    (Manipulate ops style input ctx cameraPos cameraRot position snapDistance
      mouseSpeed).cameraPos = cameraPos ∧
    (Manipulate ops style input ctx cameraPos cameraRot position snapDistance
      mouseSpeed).cameraRot = cameraRot := by
  unfold Manipulate at h ⊢
  dsimp only at h ⊢
  generalize hs1 : animationLogic ops style input ⟨ctx, cameraPos, cameraRot, false⟩ = s1
    at h ⊢
  generalize hs2 : selectionLogic style input position s1 = s2 at h ⊢
  generalize hs3 : dragLogic ops input mouseSpeed s2 = s3 at h ⊢
  -- the snap stage
  have h4 := snapLogic_unmodified ops style input snapDistance s3 h
  -- the drag stage
  have hw3 := dragLogic_wasModified ops input mouseSpeed s2
  have hc3 := dragLogic_camera ops input mouseSpeed s2
  rw [hs3] at hw3 hc3
  rw [h4.1] at hw3
  have hw2 : s2.wasModified = false ∧ s3.ctx.isDragging = false := by
    cases h2 : s2.wasModified <;> cases h3 : s3.ctx.isDragging <;> simp [h2, h3] at hw3 ⊢
  rw [hw2.2] at hc3
  simp only [Bool.false_eq_true, if_false, Prod.mk.injEq] at hc3
  -- the selection stage
  have hsel := selectionLogic_flags style input position s1
  rw [hs2] at hsel
  -- the animation stage
  have h1 : s1.wasModified = false := by rw [← hsel.2.2.2.2]; exact hw2.1
  have hs1' : s1 = ⟨ctx, cameraPos, cameraRot, false⟩ := by
    rw [← hs1] at h1 ⊢
    exact animationLogic_unmodified ops style input _ h1
  rw [h4.2.1, h4.2.2, hc3.1, hc3.2, hsel.2.2.1, hsel.2.2.2.1, hs1']
  exact ⟨rfl, rfl⟩

theorem worldMatrix_eq (cameraPos : vec3 F) (cameraRot : quat F) :
    mat4_mul (glm.translate mat4_identity cameraPos) (mat4_cast cameraRot) =
      ⟨⟨(mat3_cast cameraRot).c0.x, (mat3_cast cameraRot).c0.y, (mat3_cast cameraRot).c0.z, 0⟩,
       ⟨(mat3_cast cameraRot).c1.x, (mat3_cast cameraRot).c1.y, (mat3_cast cameraRot).c1.z, 0⟩,
       ⟨(mat3_cast cameraRot).c2.x, (mat3_cast cameraRot).c2.y, (mat3_cast cameraRot).c2.z, 0⟩,
       ⟨cameraPos.x, cameraPos.y, cameraPos.z, 1⟩⟩ := by
  simp [mat4_mul, glm.translate, mat4_identity, mat4_cast, mat4_of_mat3, vec4_add_def,
    vec4_smul_def]

/-- The upper-left block of the inverse of an affine matrix does not depend on the
translation column. -/
theorem inverse_affine_block (a b c t : vec3 F) :
    mat3_of_mat4 (glm.inverse ⟨⟨a.x, a.y, a.z, 0⟩, ⟨b.x, b.y, b.z, 0⟩, ⟨c.x, c.y, c.z, 0⟩,
      ⟨t.x, t.y, t.z, 1⟩⟩) =
    mat3_of_mat4 (glm.inverse ⟨⟨a.x, a.y, a.z, 0⟩, ⟨b.x, b.y, b.z, 0⟩, ⟨c.x, c.y, c.z, 0⟩,
      ⟨0, 0, 0, 1⟩⟩) := by
  simp [glm.inverse, mat3_of_mat4, vec4_add_def, vec4_sub_def, vec4_mul_def, vec4_smul_def]

theorem gizmoViewMatrix_origin (cameraPos : vec3 F) (cameraRot : quat F) :
    gizmoViewMatrix cameraPos cameraRot = gizmoViewMatrix ⟨0, 0, 0⟩ cameraRot := by
  unfold gizmoViewMatrix
  dsimp only
  rw [worldMatrix_eq, worldMatrix_eq, inverse_affine_block]

theorem gizmoViewMatrix_identityRot (cameraPos : vec3 F) :
    gizmoViewMatrix cameraPos identityRot = mat4_identity := by
  rw [gizmoViewMatrix_origin]
  simp [gizmoViewMatrix, identityRot, mat4_identity, mat4_cast, mat3_cast, mat4_of_mat3,
    mat3_of_mat4, glm.translate, mat4_mul, glm.inverse, vec4_add_def, vec4_sub_def, vec4_mul_def,
    vec4_smul_def]

theorem gizmoMvp_identityRot (cameraPos : vec3 F) :
    gizmoMvp cameraPos identityRot =
      ⟨⟨-1, 0, 0, 0⟩, ⟨0, 1, 0, 0⟩, ⟨0, 0, -(1 / 100), 0⟩, ⟨0, 0, 0, 1⟩⟩ := by
  rw [gizmoMvp, gizmoViewMatrix_identityRot]
  simp [gizmoProjectionMatrix, ortho, mat4_identity, mat4_mul, vec4_add_def, vec4_smul_def]
  norm_num

theorem sortedAxes_identity :
    sortedAxes (mat4_identity : mat4 F) =
      [⟨5, 2, -1, ⟨0, 0, -1⟩⟩, ⟨0, 0, 0, ⟨1, 0, 0⟩⟩, ⟨1, 0, 0, ⟨-1, 0, 0⟩⟩,
       ⟨2, 1, 0, ⟨0, 1, 0⟩⟩, ⟨3, 1, 0, ⟨0, -1, 0⟩⟩, ⟨4, 2, 1, ⟨0, 0, 1⟩⟩] := by
  norm_num [sortedAxes, unsortedAxes, axisPair, axisVectors, mat4_identity, mat4_mulVec,
    vec4_add_def, vec4_smul_def, vec3_neg_def, List.insertionSort, List.orderedInsert]

theorem hitTest_identity_center (cameraPos : vec3 F) :
    hitTest defaultStyle (⟨100, 100⟩ : vec2 F) ⟨100, 100⟩ cameraPos identityRot = 4 := by
  unfold hitTest
  rw [gizmoMvp_identityRot, gizmoViewMatrix_identityRot, sortedAxes_identity]
  simp [handleStep, worldToScreen, mat4_mulVec, ImLengthSqr, defaultStyle, baseSize,
    vec4_add_def, vec4_smul_def, vec3_mul_def, vec3_div_def]
  norm_num

theorem snapTargetDir_eq (k : Int) (hk0 : 0 ≤ k) (hk5 : k ≤ 5) :
    (snapTargetDir k : vec3 F) =
      (if k % 2 = 0 then (-1 : F) else 1) * (axisVectors (k / 2) : vec3 F) := by
  interval_cases k <;> simp [snapTargetDir, Int.tdiv, Int.tmod]

theorem snapTargetUp_eq (k : Int) (hk0 : 0 ≤ k) (hk5 : k ≤ 5) :
    (snapTargetUp k : vec3 F) = if k / 2 = 1 then -worldForward else -worldUp := by
  interval_cases k <;> simp [snapTargetUp, Int.tdiv]

/-- If a call leaves an axis id `0..5` in `hoveredAxisID`, then after the animation stage no
drag and no animation was active, the hit test returned that id, and the rest of the call is
the snap stage alone. -/
theorem Manipulate_of_hover_axis (ops : MathOps F) (style : Style F) (input : HostInput F)
    (ctx : Context F) (cameraPos : vec3 F) (cameraRot : quat F) (position : vec2 F)
    (snapDistance mouseSpeed : F) (k : Int) (hk0 : 0 ≤ k) (hk5 : k ≤ 5)
    (hh : (Manipulate ops style input ctx cameraPos cameraRot position snapDistance
      mouseSpeed).ctx.hoveredAxisID = k) :
    (animationLogic ops style input ⟨ctx, cameraPos, cameraRot, false⟩).ctx.isDragging = false ∧
    (animationLogic ops style input ⟨ctx, cameraPos, cameraRot, false⟩).ctx.isAnimating = false ∧
    hitTest style position input.mousePos
      (animationLogic ops style input ⟨ctx, cameraPos, cameraRot, false⟩).cameraPos
      (animationLogic ops style input ⟨ctx, cameraPos, cameraRot, false⟩).cameraRot = k ∧
    Manipulate ops style input ctx cameraPos cameraRot position snapDistance mouseSpeed =
      snapLogic ops style input snapDistance
        { animationLogic ops style input ⟨ctx, cameraPos, cameraRot, false⟩ with
          ctx := { (animationLogic ops style input ⟨ctx, cameraPos, cameraRot, false⟩).ctx with
            hoveredAxisID := k } } := by
  unfold Manipulate at hh ⊢
  dsimp only at hh ⊢
  generalize animationLogic ops style input ⟨ctx, cameraPos, cameraRot, false⟩ = s1 at hh ⊢
  rw [(snapLogic_hovered _ _ _ _ _).1, dragLogic_hovered, selectionLogic_hovered] at hh
  by_cases hc : s1.ctx.isDragging = false ∧ s1.ctx.isAnimating = false
  · rw [if_pos hc] at hh
    refine ⟨hc.1, hc.2, hh, ?_⟩
    congr 1
    have hne : ¬ k = 6 := by omega
    unfold dragLogic selectionLogic
    cases hm : input.mouseDown <;> simp [hc.1, hc.2, hh, hne]
  · rw [if_neg hc] at hh
    omega

/-- The snap stage, entered without a running animation and left with one, stored the snap
target of the hovered id and the time of the call, and did not touch the camera. -/
theorem snapLogic_trigger (ops : MathOps F) (style : Style F) (input : HostInput F)
    (snapDistance : F) (s : State F) (hn : s.ctx.isAnimating = false)
    (ha : (snapLogic ops style input snapDistance s).ctx.isAnimating = true) :
    snapLogic ops style input snapDistance s =
      beginAnimation input.time ((snapTargetDir s.ctx.hoveredAxisID : vec3 F) * snapDistance)
        (snapTargetUp s.ctx.hoveredAxisID) s := by
  unfold snapLogic at ha ⊢
  split at ha
  · rename_i hg
    rw [if_pos hg]
    dsimp only at ha ⊢
    split at ha
    · rename_i h1
      rw [if_pos h1]
      split at ha
      · rename_i h2
        rw [if_pos h2]
      · rw [hn] at ha
        exact absurd ha (by simp)
    · dsimp only at ha
      rw [hn] at ha
      exact absurd ha (by simp)
  · rw [hn] at ha
    exact absurd ha (by simp)

theorem hitTest_identity_left (cameraPos : vec3 F) :
    hitTest defaultStyle (⟨100, 100⟩ : vec2 F) ⟨36, 100⟩ cameraPos identityRot = 0 := by
  unfold hitTest
  rw [gizmoMvp_identityRot, gizmoViewMatrix_identityRot, sortedAxes_identity]
  simp [handleStep, worldToScreen, mat4_mulVec, ImLengthSqr, defaultStyle, baseSize,
    vec4_add_def, vec4_smul_def, vec3_mul_def, vec3_div_def]
  norm_num

theorem dot_self_nonneg (v : vec3 F) : 0 ≤ dot v v := by
  unfold dot
  nlinarith [mul_self_nonneg v.x, mul_self_nonneg v.y, mul_self_nonneg v.z]

theorem mix3_zero (x y : vec3 F) : mix3 x y 0 = x := by
  simp [mix3, vec3_add_def, vec3_mul_def]

theorem mix_zero (x y : F) : mix x y 0 = x := by
  simp [mix]

theorem sqrt_one_of_laws (ops : MathOps F)
    (hsq : ∀ x : F, 0 ≤ x → ops.sqrt x * ops.sqrt x = x) (hnn : ∀ x : F, 0 ≤ ops.sqrt x) :
    ops.sqrt 1 = 1 := by
  have h1 := hsq 1 zero_le_one
  have h2 := hnn 1
  nlinarith [mul_self_nonneg (ops.sqrt 1 - 1)]

/-- A normalised vector of positive length has unit squared length. -/
theorem dot_normalize (ops : MathOps F)
    (hsq : ∀ x : F, 0 ≤ x → ops.sqrt x * ops.sqrt x = x) (v : vec3 F)
    (hv : 0 < length ops v) : dot (normalize ops v) (normalize ops v) = 1 := by
  have hs := hsq (dot v v) (dot_self_nonneg v)
  unfold length at hv
  have hne : ops.sqrt (dot v v) ≠ 0 := ne_of_gt hv
  unfold glm.normalize glm.inversesqrt
  generalize ops.sqrt (dot v v) = s at hs hne
  have : dot (v * (1 / s)) (v * (1 / s)) = dot v v * ((1 / s) * (1 / s)) := by
    simp only [dot, vec3_mul_def]
    ring
  rw [this, ← hs]
  field_simp

theorem normalize_normalize (ops : MathOps F)
    (hsq : ∀ x : F, 0 ≤ x → ops.sqrt x * ops.sqrt x = x) (hnn : ∀ x : F, 0 ≤ ops.sqrt x)
    (v : vec3 F) (hv : 0 < length ops v) :
    normalize ops (normalize ops v) = normalize ops v := by
  have h1 := dot_normalize ops hsq v hv
  have : normalize ops (normalize ops v)
      = normalize ops v * (1 / ops.sqrt (dot (normalize ops v) (normalize ops v))) := rfl
  rw [this, h1, sqrt_one_of_laws ops hsq hnn]
  simp [vec3_mul_def]

theorem normalize_mul_length (ops : MathOps F) (v : vec3 F) (hv : 0 < length ops v) :
    normalize ops v * length ops v = v := by
  unfold length at hv ⊢
  have hne : ops.sqrt (dot v v) ≠ 0 := ne_of_gt hv
  unfold glm.normalize glm.inversesqrt
  simp [vec3_mul_def, hne]

theorem easedT_at_start (style : Style F) (input : HostInput F) (ctx : Context F)
    (h : input.time = ctx.animationStartTime) : easedT style input ctx = 0 := by
  simp [easedT, h, stdMin]

/-- The state left by a call that starts from rest (no animation running) and triggers an
animated snap to the axis id `k`: the camera is untouched and the context stores the start and
target of the animation. -/
theorem trigger_from_rest (ops : MathOps F) (style : Style F) (s0 : State F) (trigger : Call F)
    (k : Int) (hk0 : 0 ≤ k) (hk5 : k ≤ 5) (hrest : s0.ctx.isAnimating = false)
    (hhov : (callManipulate ops style s0 trigger).ctx.hoveredAxisID = k)
    (hanim : (callManipulate ops style s0 trigger).ctx.isAnimating = true) :
    s0.ctx.isDragging = false ∧
    callManipulate ops style s0 trigger =
      beginAnimation trigger.input.time ((snapTargetDir k : vec3 F) * trigger.snapDistance)
        (snapTargetUp k)
        ⟨{ s0.ctx with hoveredAxisID := k }, s0.cameraPos, s0.cameraRot, false⟩ := by
  obtain ⟨hdr1, han1, _, hM⟩ := Manipulate_of_hover_axis ops style trigger.input s0.ctx
    s0.cameraPos s0.cameraRot trigger.position trigger.snapDistance trigger.mouseSpeed k hk0 hk5
    hhov
  have hs1 : animationLogic ops style trigger.input ⟨s0.ctx, s0.cameraPos, s0.cameraRot, false⟩
      = ⟨s0.ctx, s0.cameraPos, s0.cameraRot, false⟩ := by
    simp [animationLogic, hrest]
  rw [hs1] at hdr1 han1 hM
  have hcall : callManipulate ops style s0 trigger = _ := hM
  rw [hcall] at hanim
  have htrig := snapLogic_trigger ops style trigger.input trigger.snapDistance
    { (⟨s0.ctx, s0.cameraPos, s0.cameraRot, false⟩ : State F) with
      ctx := { s0.ctx with hoveredAxisID := k } } han1 hanim
  exact ⟨hdr1, hcall.trans htrig⟩

/-- The animation tick at elapsed time zero, after a snap triggered from rest at a pose whose
position and whose target are farther than `0.0001` from the origin: the position written is
the start position, the rotation written is the look-at rotation along the start direction
with the start pose's up vector. -/
theorem tick_at_start (ops : MathOps F)
    (hsq : ∀ x : F, 0 ≤ x → ops.sqrt x * ops.sqrt x = x) (hnn : ∀ x : F, 0 ≤ ops.sqrt x)
    (style : Style F) (s0 : State F) (trigger tick : Call F)
    (k : Int) (hk0 : 0 ≤ k) (hk5 : k ≤ 5) (hrest : s0.ctx.isAnimating = false)
    (hhov : (callManipulate ops style s0 trigger).ctx.hoveredAxisID = k)
    (hanim : (callManipulate ops style s0 trigger).ctx.isAnimating = true)
    (hP : 1 / 10000 < length ops s0.cameraPos)
    (hT : 1 / 10000 < length ops ((snapTargetDir k : vec3 F) * trigger.snapDistance))
    (htime : tick.input.time = trigger.input.time) :
    (runCalls ops style s0 [trigger, tick]).cameraPos = s0.cameraPos ∧
    (runCalls ops style s0 [trigger, tick]).cameraRot =
      quatLookAt ops (normalize ops s0.cameraPos)
        (normalize ops (quatRotate s0.cameraRot ⟨0, 1, 0⟩)) := by
  obtain ⟨hdr, hcall⟩ := trigger_from_rest ops style s0 trigger k hk0 hk5 hrest hhov hanim
  have hrun : runCalls ops style s0 [trigger, tick]
      = callManipulate ops style (callManipulate ops style s0 trigger) tick := rfl
  rw [hrun, hcall]
  generalize hc : beginAnimation trigger.input.time
    ((snapTargetDir k : vec3 F) * trigger.snapDistance) (snapTargetUp k)
    ⟨{ s0.ctx with hoveredAxisID := k }, s0.cameraPos, s0.cameraRot, false⟩ = s1
  have hs1 : s1.ctx.isAnimating = true ∧ s1.ctx.isDragging = false ∧
      s1.ctx.animationStartTime = trigger.input.time ∧ s1.ctx.startPos = s0.cameraPos ∧
      s1.ctx.targetPos = (snapTargetDir k : vec3 F) * trigger.snapDistance ∧
      s1.ctx.startUp = quatRotate s0.cameraRot ⟨0, 1, 0⟩ := by
    rw [← hc]
    exact ⟨rfl, hdr, rfl, rfl, rfl, rfl⟩
  obtain ⟨h1, h2, h3, h4, h5, h6⟩ := hs1
  have h0 : easedT style tick.input s1.ctx = 0 := easedT_at_start _ _ _ (htime.trans h3.symm)
  have hPpos : 0 < length ops s0.cameraPos := lt_trans (by norm_num) hP
  unfold callManipulate
  rw [Manipulate_in_progress ops style tick.input s1.ctx _ _ _ _ _ h1 h2
    (by rw [h0]; exact zero_lt_one)]
  dsimp only
  rw [h0, mix_zero, mix3_zero]
  have hdir : currentDir ops s1.ctx 0 = normalize ops s0.cameraPos := by
    unfold currentDir
    rw [h4, h5, if_pos ⟨hP, hT⟩]
    dsimp only
    rw [mix3_zero, normalize_normalize ops hsq hnn _ hPpos]
  rw [hdir, h4, h6, normalize_mul_length ops _ hPpos]
  exact ⟨rfl, rfl⟩

theorem real_sqrt_four : Real.sqrt 4 = 2 := by
  rw [show (4 : ℝ) = 2 * 2 by norm_num]
  exact Real.sqrt_mul_self (by norm_num)

/-- In the snap scenario the click at `(36,100)` hovers the handle with id 0. -/
theorem scenario_trigger_hover :
    (callManipulate (⟨Real.sqrt, Real.sin, Real.cos⟩ : MathOps ℝ) defaultStyle scenarioStart
      (scenarioCall (clickInput 0 ⟨36, 100⟩))).ctx.hoveredAxisID = 0 := by
  unfold callManipulate Manipulate
  dsimp only
  rw [(snapLogic_hovered _ _ _ _ _).1, dragLogic_hovered, selectionLogic_hovered]
  have h := hitTest_identity_left (F := ℝ) ⟨0, 0, 5⟩
  simpa [animationLogic, initialContext, clickInput, idleInput, scenarioStart, scenarioCall]
    using h

/-- In the snap scenario the click at `(36,100)` starts the animation. -/
theorem scenario_trigger_animating :
    (callManipulate (⟨Real.sqrt, Real.sin, Real.cos⟩ : MathOps ℝ) defaultStyle scenarioStart
      (scenarioCall (clickInput 0 ⟨36, 100⟩))).ctx.isAnimating = true := by
  have hM := (Manipulate_of_hover_axis _ _ _ _ _ _ _ _ _ 0 (le_refl 0) (by norm_num)
    scenario_trigger_hover).2.2.2
  unfold callManipulate
  rw [hM]
  simp [snapLogic, beginAnimation, animationLogic, scenarioStart, scenarioCall, clickInput,
    idleInput, initialContext, defaultStyle, snapTargetDir, Int.tdiv, Int.tmod, axisVectors,
    length2, dot, vec3_sub_def, vec3_mul_def, vec3_smul_def]
  norm_num

theorem scenario_lookAt :
    quatLookAt (⟨Real.sqrt, Real.sin, Real.cos⟩ : MathOps ℝ)
      (normalize ⟨Real.sqrt, Real.sin, Real.cos⟩ ⟨0, 0, 5⟩)
      (normalize ⟨Real.sqrt, Real.sin, Real.cos⟩ (quatRotate identityRot ⟨0, 1, 0⟩))
      = ⟨0, 0, 1, 0⟩ := by
  have h1 : normalize (⟨Real.sqrt, Real.sin, Real.cos⟩ : MathOps ℝ) ⟨0, 0, 5⟩ = ⟨0, 0, 1⟩ := by
    simp [glm.normalize, glm.inversesqrt, dot, vec3_mul_def]
  have h2 : normalize (⟨Real.sqrt, Real.sin, Real.cos⟩ : MathOps ℝ)
      (quatRotate identityRot ⟨0, 1, 0⟩) = ⟨0, 1, 0⟩ := by
    simp [glm.normalize, glm.inversesqrt, dot, vec3_mul_def, vec3_add_def, quatRotate, cross,
      identityRot]
  rw [h1, h2]
  simp [quatLookAt, quat_cast, cross, dot, glm.max, glm.inversesqrt, vec3_neg_def, vec3_mul_def]
  norm_num [real_sqrt_four]

theorem currentDir_eq (ops : MathOps F) (ctx : Context F) (t : F) :
    currentDir ops ctx t = normalize ops (blendedDir ops ctx t) := by
  unfold currentDir blendedDir
  split <;> rfl

/-- Under the two square-root laws, `sqrt x` is the only non-negative root of `x`. -/
theorem sqrt_unique (ops : MathOps F)
    (hsq : ∀ x : F, 0 ≤ x → ops.sqrt x * ops.sqrt x = x) (hnn : ∀ x : F, 0 ≤ ops.sqrt x)
    (x y : F) (hy : 0 ≤ y) (hxy : y * y = x) : ops.sqrt x = y := by
  have hx : 0 ≤ x := by rw [← hxy]; exact mul_self_nonneg y
  have h1 := hsq x hx
  have h2 := hnn x
  have h3 : (ops.sqrt x - y) * (ops.sqrt x + y) = 0 := by
    have : (ops.sqrt x - y) * (ops.sqrt x + y) = ops.sqrt x * ops.sqrt x - y * y := by ring
    rw [this, h1, hxy, sub_self]
  rcases mul_eq_zero.mp h3 with h | h
  · exact sub_eq_zero.mp h
  · have hs0 : ops.sqrt x = 0 := by linarith
    have hy0 : y = 0 := by linarith
    rw [hs0, hy0]

theorem vec3_eq_zero_of_dot (v : vec3 F) (h : dot v v = 0) : v = ⟨0, 0, 0⟩ := by
  unfold dot at h
  have hx : v.x = 0 := by
    have := mul_self_nonneg v.x; have := mul_self_nonneg v.y; have := mul_self_nonneg v.z
    exact mul_self_eq_zero.mp (by linarith)
  have hy : v.y = 0 := by
    have := mul_self_nonneg v.x; have := mul_self_nonneg v.y; have := mul_self_nonneg v.z
    exact mul_self_eq_zero.mp (by linarith)
  have hz : v.z = 0 := by
    have := mul_self_nonneg v.x; have := mul_self_nonneg v.y; have := mul_self_nonneg v.z
    exact mul_self_eq_zero.mp (by linarith)
  cases v
  simp_all

theorem length_pos_of_ne_zero (ops : MathOps F)
    (hsq : ∀ x : F, 0 ≤ x → ops.sqrt x * ops.sqrt x = x) (hnn : ∀ x : F, 0 ≤ ops.sqrt x)
    (v : vec3 F) (hv : v ≠ ⟨0, 0, 0⟩) : 0 < length ops v := by
  unfold length
  rcases lt_or_eq_of_le (hnn (dot v v)) with h | h
  · exact h
  · exfalso
    have h1 := hsq (dot v v) (dot_self_nonneg v)
    rw [← h] at h1
    exact hv (vec3_eq_zero_of_dot v (by simpa using h1.symm))

/-- The length of a non-negative multiple of a unit vector is the multiplier. -/
theorem length_unit_mul (ops : MathOps F)
    (hsq : ∀ x : F, 0 ≤ x → ops.sqrt x * ops.sqrt x = x) (hnn : ∀ x : F, 0 ≤ ops.sqrt x)
    (v : vec3 F) (hv : dot v v = 1) (c : F) (hc : 0 ≤ c) : length ops (v * c) = c := by
  unfold length
  apply sqrt_unique ops hsq hnn _ _ hc
  have : dot (v * c) (v * c) = dot v v * (c * c) := by
    simp only [dot, vec3_mul_def]
    ring
  rw [this, hv, one_mul]

theorem blend_between (a b t : F) (h0 : 0 ≤ t) (h1 : t ≤ 1) :
    min a b ≤ (1 - t) * a + t * b ∧ (1 - t) * a + t * b ≤ Max.max a b := by
  rcases le_total a b with h | h
  · rw [min_eq_left h, max_eq_right h]
    constructor <;> nlinarith
  · rw [min_eq_right h, max_eq_left h]
    constructor <;> nlinarith

/-- The handle loop leaves either the initial value or the id of a handle that passed the depth
test and the distance test. -/
theorem foldl_handleStep (style : Style F) (mvp : mat4 F) (position mousePos : vec2 F)
    (l : List (GizmoAxis F)) (init : Int) :
    l.foldl (handleStep style mvp position mousePos) init = init ∨
    ∃ a ∈ l, l.foldl (handleStep style mvp position mousePos) init = a.id ∧
      ¬ a.depth < -(1 / 10) ∧
      ImLengthSqr
        ⟨(worldToScreen mvp position (baseSize * style.scale)
            (a.direction * style.lineLength)).x - mousePos.x,
         (worldToScreen mvp position (baseSize * style.scale)
            (a.direction * style.lineLength)).y - mousePos.y⟩
        < style.circleRadius * style.scale * (style.circleRadius * style.scale) := by
  induction l generalizing init with
  | nil => exact Or.inl rfl
  | cons b l ih =>
    rw [List.foldl_cons]
    rcases ih (handleStep style mvp position mousePos init b) with h | ⟨a, ha, h⟩
    · rw [h]
      unfold handleStep
      dsimp only
      split
      · exact Or.inl rfl
      · rename_i hdepth
        split
        · rename_i hhit
          exact Or.inr ⟨b, List.mem_cons_self b l, rfl, hdepth, hhit⟩
        · exact Or.inl rfl
    · exact Or.inr ⟨a, List.mem_cons_of_mem b ha, h⟩

/-- Every axis record of the frame carries the direction and the depth of its id. -/
theorem mem_unsortedAxes (view : mat4 F) (a : GizmoAxis F) (ha : a ∈ unsortedAxes view) :
    0 ≤ a.id ∧ a.id ≤ 5 ∧ a.direction = axisDirection a.id ∧ a.depth = axisDepth view a.id := by
  simp only [unsortedAxes, axisPair, List.mem_append, List.mem_cons, List.mem_singleton,
    List.not_mem_nil, or_false] at ha
  rcases ha with ((h | h) | (h | h)) | (h | h) <;> subst h <;>
    simp [axisDepth, axisDirection, axisVectors]

theorem mem_sortedAxes (view : mat4 F) (a : GizmoAxis F) :
    a ∈ sortedAxes view ↔ a ∈ unsortedAxes view := by
  unfold sortedAxes
  exact (List.perm_insertionSort _ _).mem_iff

/-- A hit test that returns an axis id `0..5` returns the id of a handle that passed the depth
test and the distance test. -/
theorem hitTest_axis (style : Style F) (position mousePos : vec2 F) (cameraPos : vec3 F)
    (cameraRot : quat F) (k : Int) (hk0 : 0 ≤ k) (hk5 : k ≤ 5)
    (h : hitTest style position mousePos cameraPos cameraRot = k) :
    ¬ axisDepth (gizmoViewMatrix cameraPos cameraRot) k < -(1 / 10) ∧
    ImLengthSqr
      ⟨(worldToScreen (gizmoMvp cameraPos cameraRot) position (baseSize * style.scale)
          ((axisDirection k : vec3 F) * style.lineLength)).x - mousePos.x,
       (worldToScreen (gizmoMvp cameraPos cameraRot) position (baseSize * style.scale)
          ((axisDirection k : vec3 F) * style.lineLength)).y - mousePos.y⟩
      < style.circleRadius * style.scale * (style.circleRadius * style.scale) := by
  unfold hitTest at h
  dsimp only at h
  split at h
  · rcases foldl_handleStep style (gizmoMvp cameraPos cameraRot) position mousePos
      (sortedAxes (gizmoViewMatrix cameraPos cameraRot)) (-1) with hf | ⟨a, ha, hf, hd, hhit⟩
    · rw [hf] at h
      simp only [if_true] at h
      split at h <;> omega
    · have hne : a.id ≠ -1 := by
        have := (mem_unsortedAxes _ a ((mem_sortedAxes _ a).mp ha)).1
        omega
      rw [hf, if_neg hne] at h
      obtain ⟨_, _, hdir, hdep⟩ := mem_unsortedAxes _ a ((mem_sortedAxes _ a).mp ha)
      rw [hdep, h] at hd
      rw [hdir, h] at hhit
      exact ⟨hd, hhit⟩
  · omega

/-- With the default style, a click at the anchor from the scenario start pose hovers the
handle with id 4. -/
theorem scenario_center_hover :
    (Manipulate (⟨Real.sqrt, Real.sin, Real.cos⟩ : MathOps ℝ) defaultStyle
      (clickInput 0 ⟨100, 100⟩) initialContext ⟨0, 0, 5⟩ identityRot ⟨100, 100⟩ 5
      (1 / 200)).ctx.hoveredAxisID = 4 := by
  unfold Manipulate
  dsimp only
  rw [(snapLogic_hovered _ _ _ _ _).1, dragLogic_hovered, selectionLogic_hovered]
  have h := hitTest_identity_center (F := ℝ) ⟨0, 0, 5⟩
  simpa [animationLogic, initialContext, clickInput, idleInput] using h

/-- With no vertical mouse motion the pitch factor is the identity and the drag rotation is
the yaw rotation alone. -/
theorem totalRotation_horizontal (ops : MathOps F) (hsin : ops.sin 0 = 0) (hcos : ops.cos 0 = 1)
    (input : HostInput F) (mouseSpeed : F) (cameraRot : quat F) (hdy : input.mouseDelta.y = 0) :
    totalRotation ops input mouseSpeed cameraRot =
      angleAxis ops (-(input.mouseDelta.x * mouseSpeed)) worldUp := by
  unfold totalRotation
  simp [hdy, angleAxis, quatMul, hsin, hcos]

/-- A drag frame with no animation running: the button is down and either a drag is already
active or the call hovers the centre (id 6).  The camera is rotated by `totalRotation`, the
drag is active on return and the call returns `true`. -/
theorem Manipulate_drag_frame (ops : MathOps F) (style : Style F) (input : HostInput F)
    (ctx : Context F) (cameraPos : vec3 F) (cameraRot : quat F) (position : vec2 F)
    (snapDistance mouseSpeed : F)
    (hrest : ctx.isAnimating = false) (hdown : input.mouseDown = true)
    (hdrag : ctx.isDragging = true ∨
      (Manipulate ops style input ctx cameraPos cameraRot position snapDistance
        mouseSpeed).ctx.hoveredAxisID = 6) :
    (Manipulate ops style input ctx cameraPos cameraRot position snapDistance
      mouseSpeed).cameraPos
      = quatRotate (totalRotation ops input mouseSpeed cameraRot) cameraPos ∧
    (Manipulate ops style input ctx cameraPos cameraRot position snapDistance
      mouseSpeed).cameraRot
      = quatMul (totalRotation ops input mouseSpeed cameraRot) cameraRot ∧
    (Manipulate ops style input ctx cameraPos cameraRot position snapDistance
      mouseSpeed).ctx.isDragging = true ∧
    (Manipulate ops style input ctx cameraPos cameraRot position snapDistance
      mouseSpeed).wasModified = true := by
  have hhov : (Manipulate ops style input ctx cameraPos cameraRot position snapDistance
      mouseSpeed).ctx.hoveredAxisID =
      if ctx.isDragging = false ∧ ctx.isAnimating = false then
        hitTest style position input.mousePos cameraPos cameraRot else -1 := by
    unfold Manipulate
    dsimp only
    rw [(snapLogic_hovered _ _ _ _ _).1, dragLogic_hovered, selectionLogic_hovered]
    simp [animationLogic, hrest]
  unfold Manipulate animationLogic selectionLogic dragLogic snapLogic
  rcases hdrag with hd | h6
  · simp [hrest, hdown, hd]
  · rw [hhov] at h6
    by_cases hd : ctx.isDragging = true
    · simp [hrest, hdown, hd]
    · have hd' : ctx.isDragging = false := by simpa using hd
      rw [if_pos ⟨hd', hrest⟩] at h6
      simp [hrest, hdown, hd', h6]

theorem hitTest_identity_inner (cameraPos : vec3 F) :
    hitTest defaultStyle (⟨100, 100⟩ : vec2 F) ⟨130, 130⟩ cameraPos identityRot = 6 := by
  unfold hitTest
  rw [gizmoMvp_identityRot, gizmoViewMatrix_identityRot, sortedAxes_identity]
  simp [handleStep, worldToScreen, mat4_mulVec, ImLengthSqr, defaultStyle, baseSize, origin,
    vec4_add_def, vec4_smul_def, vec3_mul_def, vec3_div_def]
  norm_num

/-- The hover id a call leaves when it starts with no animation running. -/
theorem Manipulate_hovered_of_rest (ops : MathOps F) (style : Style F) (input : HostInput F)
    (ctx : Context F) (cameraPos : vec3 F) (cameraRot : quat F) (position : vec2 F)
    (snapDistance mouseSpeed : F) (hrest : ctx.isAnimating = false) :
    (Manipulate ops style input ctx cameraPos cameraRot position snapDistance
      mouseSpeed).ctx.hoveredAxisID =
      if ctx.isDragging = false then
        hitTest style position input.mousePos cameraPos cameraRot else -1 := by
  unfold Manipulate
  dsimp only
  rw [(snapLogic_hovered _ _ _ _ _).1, dragLogic_hovered, selectionLogic_hovered]
  simp [animationLogic, hrest]

/-- A call that starts with no animation running, with the button up, and that hovers the
centre (id 6) does nothing but recompute the hover id. -/
theorem Manipulate_release_over_center (ops : MathOps F) (style : Style F)
    (input : HostInput F) (ctx : Context F) (cameraPos : vec3 F) (cameraRot : quat F)
    (position : vec2 F) (snapDistance mouseSpeed : F)
    (hrest : ctx.isAnimating = false) (hup : input.mouseDown = false)
    (h6 : (Manipulate ops style input ctx cameraPos cameraRot position snapDistance
      mouseSpeed).ctx.hoveredAxisID = 6) :
    Manipulate ops style input ctx cameraPos cameraRot position snapDistance mouseSpeed =
      ⟨{ ctx with hoveredAxisID := 6, isDragging := false }, cameraPos, cameraRot, false⟩ := by
  rw [Manipulate_hovered_of_rest ops style input ctx cameraPos cameraRot position snapDistance
    mouseSpeed hrest] at h6
  by_cases hd : ctx.isDragging = false
  · rw [if_pos hd] at h6
    unfold Manipulate animationLogic selectionLogic dragLogic snapLogic
    simp [hrest, hup, hd, h6]
  · rw [if_neg hd] at h6
    omega

/-- From the scenario start pose, a release at `(130,130)` hovers the centre. -/
theorem scenario_inner_hover :
    (Manipulate (⟨Real.sqrt, Real.sin, Real.cos⟩ : MathOps ℝ) defaultStyle
      (clickInput 0 ⟨130, 130⟩) initialContext ⟨0, 0, 5⟩ identityRot ⟨100, 100⟩ 5
      (1 / 200)).ctx.hoveredAxisID = 6 := by
  rw [Manipulate_hovered_of_rest _ _ _ _ _ _ _ _ _ rfl]
  have h := hitTest_identity_inner (F := ℝ) ⟨0, 0, 5⟩
  simpa [initialContext, clickInput, idleInput] using h

theorem easedT_eq_tickT (style : Style F) (input : HostInput F) (ctx : Context F) :
    easedT style input ctx
      = 1 - (1 - tickT style input ctx) * (1 - tickT style input ctx) := rfl

/-- Every record pushed into `axes` points along minus the snap target direction of its id. -/
theorem mem_unsortedAxes_direction (view : mat4 F) (a : GizmoAxis F)
    (ha : a ∈ unsortedAxes view) : a.direction = -(snapTargetDir a.id : vec3 F) := by
  simp only [unsortedAxes, axisPair, List.mem_append, List.mem_cons, List.mem_singleton,
    List.not_mem_nil, or_false] at ha
  rcases ha with ((h | h) | (h | h)) | (h | h) <;> subst h <;>
    simp [snapTargetDir, Int.tdiv, Int.tmod, axisVectors, vec3_neg_def, vec3_smul_def]

/-- Every id `0..5` is the id of a record pushed into `axes`. -/
theorem exists_mem_unsortedAxes (view : mat4 F) (k : Int) (hk0 : 0 ≤ k) (hk5 : k ≤ 5) :
    ∃ a ∈ unsortedAxes view, a.id = k := by
  simp only [unsortedAxes, axisPair, List.mem_append, List.mem_cons, List.mem_singleton,
    List.not_mem_nil, or_false]
  interval_cases k
  · exact ⟨_, Or.inl (Or.inl (Or.inl rfl)), rfl⟩
  · exact ⟨_, Or.inl (Or.inl (Or.inr rfl)), rfl⟩
  · exact ⟨_, Or.inl (Or.inr (Or.inl rfl)), rfl⟩
  · exact ⟨_, Or.inl (Or.inr (Or.inr rfl)), rfl⟩
  · exact ⟨_, Or.inr (Or.inl rfl), rfl⟩
  · exact ⟨_, Or.inr (Or.inr rfl), rfl⟩

theorem specSnapDir_eq (k : Int) (hk0 : 0 ≤ k) (hk5 : k ≤ 5) :
    (specSnapDir k : vec3 F) = snapTargetDir k := (snapTargetDir_eq k hk0 hk5).symm

theorem specSnapUp_eq (k : Int) (hk0 : 0 ≤ k) (hk5 : k ≤ 5) :
    (specSnapUp k : vec3 F) = snapTargetUp k := (snapTargetUp_eq k hk0 hk5).symm

/-- When the snap stage is entered without a running animation, it leaves one running exactly
when its guard holds, animation is enabled with a positive duration, and the camera differs
from the target. -/
theorem snapLogic_isAnimating_iff (ops : MathOps F) (style : Style F) (input : HostInput F)
    (snapDistance : F) (s : State F) (hn : s.ctx.isAnimating = false) :
    (snapLogic ops style input snapDistance s).ctx.isAnimating = true ↔
      input.mouseReleased = true ∧ input.mouseDragging = false ∧
      0 ≤ s.ctx.hoveredAxisID ∧ s.ctx.hoveredAxisID ≤ 5 ∧
      style.animateSnap = true ∧ 0 < style.snapAnimationDuration ∧
      (1 / 10000 < length2
          (s.cameraPos - (snapTargetDir s.ctx.hoveredAxisID : vec3 F) * snapDistance) ∨
        1 / 10000 < 1 - |quatDot s.cameraRot
          (quatLookAt ops (snapTargetDir s.ctx.hoveredAxisID)
            (snapTargetUp s.ctx.hoveredAxisID))|) := by
  unfold snapLogic
  by_cases hg : (input.mouseReleased && decide (0 ≤ s.ctx.hoveredAxisID)
      && decide (s.ctx.hoveredAxisID ≤ 5) && !input.mouseDragging) = true
  · rw [if_pos hg]
    simp only [Bool.and_eq_true, decide_eq_true_eq, Bool.not_eq_true'] at hg
    obtain ⟨⟨⟨hr, h0⟩, h5⟩, hnd⟩ := hg
    by_cases ha : (style.animateSnap && decide (0 < style.snapAnimationDuration)) = true
    · dsimp only
      rw [if_pos ha]
      simp only [Bool.and_eq_true, decide_eq_true_eq] at ha
      by_cases hdiff : (decide (1 / 10000 < length2
            (s.cameraPos - (snapTargetDir s.ctx.hoveredAxisID : vec3 F) * snapDistance)) ||
          decide (1 / 10000 < 1 - |quatDot s.cameraRot
            (quatLookAt ops (snapTargetDir s.ctx.hoveredAxisID)
              (snapTargetUp s.ctx.hoveredAxisID))|)) = true
      · rw [if_pos hdiff]
        simp only [Bool.or_eq_true, decide_eq_true_eq] at hdiff
        simp only [beginAnimation, true_iff]
        exact ⟨hr, hnd, h0, h5, ha.1, ha.2, hdiff⟩
      · rw [if_neg hdiff]
        simp only [Bool.or_eq_true, decide_eq_true_eq] at hdiff
        rw [hn]
        constructor
        · intro h
          exact absurd h (by simp)
        · intro h
          exact absurd h.2.2.2.2.2.2 hdiff
    · dsimp only
      rw [if_neg ha]
      simp only [Bool.and_eq_true, decide_eq_true_eq] at ha
      dsimp only
      rw [hn]
      constructor
      · intro h
        exact absurd h (by simp)
      · intro h
        exact absurd ⟨h.2.2.2.2.1, h.2.2.2.2.2.1⟩ ha
  · rw [if_neg hg]
    simp only [Bool.and_eq_true, decide_eq_true_eq, Bool.not_eq_true'] at hg
    rw [hn]
    constructor
    · intro h
      exact absurd h (by simp)
    · intro h
      exact absurd ⟨⟨⟨h.1, h.2.2.1⟩, h.2.2.2.1⟩, h.2.1⟩ hg

/-- A call that starts with no animation running ends with one running exactly when the snap
condition holds for the hover id it leaves and the camera it was given. -/
theorem Manipulate_isAnimating_iff (ops : MathOps F) (style : Style F) (input : HostInput F)
    (ctx : Context F) (cameraPos : vec3 F) (cameraRot : quat F) (position : vec2 F)
    (snapDistance mouseSpeed : F) (hrest : ctx.isAnimating = false) (k : Int)
    (hk : (Manipulate ops style input ctx cameraPos cameraRot position snapDistance
      mouseSpeed).ctx.hoveredAxisID = k) :
    (Manipulate ops style input ctx cameraPos cameraRot position snapDistance
      mouseSpeed).ctx.isAnimating = true ↔
      input.mouseReleased = true ∧ input.mouseDragging = false ∧ 0 ≤ k ∧ k ≤ 5 ∧
      style.animateSnap = true ∧ 0 < style.snapAnimationDuration ∧
      (1 / 10000 < length2 (cameraPos - (snapTargetDir k : vec3 F) * snapDistance) ∨
        1 / 10000 < 1 - |quatDot cameraRot
          (quatLookAt ops (snapTargetDir k) (snapTargetUp k))|) := by
  have hs1 : animationLogic ops style input ⟨ctx, cameraPos, cameraRot, false⟩
      = ⟨ctx, cameraPos, cameraRot, false⟩ := by
    simp [animationLogic, hrest]
  by_cases hr : 0 ≤ k ∧ k ≤ 5
  · obtain ⟨_, _, _, hM⟩ := Manipulate_of_hover_axis ops style input ctx cameraPos cameraRot
      position snapDistance mouseSpeed k hr.1 hr.2 hk
    rw [hs1] at hM
    rw [hM]
    exact snapLogic_isAnimating_iff ops style input snapDistance
      { (⟨ctx, cameraPos, cameraRot, false⟩ : State F) with
        ctx := { ctx with hoveredAxisID := k } } hrest
  · constructor
    · intro h
      exfalso
      unfold Manipulate at h hk
      dsimp only at h hk
      rw [hs1] at h hk
      rcases snapLogic_isAnimating_imp ops style input snapDistance _ h with h3 | h3
      · rw [dragLogic_interrupt_dead] at h3
        rw [hrest] at h3
        exact absurd h3 (by simp)
      · rw [(snapLogic_hovered _ _ _ _ _).1] at hk
        rw [hk] at h3
        exact hr h3
    · intro h
      exact absurd ⟨h.2.2.1, h.2.2.2.1⟩ hr

/-- Rotating a vector by a unit quaternion keeps its squared length. -/
theorem dot_quatRotate (q : quat F) (v : vec3 F) (hq : quatDot q q = 1) :
    dot (quatRotate q v) (quatRotate q v) = dot v v := by
  unfold quatDot at hq
  simp only [quatRotate, cross, dot, vec3_add_def, vec3_mul_def]
  linear_combination
    (4 * ((q.x * q.x + q.y * q.y + q.z * q.z) * (v.x * v.x + v.y * v.y + v.z * v.z)
      - (q.x * v.x + q.y * v.y + q.z * v.z) * (q.x * v.x + q.y * v.y + q.z * v.z))) * hq

/-- The squared norm of a quaternion product is the product of the squared norms. -/
theorem quatDot_quatMul (p q : quat F) :
    quatDot (quatMul p q) (quatMul p q) = quatDot p p * quatDot q q := by
  simp only [quatDot, quatMul]
  ring

/-- The quaternion of `angleAxis` about a unit axis is a unit quaternion. -/
theorem quatDot_angleAxis (ops : MathOps F)
    (hsc : ∀ x : F, ops.sin x * ops.sin x + ops.cos x * ops.cos x = 1)
    (angle : F) (v : vec3 F) (hv : dot v v = 1) :
    quatDot (angleAxis ops angle v) (angleAxis ops angle v) = 1 := by
  unfold dot at hv
  have h := hsc (angle * (1 / 2))
  simp only [quatDot, angleAxis]
  linear_combination h + (ops.sin (angle * (1 / 2)) * ops.sin (angle * (1 / 2))) * hv

/-- The drag rotation of a unit camera rotation is a unit quaternion. -/
theorem quatDot_totalRotation (ops : MathOps F)
    (hsc : ∀ x : F, ops.sin x * ops.sin x + ops.cos x * ops.cos x = 1)
    (input : HostInput F) (mouseSpeed : F) (cameraRot : quat F)
    (hq : quatDot cameraRot cameraRot = 1) :
    quatDot (totalRotation ops input mouseSpeed cameraRot)
      (totalRotation ops input mouseSpeed cameraRot) = 1 := by
  unfold totalRotation
  dsimp only
  rw [quatDot_quatMul, quatDot_angleAxis ops hsc _ _ (by simp [worldUp, dot]),
    quatDot_angleAxis ops hsc _ _
      (by rw [dot_quatRotate _ _ hq]; simp [worldRight, dot]), one_mul]

/-- The drag stage keeps the squared distance of the camera from the origin and the unit norm
of the camera rotation. -/
theorem dragLogic_orbit (ops : MathOps F)
    (hsc : ∀ x : F, ops.sin x * ops.sin x + ops.cos x * ops.cos x = 1)
    (input : HostInput F) (mouseSpeed : F) (s : State F)
    (hq : quatDot s.cameraRot s.cameraRot = 1) :
    dot (dragLogic ops input mouseSpeed s).cameraPos (dragLogic ops input mouseSpeed s).cameraPos
      = dot s.cameraPos s.cameraPos ∧
    quatDot (dragLogic ops input mouseSpeed s).cameraRot
      (dragLogic ops input mouseSpeed s).cameraRot = 1 := by
  have hc := dragLogic_camera ops input mouseSpeed s
  have ht := quatDot_totalRotation ops hsc input mouseSpeed s.cameraRot hq
  by_cases hd : (dragLogic ops input mouseSpeed s).ctx.isDragging = true
  · rw [if_pos hd] at hc
    simp only [Prod.mk.injEq] at hc
    rw [hc.1, hc.2, dot_quatRotate _ _ ht, quatDot_quatMul, ht, hq, one_mul]
    exact ⟨rfl, rfl⟩
  · rw [if_neg hd] at hc
    simp only [Prod.mk.injEq] at hc
    rw [hc.1, hc.2]
    exact ⟨rfl, hq⟩

/-- The list `axes` after the sort is ordered by non-decreasing depth. -/
theorem sortedAxes_pairwise (view : mat4 F) :
    (sortedAxes view).Pairwise (fun a b => ¬ b.depth < a.depth) := by
  unfold sortedAxes
  haveI : IsTotal (GizmoAxis F) (fun a b => ¬ b.depth < a.depth) :=
    ⟨fun a b => by
      rcases le_total a.depth b.depth with h | h
      · exact Or.inl (not_lt.mpr h)
      · exact Or.inr (not_lt.mpr h)⟩
  haveI : IsTrans (GizmoAxis F) (fun a b => ¬ b.depth < a.depth) :=
    ⟨fun a b c hab hbc => not_lt.mpr (le_trans (not_lt.mp hab) (not_lt.mp hbc))⟩
  exact List.sorted_insertionSort _ _

/-- On a list ordered by non-decreasing depth, the handle loop leaves either the initial value,
when no handle passes both tests, or the id of a handle that passes both tests and is at least
as deep as every other handle that passes them. -/
theorem foldl_handleStep_last (style : Style F) (mvp : mat4 F) (position mousePos : vec2 F)
    (l : List (GizmoAxis F)) (hl : l.Pairwise (fun a b => ¬ b.depth < a.depth)) (init : Int) :
    l.foldl (handleStep style mvp position mousePos) init = init ∨
    ∃ a ∈ l, l.foldl (handleStep style mvp position mousePos) init = a.id ∧
      ∀ b ∈ l, ¬ b.depth < -(1 / 10) →
        ImLengthSqr
          ⟨(worldToScreen mvp position (baseSize * style.scale)
              (b.direction * style.lineLength)).x - mousePos.x,
           (worldToScreen mvp position (baseSize * style.scale)
              (b.direction * style.lineLength)).y - mousePos.y⟩
          < style.circleRadius * style.scale * (style.circleRadius * style.scale) →
        ¬ a.depth < b.depth := by
  induction l using List.reverseRecOn with
  | nil => exact Or.inl rfl
  | append_singleton l a ih =>
    rw [List.pairwise_append] at hl
    obtain ⟨hl1, _, hl3⟩ := hl
    rw [List.foldl_append, List.foldl_cons, List.foldl_nil]
    by_cases hm : ¬ a.depth < -(1 / 10) ∧
        ImLengthSqr
          ⟨(worldToScreen mvp position (baseSize * style.scale)
              (a.direction * style.lineLength)).x - mousePos.x,
           (worldToScreen mvp position (baseSize * style.scale)
              (a.direction * style.lineLength)).y - mousePos.y⟩
          < style.circleRadius * style.scale * (style.circleRadius * style.scale)
    · right
      refine ⟨a, by simp, ?_, ?_⟩
      · unfold handleStep
        dsimp only
        rw [if_neg hm.1, if_pos hm.2]
      · intro b hb _ _
        rcases List.mem_append.mp hb with hb | hb
        · exact hl3 b hb a (by simp)
        · rw [List.mem_singleton.mp hb]
          exact lt_irrefl _
    · have hstep : handleStep style mvp position mousePos
          (l.foldl (handleStep style mvp position mousePos) init) a
          = l.foldl (handleStep style mvp position mousePos) init := by
        unfold handleStep
        dsimp only
        by_cases hdep : a.depth < -(1 / 10)
        · rw [if_pos hdep]
        · rw [if_neg hdep, if_neg (fun hh => hm ⟨hdep, hh⟩)]
      rw [hstep]
      rcases ih hl1 with h | ⟨a', ha', hres, hall⟩
      · exact Or.inl h
      · right
        refine ⟨a', List.mem_append_left _ ha', hres, ?_⟩
        intro b hb hdep hhit
        rcases List.mem_append.mp hb with hb | hb
        · exact hall b hb hdep hhit
        · rw [List.mem_singleton.mp hb] at hdep hhit
          exact absurd ⟨hdep, hhit⟩ hm

/-- A hit test that returns an axis id `k` in `0..5` returns a handle that no other handle
passing the depth test and the distance test is strictly nearer than. -/
theorem hitTest_nearest (style : Style F) (position mousePos : vec2 F) (cameraPos : vec3 F)
    (cameraRot : quat F) (k : Int) (hk0 : 0 ≤ k) (hk5 : k ≤ 5)
    (h : hitTest style position mousePos cameraPos cameraRot = k)
    (j : Int) (hj0 : 0 ≤ j) (hj5 : j ≤ 5)
    (hdep : ¬ axisDepth (gizmoViewMatrix cameraPos cameraRot) j < -(1 / 10))
    (hhit : ImLengthSqr
      ⟨(handleScreenPos style position cameraPos cameraRot j).x - mousePos.x,
       (handleScreenPos style position cameraPos cameraRot j).y - mousePos.y⟩
      < style.circleRadius * style.scale * (style.circleRadius * style.scale)) :
    ¬ axisDepth (gizmoViewMatrix cameraPos cameraRot) k
        < axisDepth (gizmoViewMatrix cameraPos cameraRot) j := by
  unfold hitTest at h
  dsimp only at h
  split at h
  · rcases foldl_handleStep_last style (gizmoMvp cameraPos cameraRot) position mousePos
      (sortedAxes (gizmoViewMatrix cameraPos cameraRot)) (sortedAxes_pairwise _) (-1)
      with hf | ⟨a, ha, hf, hall⟩
    · rw [hf] at h
      simp only [if_true] at h
      split at h <;> omega
    · obtain ⟨ha0, _, _, hadep⟩ := mem_unsortedAxes _ a ((mem_sortedAxes _ a).mp ha)
      have hne : a.id ≠ -1 := by omega
      rw [hf, if_neg hne] at h
      obtain ⟨b, hb, hbid⟩ := exists_mem_unsortedAxes (gizmoViewMatrix cameraPos cameraRot) j
        hj0 hj5
      obtain ⟨_, _, hbdir, hbdep⟩ := mem_unsortedAxes _ b hb
      rw [hbid] at hbdir hbdep
      have := hall b ((mem_sortedAxes _ b).mpr hb) (by rw [hbdep]; exact hdep)
        (by rw [hbdir]; exact hhit)
      rw [hadep, hbdep, h] at this
      exact this
  · omega

theorem hitTest_identity_wide (cameraPos : vec3 F) :
    hitTest ({ defaultStyle with circleRadius := 100 } : Style F) (⟨100, 100⟩ : vec2 F)
      ⟨100, 100⟩ cameraPos identityRot = 4 := by
  unfold hitTest
  rw [gizmoMvp_identityRot, gizmoViewMatrix_identityRot, sortedAxes_identity]
  simp [handleStep, worldToScreen, mat4_mulVec, ImLengthSqr, defaultStyle, baseSize,
    vec4_add_def, vec4_smul_def, vec3_mul_def, vec3_div_def]
  norm_num

/-- With handles of radius 100, a click at the anchor from the scenario start pose lies on
five handles and hovers the one with id 4. -/
theorem scenario_wide_hover :
    (Manipulate (⟨Real.sqrt, Real.sin, Real.cos⟩ : MathOps ℝ)
      { defaultStyle with circleRadius := 100 } (clickInput 0 ⟨100, 100⟩) initialContext
      ⟨0, 0, 5⟩ identityRot ⟨100, 100⟩ 5 (1 / 200)).ctx.hoveredAxisID = 4 := by
  rw [Manipulate_hovered_of_rest _ _ _ _ _ _ _ _ _ rfl]
  have h := hitTest_identity_wide (F := ℝ) ⟨0, 0, 5⟩
  simpa [initialContext, clickInput, idleInput] using h

theorem scenario_wide_state :
    animationLogic (⟨Real.sqrt, Real.sin, Real.cos⟩ : MathOps ℝ)
      { defaultStyle with circleRadius := 100 } (clickInput 0 ⟨100, 100⟩)
      ⟨initialContext, ⟨0, 0, 5⟩, identityRot, false⟩
      = ⟨initialContext, ⟨0, 0, 5⟩, identityRot, false⟩ := by
  simp [animationLogic, initialContext]

/-- From the scenario start pose, with snap distance 0, the click at `(36,100)` hovers the
handle with id 0. -/
theorem scenario_zero_distance_hover :
    (Manipulate (⟨Real.sqrt, Real.sin, Real.cos⟩ : MathOps ℝ) defaultStyle
      (clickInput 0 ⟨36, 100⟩) initialContext ⟨0, 0, 5⟩ identityRot ⟨100, 100⟩ 0
      (1 / 200)).ctx.hoveredAxisID = 0 := by
  rw [Manipulate_hovered_of_rest _ _ _ _ _ _ _ _ _ rfl]
  have h := hitTest_identity_left (F := ℝ) ⟨0, 0, 5⟩
  simpa [initialContext, clickInput, idleInput] using h

/-- From the scenario start pose, with snap distance 0, the click at `(36,100)` starts an
animation towards the origin. -/
theorem scenario_zero_distance_trigger :
    Manipulate (⟨Real.sqrt, Real.sin, Real.cos⟩ : MathOps ℝ) defaultStyle
      (clickInput 0 ⟨36, 100⟩) initialContext ⟨0, 0, 5⟩ identityRot ⟨100, 100⟩ 0 (1 / 200)
      = ⟨{ hoveredAxisID := 0, isDragging := false, isAnimating := true,
           animationStartTime := 0, startPos := ⟨0, 0, 5⟩, targetPos := ⟨0, 0, 0⟩,
           startUp := ⟨0, 1, 0⟩, targetUp := ⟨0, 1, 0⟩ },
         ⟨0, 0, 5⟩, identityRot, false⟩ := by
  have hM := (Manipulate_of_hover_axis _ _ _ _ _ _ _ _ _ 0 (le_refl 0) (by norm_num)
    scenario_zero_distance_hover).2.2.2
  rw [hM]
  simp [snapLogic, beginAnimation, animationLogic, clickInput, idleInput, initialContext,
    defaultStyle, snapTargetDir, snapTargetUp, Int.tdiv, Int.tmod, axisVectors, length2, dot,
    worldUp, identityRot, quatRotate, cross, vec3_sub_def, vec3_mul_def, vec3_smul_def,
    vec3_neg_def, vec3_add_def]
  norm_num

/-- Every vector the animation stage normalises is listed in `tickNormalizeArgs`: the blended
direction, the blend of the up vectors, and the target position. -/
theorem tickNormalizeArgs_covers (ops : MathOps F) (ctx : Context F) (t : F) :
    blendedDir ops ctx t ∈ tickNormalizeArgs ops ctx t ∧
    mix3 ctx.startUp ctx.targetUp t ∈ tickNormalizeArgs ops ctx t ∧
    ctx.targetPos ∈ tickNormalizeArgs ops ctx t := by
  unfold tickNormalizeArgs blendedDir
  split <;> simp

/-! ## The eased parameter as an argument -/

theorem easedT_eq_exactEasing (style : Style F) (input : HostInput F) (ctx : Context F) :
    easedT style input ctx
      = exactEasing input.time ctx.animationStartTime style.snapAnimationDuration := rfl

theorem animationLogicWith_exact (ops : MathOps F) (style : Style F) (input : HostInput F)
    (s : State F) :
    animationLogicWith exactEasing ops style input s = animationLogic ops style input s := rfl

/-- With the eased parameter computed in exact arithmetic, `ManipulateWith` is `Manipulate`. -/
theorem ManipulateWith_exact (ops : MathOps F) (style : Style F) (input : HostInput F)
    (ctx : Context F) (cameraPos : vec3 F) (cameraRot : quat F) (position : vec2 F)
    (snapDistance mouseSpeed : F) :
    ManipulateWith exactEasing ops style input ctx cameraPos cameraRot position snapDistance
      mouseSpeed
      = Manipulate ops style input ctx cameraPos cameraRot position snapDistance mouseSpeed :=
  rfl

/-- A call that starts with no animation running does not compute the eased parameter. -/
theorem ManipulateWith_of_rest (easing : F → F → F → F) (ops : MathOps F) (style : Style F)
    (input : HostInput F) (ctx : Context F) (cameraPos : vec3 F) (cameraRot : quat F)
    (position : vec2 F) (snapDistance mouseSpeed : F) (hrest : ctx.isAnimating = false) :
    ManipulateWith easing ops style input ctx cameraPos cameraRot position snapDistance
      mouseSpeed
      = Manipulate ops style input ctx cameraPos cameraRot position snapDistance mouseSpeed := by
  unfold ManipulateWith Manipulate animationLogicWith animationLogic
  simp [hrest]

/-- While the eased parameter computed by the tick is below one and no drag is active, a call
keeps animating, starts no drag, hovers nothing, keeps the stored animation data and reports a
modification. -/
theorem ManipulateWith_in_progress (easing : F → F → F → F) (ops : MathOps F) (style : Style F)
    (input : HostInput F) (ctx : Context F) (cameraPos : vec3 F) (cameraRot : quat F)
    (position : vec2 F) (snapDistance mouseSpeed : F)
    (ha : ctx.isAnimating = true) (hd : ctx.isDragging = false)
    (ht : easing input.time ctx.animationStartTime style.snapAnimationDuration < 1) :
    ManipulateWith easing ops style input ctx cameraPos cameraRot position snapDistance
        mouseSpeed =
      { ctx := { ctx with hoveredAxisID := -1 },
        cameraPos := currentDir ops ctx
            (easing input.time ctx.animationStartTime style.snapAnimationDuration) *
          mix (length ops ctx.startPos) (length ops ctx.targetPos)
            (easing input.time ctx.animationStartTime style.snapAnimationDuration),
        cameraRot := quatLookAt ops
          (currentDir ops ctx
            (easing input.time ctx.animationStartTime style.snapAnimationDuration))
          (normalize ops (mix3 ctx.startUp ctx.targetUp
            (easing input.time ctx.animationStartTime style.snapAnimationDuration))),
        wasModified := true } := by
  have ht' : ¬ 1 ≤ easing input.time ctx.animationStartTime style.snapAnimationDuration :=
    not_le.mpr ht
  unfold ManipulateWith animationLogicWith selectionLogic dragLogic snapLogic
  cases hm : input.mouseDown <;> simp [ha, hd, ht']

/-- The call whose tick computes an eased parameter of at least one, with the button neither
down nor released, writes the stored target and stops animating. -/
theorem ManipulateWith_completes (easing : F → F → F → F) (ops : MathOps F) (style : Style F)
    (input : HostInput F) (ctx : Context F) (cameraPos : vec3 F) (cameraRot : quat F)
    (position : vec2 F) (snapDistance mouseSpeed : F)
    (ha : ctx.isAnimating = true)
    (ht : 1 ≤ easing input.time ctx.animationStartTime style.snapAnimationDuration)
    (hup : input.mouseDown = false) (hnr : input.mouseReleased = false) :
    (ManipulateWith easing ops style input ctx cameraPos cameraRot position snapDistance
      mouseSpeed).cameraPos = ctx.targetPos ∧
    (ManipulateWith easing ops style input ctx cameraPos cameraRot position snapDistance
      mouseSpeed).cameraRot = quatLookAt ops (normalize ops ctx.targetPos) ctx.targetUp ∧
    (ManipulateWith easing ops style input ctx cameraPos cameraRot position snapDistance
      mouseSpeed).ctx.isAnimating = false ∧
    (ManipulateWith easing ops style input ctx cameraPos cameraRot position snapDistance
      mouseSpeed).wasModified = true := by
  unfold ManipulateWith animationLogicWith selectionLogic dragLogic snapLogic
  cases hd : ctx.isDragging <;> simp [ha, ht, hup, hnr, hd]

/-- A call that starts with no animation running, with the button neither down nor released,
writes nothing, starts nothing and returns `false`. -/
theorem ManipulateWith_idle (easing : F → F → F → F) (ops : MathOps F) (style : Style F)
    (input : HostInput F) (ctx : Context F) (cameraPos : vec3 F) (cameraRot : quat F)
    (position : vec2 F) (snapDistance mouseSpeed : F)
    (hrest : ctx.isAnimating = false)
    (hup : input.mouseDown = false) (hnr : input.mouseReleased = false) :
    (ManipulateWith easing ops style input ctx cameraPos cameraRot position snapDistance
      mouseSpeed).cameraPos = cameraPos ∧
    (ManipulateWith easing ops style input ctx cameraPos cameraRot position snapDistance
      mouseSpeed).cameraRot = cameraRot ∧
    (ManipulateWith easing ops style input ctx cameraPos cameraRot position snapDistance
      mouseSpeed).ctx.isAnimating = false ∧
    (ManipulateWith easing ops style input ctx cameraPos cameraRot position snapDistance
      mouseSpeed).wasModified = false := by
  unfold ManipulateWith animationLogicWith selectionLogic dragLogic snapLogic
  cases hd : ctx.isDragging <;> simp [hrest, hup, hnr, hd]

/-- If a call leaves an axis id `0..5` in `hoveredAxisID`, then after the animation stage no
drag and no animation was active, the hit test returned that id, and the rest of the call is
the snap stage alone. -/
theorem ManipulateWith_of_hover_axis (easing : F → F → F → F) (ops : MathOps F)
    (style : Style F) (input : HostInput F) (ctx : Context F) (cameraPos : vec3 F)
    (cameraRot : quat F) (position : vec2 F) (snapDistance mouseSpeed : F) (k : Int)
    (hk0 : 0 ≤ k) (hk5 : k ≤ 5)
    (hh : (ManipulateWith easing ops style input ctx cameraPos cameraRot position snapDistance
      mouseSpeed).ctx.hoveredAxisID = k) :
    (animationLogicWith easing ops style input ⟨ctx, cameraPos, cameraRot, false⟩).ctx.isDragging
      = false ∧
    (animationLogicWith easing ops style input ⟨ctx, cameraPos, cameraRot, false⟩).ctx.isAnimating
      = false ∧
    ManipulateWith easing ops style input ctx cameraPos cameraRot position snapDistance
        mouseSpeed =
      snapLogic ops style input snapDistance
        { animationLogicWith easing ops style input ⟨ctx, cameraPos, cameraRot, false⟩ with
          ctx := { (animationLogicWith easing ops style input
              ⟨ctx, cameraPos, cameraRot, false⟩).ctx with
            hoveredAxisID := k } } := by
  unfold ManipulateWith at hh ⊢
  dsimp only at hh ⊢
  generalize animationLogicWith easing ops style input ⟨ctx, cameraPos, cameraRot, false⟩ = s1
    at hh ⊢
  rw [(snapLogic_hovered _ _ _ _ _).1, dragLogic_hovered, selectionLogic_hovered] at hh
  by_cases hc : s1.ctx.isDragging = false ∧ s1.ctx.isAnimating = false
  · rw [if_pos hc] at hh
    refine ⟨hc.1, hc.2, ?_⟩
    congr 1
    have hne : ¬ k = 6 := by omega
    unfold dragLogic selectionLogic
    cases hm : input.mouseDown <;> simp [hc.1, hc.2, hh, hne]
  · rw [if_neg hc] at hh
    omega

/-- Calls whose ticks compute an eased parameter below one keep the animation running and keep
its stored start time, target position and target up vector. -/
theorem runCallsWith_in_progress (easing : F → F → F → F) (ops : MathOps F) (style : Style F)
    (t0 : F) (T U : vec3 F) (cs : List (Call F))
    (hcs : ∀ c ∈ cs, easing c.input.time t0 style.snapAnimationDuration < 1)
    (s : State F) (ha : s.ctx.isAnimating = true) (hd : s.ctx.isDragging = false)
    (ht0 : s.ctx.animationStartTime = t0) (hT : s.ctx.targetPos = T) (hU : s.ctx.targetUp = U) :
    (runCallsWith easing ops style s cs).ctx.isAnimating = true ∧
    (runCallsWith easing ops style s cs).ctx.isDragging = false ∧
    (runCallsWith easing ops style s cs).ctx.animationStartTime = t0 ∧
    (runCallsWith easing ops style s cs).ctx.targetPos = T ∧
    (runCallsWith easing ops style s cs).ctx.targetUp = U := by
  induction cs generalizing s with
  | nil => exact ⟨ha, hd, ht0, hT, hU⟩
  | cons c cs ih =>
    have hc : easing c.input.time s.ctx.animationStartTime style.snapAnimationDuration < 1 := by
      rw [ht0]
      exact hcs c (List.mem_cons_self c cs)
    have hstep := ManipulateWith_in_progress easing ops style c.input s.ctx s.cameraPos
      s.cameraRot c.position c.snapDistance c.mouseSpeed ha hd hc
    have hrun : runCallsWith easing ops style s (c :: cs)
        = runCallsWith easing ops style (callManipulateWith easing ops style s c) cs := rfl
    rw [hrun]
    apply ih (fun c' hc' => hcs c' (List.mem_cons_of_mem c hc'))
    all_goals (unfold callManipulateWith; rw [hstep])
    · exact ha
    · exact hd
    · exact ht0
    · exact hT
    · exact hU

theorem runCallsWith_append_singleton (easing : F → F → F → F) (ops : MathOps F)
    (style : Style F) (s : State F) (cs : List (Call F)) (c : Call F) :
    runCallsWith easing ops style s (cs ++ [c])
      = callManipulateWith easing ops style (runCallsWith easing ops style s cs) c := by
  simp [runCallsWith, List.foldl_append]

/-! ## Evaluating the binary32 rounding -/

theorem roundHalfEven_of_near [FloorRing F] (x : F) (n : Int) (h1 : (n : F) - 1 / 2 < x)
    (h2 : x < n + 1 / 2) : roundHalfEven x = n := by
  unfold roundHalfEven
  rcases lt_or_le x (n : F) with hlt | hge
  · have hf : ⌊x⌋ = n - 1 := by
      rw [Int.floor_eq_iff]
      push_cast
      constructor <;> linarith
    rw [hf]
    push_cast
    rw [if_neg (by linarith), if_pos (by linarith)]
    ring
  · have hf : ⌊x⌋ = n := by
      rw [Int.floor_eq_iff]
      constructor <;> linarith
    rw [hf, if_pos (by linarith)]

theorem floor_le_roundHalfEven [FloorRing F] (x : F) : ⌊x⌋ ≤ roundHalfEven x := by
  unfold roundHalfEven
  split
  · exact le_refl _
  · split
    · omega
    · split <;> omega

theorem exponent32_eq [FloorRing F] (x : F) (e : Int) (he : -126 ≤ e) (hlo : (2 : F) ^ e ≤ |x|)
    (hhi : |x| < 2 ^ (e + 1)) : exponent32 x = e := by
  have hpos : 0 < |x| := lt_of_lt_of_le (zpow_pos (by norm_num) e) hlo
  have h1 : e ≤ Int.log 2 |x| := by
    rw [← Int.zpow_le_iff_le_log (by norm_num) hpos]
    exact_mod_cast hlo
  have h2 : Int.log 2 |x| < e + 1 := by
    rw [← Int.lt_zpow_iff_log_lt (by norm_num) hpos]
    exact_mod_cast hhi
  unfold exponent32
  rw [max_eq_left (by omega)]
  omega

/-- The value of `fl32 x`, given the exponent `e` of `x` and the integer `n` nearest to
`x / 2^(e-23)`. -/
theorem fl32_eq [FloorRing F] (x : F) (e n : Int) (he : -126 ≤ e) (hlo : (2 : F) ^ e ≤ |x|)
    (hhi : |x| < 2 ^ (e + 1)) (h1 : (n : F) - 1 / 2 < x / 2 ^ (e - 23))
    (h2 : x / 2 ^ (e - 23) < n + 1 / 2) : fl32 x = n * 2 ^ (e - 23) := by
  unfold fl32
  rw [exponent32_eq x e he hlo hhi, roundHalfEven_of_near _ n h1 h2]

theorem fl32_zero [FloorRing F] : fl32 (0 : F) = 0 := by
  simp [fl32, roundHalfEven]

theorem fl32_one [FloorRing F] : fl32 (1 : F) = 1 := by
  rw [fl32_eq 1 0 8388608 (by norm_num) (by norm_num) (by norm_num) (by norm_num) (by norm_num)]
  norm_num

/-- Rounding to binary32 does not take a number that is at least 1 below 1. -/
theorem one_le_fl32 [FloorRing F] (x : F) (hx : 1 ≤ x) : 1 ≤ fl32 x := by
  have hpos : 0 < |x| := lt_of_lt_of_le zero_lt_one (le_trans hx (le_abs_self x))
  have habs : |x| = x := abs_of_nonneg (le_trans zero_le_one hx)
  have he0 : 0 ≤ Int.log 2 |x| := by
    rw [← Int.zpow_le_iff_le_log (by norm_num) hpos, habs]
    simpa using hx
  have hexp : exponent32 x = Int.log 2 |x| := by
    unfold exponent32
    exact max_eq_left (by omega)
  have hlo : (2 : F) ^ Int.log 2 |x| ≤ x := by
    have h := Int.zpow_log_le_self (b := 2) (r := |x|) (by norm_num) hpos
    have h2 : (2 : F) ^ Int.log 2 |x| ≤ |x| := by exact_mod_cast h
    exact le_trans h2 (le_of_eq habs)
  unfold fl32
  rw [hexp]
  generalize Int.log 2 |x| = e at he0 hlo
  have hq : (0 : F) < 2 ^ (e - 23) := zpow_pos (by norm_num) _
  have hpow : (8388608 : F) * 2 ^ (e - 23) = 2 ^ e := by
    have h23 : (8388608 : F) = 2 ^ (23 : Int) := by norm_num
    rw [h23, ← zpow_add₀ (by norm_num : (2 : F) ≠ 0)]
    congr 1
    omega
  have hy : ((8388608 : Int) : F) ≤ x / 2 ^ (e - 23) := by
    rw [le_div_iff₀ hq]
    push_cast
    rw [hpow]
    exact hlo
  have hfl : (8388608 : Int) ≤ ⌊x / 2 ^ (e - 23)⌋ := Int.le_floor.mpr hy
  have hr : (8388608 : Int) ≤ roundHalfEven (x / 2 ^ (e - 23)) :=
    le_trans hfl (floor_le_roundHalfEven _)
  have hrF : (8388608 : F) ≤ (roundHalfEven (x / 2 ^ (e - 23)) : F) := by
    exact_mod_cast hr
  have h1 : (1 : F) ≤ 2 ^ e := one_le_zpow₀ (by norm_num) he0
  calc (1 : F) ≤ 2 ^ e := h1
    _ = (8388608 : F) * 2 ^ (e - 23) := hpow.symm
    _ ≤ (roundHalfEven (x / 2 ^ (e - 23)) : F) * 2 ^ (e - 23) :=
      mul_le_mul_of_nonneg_right hrF (le_of_lt hq)

/-- In binary32 too, a tick whose elapsed time has reached the (positive) duration computes
the eased parameter 1. -/
theorem binary32Easing_of_duration_le [FloorRing F] (time start duration : F)
    (hdur : 0 < duration) (h : duration ≤ fl32 (time - start)) :
    binary32Easing time start duration = 1 := by
  have hr : 1 ≤ fl32 (fl32 (time - start) / duration) :=
    one_le_fl32 _ ((one_le_div hdur).mpr h)
  unfold binary32Easing stdMin
  dsimp only
  rw [if_neg (not_lt.mpr hr)]
  simp [fl32_zero, fl32_one]

/-- In binary32, the tick at elapsed time zero computes the eased parameter 0. -/
theorem binary32Easing_at_start [FloorRing F] (t0 d : F) : binary32Easing t0 t0 d = 0 := by
  unfold binary32Easing stdMin
  simp [fl32_zero, fl32_one]

/-- The binary32 eased parameter at elapsed time `10064987 / 2^25`, about `0.29996`, of the
duration `0.3f`: the quotient rounds to `1 - 2238 / 2^24`, the square of `2238 / 2^24` is below
half a unit in the last place of 1, and the last subtraction rounds to 1. -/
theorem binary32Easing_early :
    binary32Easing (10064987 / 2 ^ 25 : ℝ) 0 (10066330 / 2 ^ 25) = 1 := by
  have h1 : fl32 (10064987 / 2 ^ 25 - 0 : ℝ) = 10064987 / 2 ^ 25 := by
    rw [fl32_eq _ (-2) 10064987 (by norm_num) (by norm_num [abs_of_pos])
      (by norm_num [abs_of_pos]) (by norm_num) (by norm_num)]
    norm_num
  have h2 : fl32 ((10064987 / 2 ^ 25 : ℝ) / (10066330 / 2 ^ 25)) = 16774978 / 2 ^ 24 := by
    rw [fl32_eq _ (-1) 16774978 (by norm_num) (by norm_num [abs_of_pos])
      (by norm_num [abs_of_pos]) (by norm_num) (by norm_num)]
    norm_num
  have h3 : stdMin (1 : ℝ) (16774978 / 2 ^ 24) = 16774978 / 2 ^ 24 := by
    unfold stdMin
    rw [if_pos (by norm_num)]
  have h4 : fl32 (1 - 16774978 / 2 ^ 24 : ℝ) = 2238 / 2 ^ 24 := by
    rw [fl32_eq _ (-13) 9166848 (by norm_num) (by norm_num [abs_of_pos])
      (by norm_num [abs_of_pos]) (by norm_num) (by norm_num)]
    norm_num
  have h5 : fl32 ((2238 / 2 ^ 24 : ℝ) * (2238 / 2 ^ 24)) = 5008644 / 2 ^ 48 := by
    rw [fl32_eq _ (-26) 10017288 (by norm_num) (by norm_num [abs_of_pos])
      (by norm_num [abs_of_pos]) (by norm_num) (by norm_num)]
    norm_num
  have h6 : fl32 (1 - 5008644 / 2 ^ 48 : ℝ) = 1 := by
    rw [fl32_eq _ (-1) 16777216 (by norm_num) (by norm_num [abs_of_pos])
      (by norm_num [abs_of_pos]) (by norm_num) (by norm_num)]
    norm_num
  unfold binary32Easing
  dsimp only
  rw [h1, h2, h3, h4, h5, h6]

/-- The binary32 eased parameter at elapsed time `0.1f = 13421773 / 2^27` of the duration
`0.3f`: `9320675 / 2^24`, about `0.5555555`. -/
theorem binary32Easing_third :
    binary32Easing (13421773 / 2 ^ 27 : ℝ) 0 (10066330 / 2 ^ 25) = 9320675 / 2 ^ 24 := by
  have h1 : fl32 (13421773 / 2 ^ 27 - 0 : ℝ) = 13421773 / 2 ^ 27 := by
    rw [fl32_eq _ (-4) 13421773 (by norm_num) (by norm_num [abs_of_pos])
      (by norm_num [abs_of_pos]) (by norm_num) (by norm_num)]
    norm_num
  have h2 : fl32 ((13421773 / 2 ^ 27 : ℝ) / (10066330 / 2 ^ 25)) = 11184810 / 2 ^ 25 := by
    rw [fl32_eq _ (-2) 11184810 (by norm_num) (by norm_num [abs_of_pos])
      (by norm_num [abs_of_pos]) (by norm_num) (by norm_num)]
    norm_num
  have h3 : stdMin (1 : ℝ) (11184810 / 2 ^ 25) = 11184810 / 2 ^ 25 := by
    unfold stdMin
    rw [if_pos (by norm_num)]
  have h4 : fl32 (1 - 11184810 / 2 ^ 25 : ℝ) = 11184811 / 2 ^ 24 := by
    rw [fl32_eq _ (-1) 11184811 (by norm_num) (by norm_num [abs_of_pos])
      (by norm_num [abs_of_pos]) (by norm_num) (by norm_num)]
    norm_num
  have h5 : fl32 ((11184811 / 2 ^ 24 : ℝ) * (11184811 / 2 ^ 24)) = 14913082 / 2 ^ 25 := by
    rw [fl32_eq _ (-2) 14913082 (by norm_num) (by norm_num [abs_of_pos])
      (by norm_num [abs_of_pos]) (by norm_num) (by norm_num)]
    norm_num
  have h6 : fl32 (1 - 14913082 / 2 ^ 25 : ℝ) = 9320675 / 2 ^ 24 := by
    rw [fl32_eq _ (-1) 9320675 (by norm_num) (by norm_num [abs_of_pos])
      (by norm_num [abs_of_pos]) (by norm_num) (by norm_num)]
    norm_num
  unfold binary32Easing
  dsimp only
  rw [h1, h2, h3, h4, h5, h6]


/-- The duration does not enter the hit test. -/
theorem hitTest_binary32Style (position mousePos : vec2 F) (cameraPos : vec3 F)
    (cameraRot : quat F) :
    hitTest binary32Style position mousePos cameraPos cameraRot
      = hitTest defaultStyle position mousePos cameraPos cameraRot := rfl

/-- The snap scenario with the duration `0.3f`: the click at `(36,100)` on the handle with
id 0, at time 0, stores the animation from `(0,0,5)` to `(-5,0,0)` and leaves the camera
alone. -/
theorem scenario32_trigger :
    callManipulateWith binary32Easing (⟨Real.sqrt, Real.sin, Real.cos⟩ : MathOps ℝ)
      binary32Style scenarioStart (scenarioCall (clickInput 0 ⟨36, 100⟩))
      = ⟨{ hoveredAxisID := 0, isDragging := false, isAnimating := true,
           animationStartTime := 0, startPos := ⟨0, 0, 5⟩, targetPos := ⟨-5, 0, 0⟩,
           startUp := ⟨0, 1, 0⟩, targetUp := ⟨0, 1, 0⟩ },
         ⟨0, 0, 5⟩, identityRot, false⟩ := by
  have hh : (Manipulate (⟨Real.sqrt, Real.sin, Real.cos⟩ : MathOps ℝ) binary32Style
      (clickInput 0 ⟨36, 100⟩) initialContext ⟨0, 0, 5⟩ identityRot ⟨100, 100⟩ 5
      (1 / 200)).ctx.hoveredAxisID = 0 := by
    rw [Manipulate_hovered_of_rest _ _ _ _ _ _ _ _ _ rfl, hitTest_binary32Style]
    have h := hitTest_identity_left (F := ℝ) ⟨0, 0, 5⟩
    simpa [initialContext, clickInput, idleInput] using h
  have hM := (Manipulate_of_hover_axis _ _ _ _ _ _ _ _ _ 0 (le_refl 0) (by norm_num) hh).2.2.2
  unfold callManipulateWith
  rw [ManipulateWith_of_rest _ _ _ _ _ _ _ _ _ _ rfl]
  show Manipulate (⟨Real.sqrt, Real.sin, Real.cos⟩ : MathOps ℝ) binary32Style
      (clickInput 0 ⟨36, 100⟩) initialContext ⟨0, 0, 5⟩ identityRot ⟨100, 100⟩ 5 (1 / 200) = _
  rw [hM]
  simp [snapLogic, beginAnimation, animationLogic, clickInput, idleInput, initialContext,
    binary32Style, defaultStyle, snapTargetDir, snapTargetUp, Int.tdiv, Int.tmod, axisVectors,
    length2, dot, worldUp, identityRot, quatRotate, cross, vec3_sub_def, vec3_mul_def,
    vec3_smul_def, vec3_neg_def, vec3_add_def]
  norm_num

theorem fl32_one_half : fl32 (1 / 2 - 0 : ℝ) = 1 / 2 := by
  rw [fl32_eq _ (-1) 8388608 (by norm_num) (by norm_num [abs_of_pos])
    (by norm_num [abs_of_pos]) (by norm_num) (by norm_num)]
  norm_num

/-- The binary32 normalisation of the snap target `(-41,0,0)` is not the target direction
`(-1,0,0)`: `1/41` rounds to `13094412 / 2^29`, and 41 times that rounds to `1 - 2^-24`.  For
the target `(-5,0,0)` the normalisation does return `(-1,0,0)`. -/
theorem normalize32_snap_target :
    normalize32 (⟨Real.sqrt, Real.sin, Real.cos⟩ : MathOps ℝ)
        ((snapTargetDir 0 : vec3 ℝ) * (41 : ℝ)) = ⟨-(16777215 / 2 ^ 24), 0, 0⟩ ∧
    normalize32 (⟨Real.sqrt, Real.sin, Real.cos⟩ : MathOps ℝ)
        ((snapTargetDir 0 : vec3 ℝ) * (41 : ℝ)) ≠ snapTargetDir 0 ∧
    normalize32 (⟨Real.sqrt, Real.sin, Real.cos⟩ : MathOps ℝ)
        ((snapTargetDir 0 : vec3 ℝ) * (5 : ℝ)) = snapTargetDir 0 := by
  have hv41 : ((snapTargetDir 0 : vec3 ℝ) * (41 : ℝ)) = ⟨-41, 0, 0⟩ := by
    simp [snapTargetDir, Int.tdiv, Int.tmod, axisVectors, vec3_mul_def, vec3_smul_def]
  have hv5 : ((snapTargetDir 0 : vec3 ℝ) * (5 : ℝ)) = ⟨-5, 0, 0⟩ := by
    simp [snapTargetDir, Int.tdiv, Int.tmod, axisVectors, vec3_mul_def, vec3_smul_def]
  have hd : (snapTargetDir 0 : vec3 ℝ) = ⟨-1, 0, 0⟩ := by
    simp [snapTargetDir, Int.tdiv, Int.tmod, axisVectors, vec3_smul_def]
  have h1681 : fl32 (1681 : ℝ) = 1681 := by
    rw [fl32_eq _ 10 13770752 (by norm_num) (by norm_num [abs_of_pos])
      (by norm_num [abs_of_pos]) (by norm_num) (by norm_num)]
    norm_num
  have h41 : fl32 (41 : ℝ) = 41 := by
    rw [fl32_eq _ 5 10747904 (by norm_num) (by norm_num [abs_of_pos])
      (by norm_num [abs_of_pos]) (by norm_num) (by norm_num)]
    norm_num
  have hinv41 : fl32 (1 / 41 : ℝ) = 13094412 / 2 ^ 29 := by
    rw [fl32_eq _ (-6) 13094412 (by norm_num) (by norm_num [abs_of_pos])
      (by norm_num [abs_of_pos]) (by norm_num) (by norm_num)]
    norm_num
  have hx41 : fl32 (-(134217723 / 134217728) : ℝ) = -(16777215 / 16777216) := by
    rw [fl32_eq _ (-1) (-16777215) (by norm_num) (by norm_num [abs_of_neg])
      (by norm_num [abs_of_neg]) (by norm_num) (by norm_num)]
    norm_num
  have h25 : fl32 (25 : ℝ) = 25 := by
    rw [fl32_eq _ 4 13107200 (by norm_num) (by norm_num [abs_of_pos])
      (by norm_num [abs_of_pos]) (by norm_num) (by norm_num)]
    norm_num
  have h5 : fl32 (5 : ℝ) = 5 := by
    rw [fl32_eq _ 2 10485760 (by norm_num) (by norm_num [abs_of_pos])
      (by norm_num [abs_of_pos]) (by norm_num) (by norm_num)]
    norm_num
  have hinv5 : fl32 (1 / 5 : ℝ) = 13421773 / 2 ^ 26 := by
    rw [fl32_eq _ (-3) 13421773 (by norm_num) (by norm_num [abs_of_pos])
      (by norm_num [abs_of_pos]) (by norm_num) (by norm_num)]
    norm_num
  have hx5 : fl32 (-(67108865 / 67108864) : ℝ) = -1 := by
    rw [fl32_eq _ 0 (-8388608) (by norm_num) (by norm_num [abs_of_neg])
      (by norm_num [abs_of_neg]) (by norm_num) (by norm_num)]
    norm_num
  have hs1681 : Real.sqrt 1681 = 41 := by
    rw [show (1681 : ℝ) = 41 * 41 by norm_num]
    exact Real.sqrt_mul_self (by norm_num)
  have hs25 : Real.sqrt 25 = 5 := by
    rw [show (25 : ℝ) = 5 * 5 by norm_num]
    exact Real.sqrt_mul_self (by norm_num)
  have hn41 : normalize32 (⟨Real.sqrt, Real.sin, Real.cos⟩ : MathOps ℝ) ⟨-41, 0, 0⟩
      = ⟨-(16777215 / 2 ^ 24), 0, 0⟩ := by
    unfold normalize32 dot32
    norm_num [fl32_zero, h1681, hs1681, h41, hinv41, hx41]
  have hn5 : normalize32 (⟨Real.sqrt, Real.sin, Real.cos⟩ : MathOps ℝ) ⟨-5, 0, 0⟩
      = ⟨-1, 0, 0⟩ := by
    unfold normalize32 dot32
    norm_num [fl32_zero, h25, hs25, h5, hinv5, hx5]
  rw [hv41, hv5, hd, hn41, hn5]
  refine ⟨rfl, ?_, rfl⟩
  intro h
  have hx := congrArg vec3.x h
  norm_num at hx


/-- The distance from the origin of the position written by an animation tick whose eased
parameter lies in `[0,1]` and which hands no zero vector to `normalize`: the blend of the two
distances, which lies between them.  The square root is assumed non-negative with
`sqrt(x) * sqrt(x) = x` for `x ≥ 0`. -/
theorem tick_distance (easing : F → F → F → F) (ops : MathOps F)
    (hsq : ∀ x : F, 0 ≤ x → ops.sqrt x * ops.sqrt x = x) (hnn : ∀ x : F, 0 ≤ ops.sqrt x)
    (style : Style F) (input : HostInput F) (s : State F)
    (ha : s.ctx.isAnimating = true)
    (ht0 : 0 ≤ easing input.time s.ctx.animationStartTime style.snapAnimationDuration)
    (ht1 : easing input.time s.ctx.animationStartTime style.snapAnimationDuration ≤ 1)
    (hargs : ∀ v ∈ tickNormalizeArgs ops s.ctx
        (easing input.time s.ctx.animationStartTime style.snapAnimationDuration),
      v ≠ ⟨0, 0, 0⟩) :
    length ops (animationLogicWith easing ops style input s).cameraPos =
      (1 - easing input.time s.ctx.animationStartTime style.snapAnimationDuration)
          * length ops s.ctx.startPos
        + easing input.time s.ctx.animationStartTime style.snapAnimationDuration
          * length ops s.ctx.targetPos ∧
    min (length ops s.ctx.startPos) (length ops s.ctx.targetPos)
      ≤ length ops (animationLogicWith easing ops style input s).cameraPos ∧
    length ops (animationLogicWith easing ops style input s).cameraPos
      ≤ Max.max (length ops s.ctx.startPos) (length ops s.ctx.targetPos) := by
  have hd : length ops (animationLogicWith easing ops style input s).cameraPos =
      (1 - easing input.time s.ctx.animationStartTime style.snapAnimationDuration)
          * length ops s.ctx.startPos
        + easing input.time s.ctx.animationStartTime style.snapAnimationDuration
          * length ops s.ctx.targetPos := by
    unfold animationLogicWith
    rw [if_pos ha]
    dsimp only
    generalize easing input.time s.ctx.animationStartTime style.snapAnimationDuration = t
      at ht0 ht1 hargs
    by_cases hc : 1 ≤ t
    · rw [if_pos hc]
      have : t = 1 := le_antisymm ht1 hc
      subst this
      simp
    · rw [if_neg hc]
      dsimp only
      have hb : blendedDir ops s.ctx t ≠ ⟨0, 0, 0⟩ :=
        hargs _ (tickNormalizeArgs_covers ops s.ctx t).1
      have hunit : dot (currentDir ops s.ctx t) (currentDir ops s.ctx t) = 1 := by
        rw [currentDir_eq]
        exact dot_normalize ops hsq _ (length_pos_of_ne_zero ops hsq hnn _ hb)
      have hmix : 0 ≤ mix (length ops s.ctx.startPos) (length ops s.ctx.targetPos) t := by
        unfold mix
        have hp := hnn (dot s.ctx.startPos s.ctx.startPos)
        have hq := hnn (dot s.ctx.targetPos s.ctx.targetPos)
        unfold length
        have : 0 ≤ 1 - t := by linarith
        positivity
      rw [length_unit_mul ops hsq hnn _ hunit _ hmix]
      unfold mix
      ring
  rw [hd]
  exact ⟨rfl, blend_between _ _ _ ht0 ht1⟩

/-- The view matrix of a camera whose rotation matrix has the columns `(0,0,-1)`, `(0,1,0)`,
`(1,0,0)`: its transpose. -/
theorem gizmoViewMatrix_quarter (cameraPos : vec3 F) (q : quat F)
    (h : mat3_cast q = ⟨⟨0, 0, -1⟩, ⟨0, 1, 0⟩, ⟨1, 0, 0⟩⟩) :
    gizmoViewMatrix cameraPos q = ⟨⟨0, 0, 1, 0⟩, ⟨0, 1, 0, 0⟩, ⟨-1, 0, 0, 0⟩, ⟨0, 0, 0, 1⟩⟩ := by
  unfold gizmoViewMatrix
  dsimp only
  rw [worldMatrix_eq, h]
  simp [mat4_of_mat3, mat3_of_mat4, glm.inverse, vec4_add_def, vec4_sub_def, vec4_mul_def,
    vec4_smul_def]

theorem sortedAxes_quarter :
    sortedAxes (⟨⟨0, 0, 1, 0⟩, ⟨0, 1, 0, 0⟩, ⟨-1, 0, 0, 0⟩, ⟨0, 0, 0, 1⟩⟩ : mat4 F) =
      [⟨1, 0, -1, ⟨-1, 0, 0⟩⟩, ⟨2, 1, 0, ⟨0, 1, 0⟩⟩, ⟨3, 1, 0, ⟨0, -1, 0⟩⟩,
       ⟨4, 2, 0, ⟨0, 0, 1⟩⟩, ⟨5, 2, 0, ⟨0, 0, -1⟩⟩, ⟨0, 0, 1, ⟨1, 0, 0⟩⟩] := by
  norm_num [sortedAxes, unsortedAxes, axisPair, axisVectors, mat4_mulVec,
    vec4_add_def, vec4_smul_def, vec3_neg_def, List.insertionSort, List.orderedInsert]

/-- With that rotation, the mouse at `(130,130)` and the anchor at `(100,100)`, no handle is
hit and the centre circle is. -/
theorem hitTest_quarter_inner (cameraPos : vec3 F) (q : quat F)
    (h : mat3_cast q = ⟨⟨0, 0, -1⟩, ⟨0, 1, 0⟩, ⟨1, 0, 0⟩⟩) :
    hitTest defaultStyle (⟨100, 100⟩ : vec2 F) ⟨130, 130⟩ cameraPos q = 6 := by
  unfold hitTest gizmoMvp
  rw [gizmoViewMatrix_quarter cameraPos q h, sortedAxes_quarter]
  simp [handleStep, worldToScreen, mat4_mulVec, mat4_mul, gizmoProjectionMatrix, ortho,
    ImLengthSqr, defaultStyle, baseSize, origin, vec4_add_def, vec4_smul_def, vec3_mul_def,
    vec3_div_def]
  norm_num

/-- The rotation that the completing tick of the snap scenario writes, as a matrix: the camera
at `(-5,0,0)` looks along `+X` towards the origin. -/
theorem scenario_target_rotation :
    mat3_cast (quatLookAt (⟨Real.sqrt, Real.sin, Real.cos⟩ : MathOps ℝ)
      (normalize ⟨Real.sqrt, Real.sin, Real.cos⟩ ⟨-5, 0, 0⟩) ⟨0, 1, 0⟩)
      = ⟨⟨0, 0, -1⟩, ⟨0, 1, 0⟩, ⟨1, 0, 0⟩⟩ := by
  have h1 : normalize (⟨Real.sqrt, Real.sin, Real.cos⟩ : MathOps ℝ) ⟨-5, 0, 0⟩ = ⟨-1, 0, 0⟩ := by
    simp [glm.normalize, glm.inversesqrt, dot, vec3_mul_def]
  have h2 : Real.sqrt 2 * Real.sqrt 2 = 2 := Real.mul_self_sqrt (by norm_num)
  have h0 : Real.sqrt 2 ≠ 0 := by
    intro h
    rw [h] at h2
    norm_num at h2
  have hq : quatLookAt (⟨Real.sqrt, Real.sin, Real.cos⟩ : MathOps ℝ) ⟨-1, 0, 0⟩ ⟨0, 1, 0⟩
      = ⟨Real.sqrt 2 * (1 / 2), 0, 2 * (1 / 4 / (Real.sqrt 2 * (1 / 2))), 0⟩ := by
    simp [quatLookAt, quat_cast, cross, dot, glm.max, glm.inversesqrt, vec3_neg_def,
      vec3_mul_def]
    norm_num
  rw [h1, hq]
  unfold mat3_cast
  simp only [mat3.mk.injEq, vec3.mk.injEq]
  refine ⟨⟨?_, ?_, ?_⟩, ⟨?_, ?_, ?_⟩, ⟨?_, ?_, ?_⟩⟩ <;> field_simp <;> nlinarith [h2]


/-- A tick that computes an eased parameter of at least one, in a call that found no drag
active, with the button held and the mouse over the centre circle at the pose the tick writes:
the animation ends, the hit test runs and the drag starts, all in this call. -/
theorem ManipulateWith_completes_held (easing : F → F → F → F) (ops : MathOps F)
    (style : Style F) (input : HostInput F) (ctx : Context F) (cameraPos : vec3 F)
    (cameraRot : quat F) (position : vec2 F) (snapDistance mouseSpeed : F)
    (ha : ctx.isAnimating = true) (hd : ctx.isDragging = false)
    (ht : 1 ≤ easing input.time ctx.animationStartTime style.snapAnimationDuration)
    (hdown : input.mouseDown = true) (hnr : input.mouseReleased = false)
    (hhit : hitTest style position input.mousePos ctx.targetPos
      (quatLookAt ops (normalize ops ctx.targetPos) ctx.targetUp) = 6) :
    (ManipulateWith easing ops style input ctx cameraPos cameraRot position snapDistance
      mouseSpeed).ctx.isAnimating = false ∧
    (ManipulateWith easing ops style input ctx cameraPos cameraRot position snapDistance
      mouseSpeed).ctx.hoveredAxisID = 6 ∧
    (ManipulateWith easing ops style input ctx cameraPos cameraRot position snapDistance
      mouseSpeed).ctx.isDragging = true := by
  unfold ManipulateWith animationLogicWith selectionLogic dragLogic snapLogic
  simp [ha, hd, ht, hdown, hnr, hhit]

/-! ## Claims -/

/-- Claim C1.  Mutual exclusion of `isDragging` and `isAnimating` is preserved by one call of
`Manipulate`, for every style, host input, camera pose and call argument. -/
theorem Manipulate_preserves_mutual_exclusion (ops : MathOps F) (style : Style F) (input : HostInput F)
    (ctx : Context F) (cameraPos : vec3 F) (cameraRot : quat F) (position : vec2 F)
    (snapDistance mouseSpeed : F)
    (h : ¬ (ctx.isDragging = true ∧ ctx.isAnimating = true)) :
    ¬ ((Manipulate ops style input ctx cameraPos cameraRot position snapDistance
          mouseSpeed).ctx.isDragging = true ∧
       (Manipulate ops style input ctx cameraPos cameraRot position snapDistance
          mouseSpeed).ctx.isAnimating = true) := by
  intro ⟨hd, ha⟩
  unfold Manipulate at hd ha
  dsimp only at hd ha
  generalize hs1 : animationLogic ops style input ⟨ctx, cameraPos, cameraRot, false⟩ = s1
    at hd ha
  generalize hs2 : selectionLogic style input position s1 = s2 at hd ha
  generalize hs3 : dragLogic ops input mouseSpeed s2 = s3 at hd ha
  have hd3 : s3.ctx.isDragging = true := by
    rw [(snapLogic_hovered ops style input snapDistance s3).2] at hd; exact hd
  have hd3' := hd3
  rw [← hs3, dragLogic_isDragging] at hd3'
  have hsel := selectionLogic_flags style input position s1
  have hhov := selectionLogic_hovered style input position s1
  rw [hs2] at hsel hhov
  have h1d := animationLogic_isDragging ops style input ⟨ctx, cameraPos, cameraRot, false⟩
  have h1a := animationLogic_isAnimating ops style input ⟨ctx, cameraPos, cameraRot, false⟩
  rw [hs1] at h1d h1a
  dsimp only at h1d h1a
  rcases snapLogic_isAnimating_imp ops style input snapDistance s3 ha with h3 | h3
  · rw [← hs3, dragLogic_isAnimating] at h3
    simp only [Bool.and_eq_true, Bool.not_eq_true', Bool.or_eq_true, decide_eq_true_eq] at h3 hd3'
    rw [hsel.1, hsel.2.1, h1d, h1a] at h3
    rw [hsel.1, h1d] at hd3'
    simp only [Bool.and_eq_true, decide_eq_true_eq] at h3
    rcases hd3'.2 with hdd | h6
    · exact h ⟨hdd, h3.1.1⟩
    · have := h3.2
      simp [hd3'.1, h6] at this
      exact h ⟨this, h3.1.1⟩
  · rw [← hs3, dragLogic_hovered] at h3
    simp only [Bool.and_eq_true, Bool.or_eq_true, decide_eq_true_eq] at hd3'
    rcases hd3'.2 with hdd | h6
    · rw [hsel.1] at hdd
      rw [hhov] at h3
      simp [hdd] at h3
    · omega

/-- Witness for C1: the initial context, a click frame at the gizmo anchor. -/
theorem Manipulate_preserves_mutual_exclusion_witness :
    ¬ ((initialContext : Context ℝ).isDragging = true ∧
        (initialContext : Context ℝ).isAnimating = true) ∧
    ¬ ((Manipulate (⟨Real.sqrt, Real.sin, Real.cos⟩ : MathOps ℝ) defaultStyle
          (clickInput 0 ⟨100, 100⟩) initialContext ⟨0, 0, 5⟩ identityRot ⟨100, 100⟩ 5
          (1 / 200)).ctx.isDragging = true ∧
       (Manipulate (⟨Real.sqrt, Real.sin, Real.cos⟩ : MathOps ℝ) defaultStyle
          (clickInput 0 ⟨100, 100⟩) initialContext ⟨0, 0, 5⟩ identityRot ⟨100, 100⟩ 5
          (1 / 200)).ctx.isAnimating = true) :=
  ⟨by simp [initialContext],
   Manipulate_preserves_mutual_exclusion _ _ _ _ _ _ _ _ _ (by simp [initialContext])⟩

/-- Claim C2, evaluated at the failing input.  An animation started at time 0 with duration
0.3 is in progress at time 0.1; the button is held with the mouse at `(130,130)`, which lies
inside the centre circle of radius 80 around the anchor `(100,100)`.  After the call the
animation is still running and no drag has started. -/
theorem drag_start_does_not_cancel_animation :
    (0 : ℝ) ≤ 1 / 10 - (animatingContext : Context ℝ).animationStartTime ∧
    1 / 10 - (animatingContext : Context ℝ).animationStartTime
      < (defaultStyle : Style ℝ).snapAnimationDuration ∧
    ImLengthSqr (⟨100 - 130, 100 - 130⟩ : vec2 ℝ)
      < (defaultStyle : Style ℝ).bigCircleRadius * (defaultStyle : Style ℝ).scale
        * ((defaultStyle : Style ℝ).bigCircleRadius * (defaultStyle : Style ℝ).scale) ∧
    (Manipulate (⟨Real.sqrt, Real.sin, Real.cos⟩ : MathOps ℝ) defaultStyle
      (heldInput (1 / 10) ⟨130, 130⟩ ⟨0, 0⟩) animatingContext ⟨0, 0, 5⟩ identityRot ⟨100, 100⟩ 5
      (1 / 200)).ctx.isAnimating = true ∧
    (Manipulate (⟨Real.sqrt, Real.sin, Real.cos⟩ : MathOps ℝ) defaultStyle
      (heldInput (1 / 10) ⟨130, 130⟩ ⟨0, 0⟩) animatingContext ⟨0, 0, 5⟩ identityRot ⟨100, 100⟩ 5
      (1 / 200)).ctx.isDragging = false := by
  have ht : easedT (defaultStyle : Style ℝ) (heldInput (1 / 10) ⟨130, 130⟩ ⟨0, 0⟩)
      animatingContext < 1 := by
    rw [easedT_lt_one_iff]
    norm_num [defaultStyle, heldInput, idleInput, animatingContext]
  rw [Manipulate_in_progress _ _ _ _ _ _ _ _ _ rfl rfl ht]
  refine ⟨?_, ?_, ?_, rfl, rfl⟩ <;>
    norm_num [defaultStyle, animatingContext, ImLengthSqr]

/-- Counterexample to C3 as stated.  A drag frame with the mouse held still returns `true`
although the camera it writes back is the camera it was given. -/
theorem return_true_without_change :
    ¬ ((Manipulate (⟨Real.sqrt, Real.sin, Real.cos⟩ : MathOps ℝ) defaultStyle
          (heldInput 0 ⟨100, 100⟩ ⟨0, 0⟩) draggingContext ⟨0, 0, 5⟩ identityRot ⟨100, 100⟩ 5
          (1 / 200)).wasModified = true ↔
       ((Manipulate (⟨Real.sqrt, Real.sin, Real.cos⟩ : MathOps ℝ) defaultStyle
          (heldInput 0 ⟨100, 100⟩ ⟨0, 0⟩) draggingContext ⟨0, 0, 5⟩ identityRot ⟨100, 100⟩ 5
          (1 / 200)).cameraPos ≠ ⟨0, 0, 5⟩ ∨
        (Manipulate (⟨Real.sqrt, Real.sin, Real.cos⟩ : MathOps ℝ) defaultStyle
          (heldInput 0 ⟨100, 100⟩ ⟨0, 0⟩) draggingContext ⟨0, 0, 5⟩ identityRot ⟨100, 100⟩ 5
          (1 / 200)).cameraRot ≠ identityRot)) := by
  have h : Manipulate (⟨Real.sqrt, Real.sin, Real.cos⟩ : MathOps ℝ) defaultStyle
      (heldInput 0 ⟨100, 100⟩ ⟨0, 0⟩) draggingContext ⟨0, 0, 5⟩ identityRot ⟨100, 100⟩ 5
      (1 / 200) = ⟨draggingContext, ⟨0, 0, 5⟩, identityRot, true⟩ := by
    simp [Manipulate, animationLogic, selectionLogic, dragLogic, snapLogic, heldInput, idleInput,
      draggingContext, initialContext, identityRot, totalRotation, angleAxis, quatRotate,
      quatMul, cross, worldUp, worldRight, vec3_add_def, vec3_mul_def]
  rw [h]
  simp

/-- Claim C3, amended.  If the camera position or the camera rotation after the call differs
from the one before the call, then `Manipulate` returns `true`. -/
theorem changed_camera_returns_true (ops : MathOps F) (style : Style F) (input : HostInput F)
    (ctx : Context F) (cameraPos : vec3 F) (cameraRot : quat F) (position : vec2 F)
    (snapDistance mouseSpeed : F)
    (h : (Manipulate ops style input ctx cameraPos cameraRot position snapDistance
            mouseSpeed).cameraPos ≠ cameraPos ∨
         (Manipulate ops style input ctx cameraPos cameraRot position snapDistance
            mouseSpeed).cameraRot ≠ cameraRot) :
    (Manipulate ops style input ctx cameraPos cameraRot position snapDistance
      mouseSpeed).wasModified = true := by
  by_contra hf
  have hf' := Manipulate_false_camera ops style input ctx cameraPos cameraRot position
    snapDistance mouseSpeed (by simpa using hf)
  rcases h with h | h
  · exact h hf'.1
  · exact h hf'.2

/-- Witness for C3: the frame that completes the animation of `animatingContext` moves the
camera from `(0,0,5)` to `(-5,0,0)`. -/
theorem changed_camera_returns_true_witness :
    (Manipulate (⟨Real.sqrt, Real.sin, Real.cos⟩ : MathOps ℝ) defaultStyle
      (idleInput 1 ⟨0, 0⟩) animatingContext ⟨0, 0, 5⟩ identityRot ⟨100, 100⟩ 5
      (1 / 200)).cameraPos ≠ ⟨0, 0, 5⟩ ∧
    (Manipulate (⟨Real.sqrt, Real.sin, Real.cos⟩ : MathOps ℝ) defaultStyle
      (idleInput 1 ⟨0, 0⟩) animatingContext ⟨0, 0, 5⟩ identityRot ⟨100, 100⟩ 5
      (1 / 200)).wasModified = true := by
  have hpos : (Manipulate (⟨Real.sqrt, Real.sin, Real.cos⟩ : MathOps ℝ) defaultStyle
      (idleInput 1 ⟨0, 0⟩) animatingContext ⟨0, 0, 5⟩ identityRot ⟨100, 100⟩ 5
      (1 / 200)).cameraPos ≠ ⟨0, 0, 5⟩ := by
    have ht : (1 : ℝ) ≤ easedT defaultStyle (idleInput 1 ⟨0, 0⟩) animatingContext := by
      norm_num [easedT, stdMin, defaultStyle, idleInput, animatingContext]
    simp [Manipulate, animationLogic, selectionLogic, dragLogic, snapLogic, ht]
    simp [animatingContext, idleInput]
  exact ⟨hpos, changed_camera_returns_true _ _ _ _ _ _ _ _ _ (Or.inl hpos)⟩

/-- Claim C4.  Immediate snap: when a call leaves an axis id `k` in `0..5` hovered, the button
was released without a drag gesture, and animation is disabled (`animateSnap` off or duration
not positive), the call sets the camera position to `sign(k) * axisVectors[k/2] * d` and the
rotation to `quatLookAt(sign(k) * axisVectors[k/2], targetUp)`, leaves `isAnimating` false and
returns `true`. -/
theorem immediate_snap_applies_target (ops : MathOps F) (style : Style F) (input : HostInput F)
    (ctx : Context F) (cameraPos : vec3 F) (cameraRot : quat F) (position : vec2 F)
    (d mouseSpeed : F) (k : Int) (hk0 : 0 ≤ k) (hk5 : k ≤ 5)
    (hh : (Manipulate ops style input ctx cameraPos cameraRot position d
      mouseSpeed).ctx.hoveredAxisID = k)
    (hrel : input.mouseReleased = true) (hnd : input.mouseDragging = false)
    (hoff : style.animateSnap = false ∨ style.snapAnimationDuration ≤ 0) :
    (Manipulate ops style input ctx cameraPos cameraRot position d mouseSpeed).cameraPos =
      ((if k % 2 = 0 then (-1 : F) else 1) * (axisVectors (k / 2) : vec3 F)) * d ∧
    (Manipulate ops style input ctx cameraPos cameraRot position d mouseSpeed).cameraRot =
      quatLookAt ops ((if k % 2 = 0 then (-1 : F) else 1) * (axisVectors (k / 2) : vec3 F))
        (if k / 2 = 1 then -worldForward else -worldUp) ∧
    (Manipulate ops style input ctx cameraPos cameraRot position d
      mouseSpeed).ctx.isAnimating = false ∧
    (Manipulate ops style input ctx cameraPos cameraRot position d
      mouseSpeed).wasModified = true := by
  obtain ⟨_, ha, _, hM⟩ := Manipulate_of_hover_axis ops style input ctx cameraPos cameraRot
    position d mouseSpeed k hk0 hk5 hh
  rw [hM, ← snapTargetDir_eq k hk0 hk5, ← snapTargetUp_eq k hk0 hk5]
  have hoff' : (style.animateSnap && decide (0 < style.snapAnimationDuration)) = false := by
    rcases hoff with h | h
    · simp [h]
    · simp [not_lt.mpr h]
  unfold snapLogic
  simp [hrel, hnd, hk0, hk5, hoff', ha]

/-- Witness for C4: animation switched off, camera at `(0,0,5)` with the identity rotation,
click at the gizmo anchor, where the handle with id 4 sits. -/
theorem immediate_snap_applies_target_witness :
    (Manipulate (⟨Real.sqrt, Real.sin, Real.cos⟩ : MathOps ℝ)
      { defaultStyle with animateSnap := false } (clickInput 0 ⟨100, 100⟩) initialContext
      ⟨0, 0, 5⟩ identityRot ⟨100, 100⟩ 5 (1 / 200)).ctx.hoveredAxisID = 4 ∧
    (Manipulate (⟨Real.sqrt, Real.sin, Real.cos⟩ : MathOps ℝ)
      { defaultStyle with animateSnap := false } (clickInput 0 ⟨100, 100⟩) initialContext
      ⟨0, 0, 5⟩ identityRot ⟨100, 100⟩ 5 (1 / 200)).cameraPos = ⟨0, 0, -5⟩ ∧
    (Manipulate (⟨Real.sqrt, Real.sin, Real.cos⟩ : MathOps ℝ)
      { defaultStyle with animateSnap := false } (clickInput 0 ⟨100, 100⟩) initialContext
      ⟨0, 0, 5⟩ identityRot ⟨100, 100⟩ 5 (1 / 200)).wasModified = true := by
  have hh : (Manipulate (⟨Real.sqrt, Real.sin, Real.cos⟩ : MathOps ℝ)
      { defaultStyle with animateSnap := false } (clickInput 0 ⟨100, 100⟩) initialContext
      ⟨0, 0, 5⟩ identityRot ⟨100, 100⟩ 5 (1 / 200)).ctx.hoveredAxisID = 4 := by
    unfold Manipulate
    dsimp only
    rw [(snapLogic_hovered _ _ _ _ _).1, dragLogic_hovered, selectionLogic_hovered]
    have h := hitTest_identity_center (F := ℝ) ⟨0, 0, 5⟩
    simpa [animationLogic, initialContext, clickInput, idleInput, defaultStyle] using h
  have h := immediate_snap_applies_target (⟨Real.sqrt, Real.sin, Real.cos⟩ : MathOps ℝ)
    { defaultStyle with animateSnap := false } (clickInput 0 ⟨100, 100⟩) initialContext
    ⟨0, 0, 5⟩ identityRot ⟨100, 100⟩ 5 (1 / 200) 4 (by norm_num) (by norm_num) hh rfl rfl
    (Or.inl rfl)
  refine ⟨hh, ?_, h.2.2.2⟩
  rw [h.1]
  norm_num [axisVectors, vec3_smul_def, vec3_mul_def]

/-- Counterexample to C5 as stated, in binary32.  The spec scenario with the duration `0.3f`
and snap distance 5: the click on the handle with id 0 at time 0 triggers the animated snap.
A call follows at time `10064987 / 2^25`, about `0.29996`, whose elapsed time is below the
duration; its tick already computes the eased parameter 1 and completes the animation.  The
later call at time `0.5`, with elapsed time at least the duration and no button down or
released, finds no animation running and returns `false`. -/
theorem completed_animation_returns_false_at_duration :
    (callManipulateWith binary32Easing (⟨Real.sqrt, Real.sin, Real.cos⟩ : MathOps ℝ)
      binary32Style scenarioStart (scenarioCall (clickInput 0 ⟨36, 100⟩))).ctx.hoveredAxisID
      = 0 ∧
    (callManipulateWith binary32Easing (⟨Real.sqrt, Real.sin, Real.cos⟩ : MathOps ℝ)
      binary32Style scenarioStart (scenarioCall (clickInput 0 ⟨36, 100⟩))).ctx.isAnimating
      = true ∧
    (0 : ℝ) < (scenarioCall (clickInput (0 : ℝ) ⟨36, 100⟩)).snapDistance ∧
    (0 : ℝ) < (binary32Style : Style ℝ).snapAnimationDuration ∧
    fl32 (10064987 / 2 ^ 25 - 0 : ℝ) < (binary32Style : Style ℝ).snapAnimationDuration ∧
    binary32Easing (10064987 / 2 ^ 25 : ℝ) 0 (binary32Style : Style ℝ).snapAnimationDuration
      = 1 ∧
    (binary32Style : Style ℝ).snapAnimationDuration ≤ fl32 (1 / 2 - 0 : ℝ) ∧
    (runCallsWith binary32Easing (⟨Real.sqrt, Real.sin, Real.cos⟩ : MathOps ℝ) binary32Style
      scenarioStart
      [scenarioCall (clickInput 0 ⟨36, 100⟩),
       scenarioCall (idleInput (10064987 / 2 ^ 25) ⟨0, 0⟩),
       scenarioCall (idleInput (1 / 2) ⟨0, 0⟩)]).wasModified = false := by
  have hel : fl32 (10064987 / 2 ^ 25 - 0 : ℝ) = 10064987 / 2 ^ 25 := by
    rw [fl32_eq _ (-2) 10064987 (by norm_num) (by norm_num [abs_of_pos])
      (by norm_num [abs_of_pos]) (by norm_num) (by norm_num)]
    norm_num
  have hrun : runCallsWith binary32Easing (⟨Real.sqrt, Real.sin, Real.cos⟩ : MathOps ℝ)
      binary32Style scenarioStart
      [scenarioCall (clickInput 0 ⟨36, 100⟩),
       scenarioCall (idleInput (10064987 / 2 ^ 25) ⟨0, 0⟩),
       scenarioCall (idleInput (1 / 2) ⟨0, 0⟩)]
      = callManipulateWith binary32Easing ⟨Real.sqrt, Real.sin, Real.cos⟩ binary32Style
          (callManipulateWith binary32Easing ⟨Real.sqrt, Real.sin, Real.cos⟩ binary32Style
            (callManipulateWith binary32Easing ⟨Real.sqrt, Real.sin, Real.cos⟩ binary32Style
              scenarioStart (scenarioCall (clickInput 0 ⟨36, 100⟩)))
            (scenarioCall (idleInput (10064987 / 2 ^ 25) ⟨0, 0⟩)))
          (scenarioCall (idleInput (1 / 2) ⟨0, 0⟩)) := rfl
  rw [hrun, scenario32_trigger, hel, fl32_one_half]
  refine ⟨rfl, rfl, by norm_num [scenarioCall], by norm_num [binary32Style],
    by norm_num [binary32Style], binary32Easing_early, by norm_num [binary32Style], ?_⟩
  have hmid := ManipulateWith_completes binary32Easing
    (⟨Real.sqrt, Real.sin, Real.cos⟩ : MathOps ℝ) binary32Style
    (idleInput (10064987 / 2 ^ 25) ⟨0, 0⟩)
    { hoveredAxisID := 0, isDragging := false, isAnimating := true,
      animationStartTime := 0, startPos := ⟨0, 0, 5⟩, targetPos := ⟨-5, 0, 0⟩,
      startUp := ⟨0, 1, 0⟩, targetUp := ⟨0, 1, 0⟩ }
    ⟨0, 0, 5⟩ identityRot ⟨100, 100⟩ 5 (1 / 200) rfl
    (le_of_eq binary32Easing_early.symm) rfl rfl
  exact (ManipulateWith_idle binary32Easing _ binary32Style (idleInput (1 / 2) ⟨0, 0⟩) _ _ _
    _ _ _ hmid.2.2.1 rfl rfl).2.2.2

/-- Claim C5, amended.  Animated snap completes on the stored target.  The eased parameter of
the animation tick is computed by `easing`, in whatever arithmetic.  A first call leaves axis
id `k` in `0..5` hovered and the animation running, i.e. it triggered a snap to `k` with
animation enabled, for a snap distance `d > 0`.  Any number of calls follow whose ticks compute
an eased parameter below 1.  Then a call whose tick computes an eased parameter of at least 1,
with the button neither down nor released, sets the camera position to
`sign(k) * axisVectors[k/2] * d`, a vector that is not zero, sets the rotation to
`quatLookAt(normalize(sign(k) * axisVectors[k/2] * d), targetUp)`, which is the rotation
`quatLookAt(sign(k) * axisVectors[k/2], targetUp)` of the immediate snap whenever the
normalisation returns `sign(k) * axisVectors[k/2]`, clears `isAnimating` and returns `true`. -/
theorem animated_snap_completes_on_stored_target (easing : F → F → F → F) (ops : MathOps F)
    (style : Style F) (s0 : State F) (trigger : Call F) (k : Int) (hk0 : 0 ≤ k) (hk5 : k ≤ 5)
    (hd : 0 < trigger.snapDistance)
    (hhov : (callManipulateWith easing ops style s0 trigger).ctx.hoveredAxisID = k)
    (hanim : (callManipulateWith easing ops style s0 trigger).ctx.isAnimating = true)
    (between : List (Call F))
    (hbetween : ∀ c ∈ between,
      easing c.input.time trigger.input.time style.snapAnimationDuration < 1)
    (final : Call F)
    (hfinal : 1 ≤ easing final.input.time trigger.input.time style.snapAnimationDuration)
    (hup : final.input.mouseDown = false) (hnr : final.input.mouseReleased = false) :
    (runCallsWith easing ops style s0 (trigger :: between ++ [final])).cameraPos =
      ((if k % 2 = 0 then (-1 : F) else 1) * (axisVectors (k / 2) : vec3 F))
        * trigger.snapDistance ∧
    ((if k % 2 = 0 then (-1 : F) else 1) * (axisVectors (k / 2) : vec3 F))
        * trigger.snapDistance ≠ ⟨0, 0, 0⟩ ∧
    (runCallsWith easing ops style s0 (trigger :: between ++ [final])).cameraRot =
      quatLookAt ops
        (normalize ops (((if k % 2 = 0 then (-1 : F) else 1) * (axisVectors (k / 2) : vec3 F))
          * trigger.snapDistance))
        (if k / 2 = 1 then -worldForward else -worldUp) ∧
    (normalize ops (((if k % 2 = 0 then (-1 : F) else 1) * (axisVectors (k / 2) : vec3 F))
          * trigger.snapDistance)
        = (if k % 2 = 0 then (-1 : F) else 1) * (axisVectors (k / 2) : vec3 F) →
      (runCallsWith easing ops style s0 (trigger :: between ++ [final])).cameraRot =
        quatLookAt ops ((if k % 2 = 0 then (-1 : F) else 1) * (axisVectors (k / 2) : vec3 F))
          (if k / 2 = 1 then -worldForward else -worldUp)) ∧
    (runCallsWith easing ops style s0 (trigger :: between ++ [final])).ctx.isAnimating = false ∧
    (runCallsWith easing ops style s0 (trigger :: between ++ [final])).wasModified = true := by
  -- the trigger call
  obtain ⟨hdr1, han1, hM⟩ := ManipulateWith_of_hover_axis easing ops style trigger.input s0.ctx
    s0.cameraPos s0.cameraRot trigger.position trigger.snapDistance trigger.mouseSpeed k hk0 hk5
    hhov
  generalize animationLogicWith easing ops style trigger.input
    ⟨s0.ctx, s0.cameraPos, s0.cameraRot, false⟩ = s1 at hdr1 han1 hM
  have hcall : callManipulateWith easing ops style s0 trigger = _ := hM
  rw [hcall] at hanim
  have htrig := snapLogic_trigger ops style trigger.input trigger.snapDistance
    { s1 with ctx := { s1.ctx with hoveredAxisID := k } } han1 hanim
  rw [htrig] at hcall
  -- the calls in between
  have hrun : runCallsWith easing ops style s0 (trigger :: between ++ [final]) =
      callManipulateWith easing ops style
        (runCallsWith easing ops style (callManipulateWith easing ops style s0 trigger) between)
        final := by
    rw [← runCallsWith_append_singleton]
    rfl
  have hmid := runCallsWith_in_progress easing ops style trigger.input.time
    ((snapTargetDir k : vec3 F) * trigger.snapDistance) (snapTargetUp k) between hbetween
    (callManipulateWith easing ops style s0 trigger) (by rw [hcall]; rfl)
    (by rw [hcall]; exact hdr1) (by rw [hcall]; rfl) (by rw [hcall]; rfl) (by rw [hcall]; rfl)
  obtain ⟨ha, _, ht0, hT, hU⟩ := hmid
  -- the completing call
  have hfin := ManipulateWith_completes easing ops style final.input
    (runCallsWith easing ops style (callManipulateWith easing ops style s0 trigger) between).ctx
    (runCallsWith easing ops style (callManipulateWith easing ops style s0 trigger)
      between).cameraPos
    (runCallsWith easing ops style (callManipulateWith easing ops style s0 trigger)
      between).cameraRot
    final.position final.snapDistance final.mouseSpeed ha (by rw [ht0]; exact hfinal) hup hnr
  rw [hT, hU, snapTargetDir_eq k hk0 hk5, snapTargetUp_eq k hk0 hk5] at hfin
  have hne : ((if k % 2 = 0 then (-1 : F) else 1) * (axisVectors (k / 2) : vec3 F))
      * trigger.snapDistance ≠ ⟨0, 0, 0⟩ := by
    have hd0 : trigger.snapDistance ≠ 0 := ne_of_gt hd
    interval_cases k <;> simp [axisVectors, vec3_mul_def, vec3_smul_def, hd0]
  rw [hrun]
  refine ⟨hfin.1, hne, hfin.2.1, ?_, hfin.2.2.1, hfin.2.2.2⟩
  intro hn
  rw [← hn]
  exact hfin.2.1

/-- Witness for C5, in binary32: the spec scenario with the duration `0.3f` and snap distance
5; click on the handle with id 0 at time 0, one call at time `0.1f`, whose tick computes the
eased parameter `9320675 / 2^24`, then a call at time `0.5` leaves the camera at `(-5,0,0)`. -/
theorem animated_snap_completes_on_stored_target_witness :
    (callManipulateWith binary32Easing (⟨Real.sqrt, Real.sin, Real.cos⟩ : MathOps ℝ)
      binary32Style scenarioStart (scenarioCall (clickInput 0 ⟨36, 100⟩))).ctx.hoveredAxisID
      = 0 ∧
    (callManipulateWith binary32Easing (⟨Real.sqrt, Real.sin, Real.cos⟩ : MathOps ℝ)
      binary32Style scenarioStart (scenarioCall (clickInput 0 ⟨36, 100⟩))).ctx.isAnimating
      = true ∧
    binary32Easing (13421773 / 2 ^ 27 : ℝ) 0 (binary32Style : Style ℝ).snapAnimationDuration < 1 ∧
    1 ≤ binary32Easing (1 / 2 : ℝ) 0 (binary32Style : Style ℝ).snapAnimationDuration ∧
    (runCallsWith binary32Easing (⟨Real.sqrt, Real.sin, Real.cos⟩ : MathOps ℝ) binary32Style
      scenarioStart
      (scenarioCall (clickInput 0 ⟨36, 100⟩)
        :: [scenarioCall (idleInput (13421773 / 2 ^ 27) ⟨0, 0⟩)]
        ++ [scenarioCall (idleInput (1 / 2) ⟨0, 0⟩)])).cameraPos = ⟨-5, 0, 0⟩ ∧
    (runCallsWith binary32Easing (⟨Real.sqrt, Real.sin, Real.cos⟩ : MathOps ℝ) binary32Style
      scenarioStart
      (scenarioCall (clickInput 0 ⟨36, 100⟩)
        :: [scenarioCall (idleInput (13421773 / 2 ^ 27) ⟨0, 0⟩)]
        ++ [scenarioCall (idleInput (1 / 2) ⟨0, 0⟩)])).ctx.isAnimating = false ∧
    (runCallsWith binary32Easing (⟨Real.sqrt, Real.sin, Real.cos⟩ : MathOps ℝ) binary32Style
      scenarioStart
      (scenarioCall (clickInput 0 ⟨36, 100⟩)
        :: [scenarioCall (idleInput (13421773 / 2 ^ 27) ⟨0, 0⟩)]
        ++ [scenarioCall (idleInput (1 / 2) ⟨0, 0⟩)])).wasModified = true := by
  have hhov : (callManipulateWith binary32Easing (⟨Real.sqrt, Real.sin, Real.cos⟩ : MathOps ℝ)
      binary32Style scenarioStart (scenarioCall (clickInput 0 ⟨36, 100⟩))).ctx.hoveredAxisID
      = 0 := by rw [scenario32_trigger]
  have hanim : (callManipulateWith binary32Easing
      (⟨Real.sqrt, Real.sin, Real.cos⟩ : MathOps ℝ)
      binary32Style scenarioStart (scenarioCall (clickInput 0 ⟨36, 100⟩))).ctx.isAnimating
      = true := by rw [scenario32_trigger]
  have hb : binary32Easing (13421773 / 2 ^ 27 : ℝ) 0
      (binary32Style : Style ℝ).snapAnimationDuration < 1 := by
    show binary32Easing (13421773 / 2 ^ 27 : ℝ) 0 (10066330 / 2 ^ 25) < 1
    rw [binary32Easing_third]
    norm_num
  have hf : 1 ≤ binary32Easing (1 / 2 : ℝ) 0
      (binary32Style : Style ℝ).snapAnimationDuration := by
    rw [binary32Easing_of_duration_le _ _ _ (by norm_num [binary32Style])
      (by rw [fl32_one_half]; norm_num [binary32Style])]
  have h := animated_snap_completes_on_stored_target binary32Easing
    (⟨Real.sqrt, Real.sin, Real.cos⟩ : MathOps ℝ) binary32Style scenarioStart
    (scenarioCall (clickInput 0 ⟨36, 100⟩)) 0 (le_refl 0) (by norm_num)
    (by norm_num [scenarioCall]) hhov hanim
    [scenarioCall (idleInput (13421773 / 2 ^ 27) ⟨0, 0⟩)]
    (by
      intro c hc
      rw [List.mem_singleton] at hc
      subst hc
      exact hb)
    (scenarioCall (idleInput (1 / 2) ⟨0, 0⟩)) hf rfl rfl
  refine ⟨hhov, hanim, hb, hf, ?_, h.2.2.2.2.1, h.2.2.2.2.2⟩
  rw [h.1]
  norm_num [axisVectors, vec3_smul_def, vec3_mul_def, scenarioCall]

/-- Counterexample to C6 as stated.  The spec scenario: camera at `(0,0,5)` with the identity
rotation, click on the handle with id 0 at time 0.  The animation tick at elapsed time 0 writes
the rotation `(w,x,y,z) = (0,0,1,0)`, a half turn about the Y axis, which is neither the
identity rotation nor its negative. -/
theorem tick_at_start_changes_rotation :
    ¬ ((runCalls (⟨Real.sqrt, Real.sin, Real.cos⟩ : MathOps ℝ) defaultStyle scenarioStart
          [scenarioCall (clickInput 0 ⟨36, 100⟩), scenarioCall (idleInput 0 ⟨0, 0⟩)]).cameraPos
          = (scenarioStart : State ℝ).cameraPos ∧
       ((runCalls (⟨Real.sqrt, Real.sin, Real.cos⟩ : MathOps ℝ) defaultStyle scenarioStart
          [scenarioCall (clickInput 0 ⟨36, 100⟩), scenarioCall (idleInput 0 ⟨0, 0⟩)]).cameraRot
          = ⟨1, 0, 0, 0⟩ ∨
        (runCalls (⟨Real.sqrt, Real.sin, Real.cos⟩ : MathOps ℝ) defaultStyle scenarioStart
          [scenarioCall (clickInput 0 ⟨36, 100⟩), scenarioCall (idleInput 0 ⟨0, 0⟩)]).cameraRot
          = ⟨-1, 0, 0, 0⟩)) := by
  have h := (tick_at_start (⟨Real.sqrt, Real.sin, Real.cos⟩ : MathOps ℝ)
    (fun x hx => Real.mul_self_sqrt hx) Real.sqrt_nonneg defaultStyle scenarioStart
    (scenarioCall (clickInput 0 ⟨36, 100⟩)) (scenarioCall (idleInput 0 ⟨0, 0⟩)) 0 (le_refl 0)
    (by norm_num) rfl scenario_trigger_hover scenario_trigger_animating
    (by simp [scenarioStart, length, dot]; norm_num)
    (by simp [scenarioCall, snapTargetDir, Int.tdiv, Int.tmod, axisVectors, length, dot,
          vec3_mul_def, vec3_smul_def]; norm_num)
    rfl).2
  have hrot : (scenarioStart : State ℝ).cameraRot = identityRot := rfl
  have hpos : (scenarioStart : State ℝ).cameraPos = ⟨0, 0, 5⟩ := rfl
  rw [hrot, hpos, scenario_lookAt] at h
  rw [h]
  simp

/-- Claim C6, amended.  A snap animation is triggered from rest at a pose `P` whose position,
and whose snap target, are farther than `0.0001` from the origin.  The animation tick at
elapsed time 0 writes a camera position equal to `P`'s position, and writes the rotation
`quatLookAt(normalize(P.position), normalize(P.rotation * (0,1,0)))`.  The square root is
assumed non-negative with `sqrt(x) * sqrt(x) = x` for `x ≥ 0`. -/
theorem animation_tick_at_start_pose (ops : MathOps F)
    (hsq : ∀ x : F, 0 ≤ x → ops.sqrt x * ops.sqrt x = x) (hnn : ∀ x : F, 0 ≤ ops.sqrt x)
    (style : Style F) (s0 : State F) (trigger tick : Call F)
    (k : Int) (hk0 : 0 ≤ k) (hk5 : k ≤ 5) (hrest : s0.ctx.isAnimating = false)
    (hhov : (callManipulate ops style s0 trigger).ctx.hoveredAxisID = k)
    (hanim : (callManipulate ops style s0 trigger).ctx.isAnimating = true)
    (hP : 1 / 10000 < length ops s0.cameraPos)
    (hT : 1 / 10000 < length ops ((snapTargetDir k : vec3 F) * trigger.snapDistance))
    (htime : tick.input.time = trigger.input.time) :
    (runCalls ops style s0 [trigger, tick]).cameraPos = s0.cameraPos ∧
    (runCalls ops style s0 [trigger, tick]).cameraRot =
      quatLookAt ops (normalize ops s0.cameraPos)
        (normalize ops (quatRotate s0.cameraRot ⟨0, 1, 0⟩)) :=
  tick_at_start ops hsq hnn style s0 trigger tick k hk0 hk5 hrest hhov hanim hP hT htime

/-- Witness for C6: the spec scenario, camera at `(0,0,5)`, click on the handle with id 0, tick
at elapsed time 0. -/
theorem animation_tick_at_start_pose_witness :
    (runCalls (⟨Real.sqrt, Real.sin, Real.cos⟩ : MathOps ℝ) defaultStyle scenarioStart
      [scenarioCall (clickInput 0 ⟨36, 100⟩), scenarioCall (idleInput 0 ⟨0, 0⟩)]).cameraPos
      = ⟨0, 0, 5⟩ ∧
    (runCalls (⟨Real.sqrt, Real.sin, Real.cos⟩ : MathOps ℝ) defaultStyle scenarioStart
      [scenarioCall (clickInput 0 ⟨36, 100⟩), scenarioCall (idleInput 0 ⟨0, 0⟩)]).cameraRot
      = quatLookAt ⟨Real.sqrt, Real.sin, Real.cos⟩
          (normalize ⟨Real.sqrt, Real.sin, Real.cos⟩ ⟨0, 0, 5⟩)
          (normalize ⟨Real.sqrt, Real.sin, Real.cos⟩ (quatRotate identityRot ⟨0, 1, 0⟩)) :=
  animation_tick_at_start_pose (⟨Real.sqrt, Real.sin, Real.cos⟩ : MathOps ℝ)
    (fun x hx => Real.mul_self_sqrt hx) Real.sqrt_nonneg defaultStyle scenarioStart
    (scenarioCall (clickInput 0 ⟨36, 100⟩)) (scenarioCall (idleInput 0 ⟨0, 0⟩)) 0 (le_refl 0)
    (by norm_num) rfl scenario_trigger_hover scenario_trigger_animating
    (by simp [scenarioStart, length, dot]; norm_num)
    (by simp [scenarioCall, snapTargetDir, Int.tdiv, Int.tmod, axisVectors, length, dot,
          vec3_mul_def, vec3_smul_def]; norm_num)
    rfl

/-- Claim C8.  Hit-testing never selects a back-facing handle: if a call leaves an axis id `k`
in `0..5` in `hoveredAxisID`, then the camera-space depth of the axis with id `k`, the `z`
component of the call's `gizmoViewMatrix` applied to its direction, is not less than `-0.1`.
The view matrix of the call is built from the camera as the animation stage leaves it, which
is the camera passed in when no animation is running. -/
theorem hit_test_never_selects_back_facing (ops : MathOps F) (style : Style F)
    (input : HostInput F) (ctx : Context F) (cameraPos : vec3 F) (cameraRot : quat F)
    (position : vec2 F) (snapDistance mouseSpeed : F) (k : Int) (hk0 : 0 ≤ k) (hk5 : k ≤ 5)
    (hh : (Manipulate ops style input ctx cameraPos cameraRot position snapDistance
      mouseSpeed).ctx.hoveredAxisID = k) :
    ¬ axisDepth
        (gizmoViewMatrix
          (animationLogic ops style input ⟨ctx, cameraPos, cameraRot, false⟩).cameraPos
          (animationLogic ops style input ⟨ctx, cameraPos, cameraRot, false⟩).cameraRot) k
      < -(1 / 10) := by
  obtain ⟨_, _, hhit, _⟩ := Manipulate_of_hover_axis ops style input ctx cameraPos cameraRot
    position snapDistance mouseSpeed k hk0 hk5 hh
  exact (hitTest_axis style position input.mousePos _ _ k hk0 hk5 hhit).1

/-- Witness for C8: the click at the anchor from the scenario start pose hovers the handle with
id 4, whose depth is 1. -/
theorem hit_test_never_selects_back_facing_witness :
    (Manipulate (⟨Real.sqrt, Real.sin, Real.cos⟩ : MathOps ℝ) defaultStyle
      (clickInput 0 ⟨100, 100⟩) initialContext ⟨0, 0, 5⟩ identityRot ⟨100, 100⟩ 5
      (1 / 200)).ctx.hoveredAxisID = 4 ∧
    ¬ axisDepth
        (gizmoViewMatrix
          (animationLogic (⟨Real.sqrt, Real.sin, Real.cos⟩ : MathOps ℝ) defaultStyle
            (clickInput 0 ⟨100, 100⟩) ⟨initialContext, ⟨0, 0, 5⟩, identityRot, false⟩).cameraPos
          (animationLogic (⟨Real.sqrt, Real.sin, Real.cos⟩ : MathOps ℝ) defaultStyle
            (clickInput 0 ⟨100, 100⟩) ⟨initialContext, ⟨0, 0, 5⟩, identityRot, false⟩).cameraRot)
        4
      < -(1 / 10) :=
  ⟨scenario_center_hover,
   hit_test_never_selects_back_facing _ _ _ _ _ _ _ _ _ 4 (by norm_num) (by norm_num)
     scenario_center_hover⟩

/-- Claim C9.  The gizmo projection is translation-invariant: for every camera rotation `q`
(unit or not), any two camera positions `p1` and `p2`, every anchor and style, the view matrix,
the depth-sorted axis list, the depth and the screen position of each of the six handles, and
the screen position of the gizmo centre computed from `(p1, q)` equal those computed from
`(p2, q)`; so does the sum of the six handle screen positions. -/
theorem gizmo_projection_translation_invariant (q : quat F) (p1 p2 : vec3 F)
    (position : vec2 F) (style : Style F) :
    gizmoViewMatrix p1 q = gizmoViewMatrix p2 q ∧
    sortedAxes (gizmoViewMatrix p1 q) = sortedAxes (gizmoViewMatrix p2 q) ∧
    (∀ k : Int, axisDepth (gizmoViewMatrix p1 q) k = axisDepth (gizmoViewMatrix p2 q) k) ∧
    (∀ k : Int, handleScreenPos style position p1 q k = handleScreenPos style position p2 q k) ∧
    centerScreenPos style position p1 q = centerScreenPos style position p2 q ∧
    handleScreenSum style position p1 q = handleScreenSum style position p2 q := by
  have hv : gizmoViewMatrix p1 q = gizmoViewMatrix p2 q := by
    rw [gizmoViewMatrix_origin p1, gizmoViewMatrix_origin p2]
  have hm : gizmoMvp p1 q = gizmoMvp p2 q := by
    unfold gizmoMvp
    rw [hv]
  refine ⟨hv, by rw [hv], fun k => by rw [hv], fun k => ?_, ?_, ?_⟩
  · unfold handleScreenPos
    rw [hm]
  · unfold centerScreenPos
    rw [hm]
  · unfold handleScreenSum handleScreenPos
    rw [hm]

/-- Counterexample to C10 as stated.  Mid-drag, mouse delta `(10, 0)`, mouse speed 0.005, camera
at `(0,0,5)` with the identity rotation: the rotation written is not the product of the
rotation by `+0.05` rad about `worldUp` with the old rotation. -/
theorem horizontal_drag_angle_is_not_positive :
    ¬ ((Manipulate (⟨Real.sqrt, Real.sin, Real.cos⟩ : MathOps ℝ) defaultStyle
          (heldInput 0 ⟨100, 100⟩ ⟨10, 0⟩) draggingContext ⟨0, 0, 5⟩ identityRot ⟨100, 100⟩ 5
          (1 / 200)).cameraRot
        = quatMul (angleAxis ⟨Real.sqrt, Real.sin, Real.cos⟩ (10 * (1 / 200)) worldUp)
            identityRot) := by
  have h := (Manipulate_drag_frame (⟨Real.sqrt, Real.sin, Real.cos⟩ : MathOps ℝ) defaultStyle
    (heldInput 0 ⟨100, 100⟩ ⟨10, 0⟩) draggingContext ⟨0, 0, 5⟩ identityRot ⟨100, 100⟩ 5
    (1 / 200) rfl rfl (Or.inl rfl)).2.1
  rw [h, totalRotation_horizontal _ Real.sin_zero Real.cos_zero _ _ _ rfl]
  have hpos : 0 < Real.sin (1 / 40) :=
    Real.sin_pos_of_pos_of_lt_pi (by norm_num) (by linarith [Real.pi_gt_three])
  intro heq
  have hy := congrArg quat.y heq
  simp [quatMul, angleAxis, worldUp, identityRot, heldInput, idleInput] at hy
  have e2 : (10 * 200⁻¹ * 2⁻¹ : ℝ) = 1 / 40 := by norm_num
  rw [e2] at hy
  linarith

/-- Claim C10, amended.  Horizontal drag is a pure yaw about world-up: in a call that starts
with no animation running, with the button down and either a drag already active or the centre
hovered (id 6), and with mouse delta `(dx, 0)`, `Manipulate` replaces `cameraPos` by
`R * cameraPos` and `cameraRot` by `R * cameraRot`, where `R = angleAxis(-dx * s, worldUp)` is
the rotation by the angle `-dx * s` about `worldUp = (0,-1,0)`, with no pitch component, and
returns `true`.  Only `sin 0 = 0` and `cos 0 = 1` are assumed of the C library. -/
theorem horizontal_drag_is_yaw (ops : MathOps F) (hsin : ops.sin 0 = 0) (hcos : ops.cos 0 = 1)
    (style : Style F) (input : HostInput F) (ctx : Context F) (cameraPos : vec3 F)
    (cameraRot : quat F) (position : vec2 F) (snapDistance s : F)
    (hrest : ctx.isAnimating = false) (hdown : input.mouseDown = true)
    (hdy : input.mouseDelta.y = 0)
    (hdrag : ctx.isDragging = true ∨
      (Manipulate ops style input ctx cameraPos cameraRot position snapDistance
        s).ctx.hoveredAxisID = 6) :
    (Manipulate ops style input ctx cameraPos cameraRot position snapDistance s).cameraPos
      = quatRotate (angleAxis ops (-(input.mouseDelta.x * s)) worldUp) cameraPos ∧
    (Manipulate ops style input ctx cameraPos cameraRot position snapDistance s).cameraRot
      = quatMul (angleAxis ops (-(input.mouseDelta.x * s)) worldUp) cameraRot ∧
    (Manipulate ops style input ctx cameraPos cameraRot position snapDistance s).wasModified
      = true := by
  have h := Manipulate_drag_frame ops style input ctx cameraPos cameraRot position snapDistance
    s hrest hdown hdrag
  rw [totalRotation_horizontal ops hsin hcos input s cameraRot hdy] at h
  exact ⟨h.1, h.2.1, h.2.2.2⟩

/-- Witness for C10, the scenario of the spec: mouse delta `(10, 0)`, mouse speed 0.005,
mid-drag; the yaw angle is `-0.05` rad. -/
theorem horizontal_drag_is_yaw_witness :
    (Manipulate (⟨Real.sqrt, Real.sin, Real.cos⟩ : MathOps ℝ) defaultStyle
      (heldInput 0 ⟨100, 100⟩ ⟨10, 0⟩) draggingContext ⟨0, 0, 5⟩ identityRot ⟨100, 100⟩ 5
      (1 / 200)).cameraRot
      = quatMul (angleAxis ⟨Real.sqrt, Real.sin, Real.cos⟩ (-(10 * (1 / 200))) worldUp)
          identityRot ∧
    (Manipulate (⟨Real.sqrt, Real.sin, Real.cos⟩ : MathOps ℝ) defaultStyle
      (heldInput 0 ⟨100, 100⟩ ⟨10, 0⟩) draggingContext ⟨0, 0, 5⟩ identityRot ⟨100, 100⟩ 5
      (1 / 200)).wasModified = true :=
  ⟨(horizontal_drag_is_yaw (⟨Real.sqrt, Real.sin, Real.cos⟩ : MathOps ℝ) Real.sin_zero
      Real.cos_zero defaultStyle (heldInput 0 ⟨100, 100⟩ ⟨10, 0⟩) draggingContext ⟨0, 0, 5⟩
      identityRot ⟨100, 100⟩ 5 (1 / 200) rfl rfl rfl (Or.inl rfl)).2.1,
   (horizontal_drag_is_yaw (⟨Real.sqrt, Real.sin, Real.cos⟩ : MathOps ℝ) Real.sin_zero
      Real.cos_zero defaultStyle (heldInput 0 ⟨100, 100⟩ ⟨10, 0⟩) draggingContext ⟨0, 0, 5⟩
      identityRot ⟨100, 100⟩ 5 (1 / 200) rfl rfl rfl (Or.inl rfl)).2.2⟩

/-- Claim C12.  Releasing over the centre never snaps: a call that begins with
`isAnimating = false`, with the button not down, and whose hit test leaves the hovered id 6,
leaves `cameraPos` and `cameraRot` unchanged, leaves `isAnimating` false, leaves `isDragging`
false and returns `false`; this holds whatever the released and drag-gesture flags are. -/
theorem release_over_center_never_snaps (ops : MathOps F) (style : Style F)
    (input : HostInput F) (ctx : Context F) (cameraPos : vec3 F) (cameraRot : quat F)
    (position : vec2 F) (snapDistance mouseSpeed : F)
    (hrest : ctx.isAnimating = false) (hup : input.mouseDown = false)
    (h6 : (Manipulate ops style input ctx cameraPos cameraRot position snapDistance
      mouseSpeed).ctx.hoveredAxisID = 6) :
    (Manipulate ops style input ctx cameraPos cameraRot position snapDistance
      mouseSpeed).cameraPos = cameraPos ∧
    (Manipulate ops style input ctx cameraPos cameraRot position snapDistance
      mouseSpeed).cameraRot = cameraRot ∧
    (Manipulate ops style input ctx cameraPos cameraRot position snapDistance
      mouseSpeed).ctx.isAnimating = false ∧
    (Manipulate ops style input ctx cameraPos cameraRot position snapDistance
      mouseSpeed).ctx.isDragging = false ∧
    (Manipulate ops style input ctx cameraPos cameraRot position snapDistance
      mouseSpeed).wasModified = false := by
  rw [Manipulate_release_over_center ops style input ctx cameraPos cameraRot position
    snapDistance mouseSpeed hrest hup h6]
  exact ⟨rfl, rfl, hrest, rfl, rfl⟩

/-- Witness for C12: from the scenario start pose, a release at `(130,130)`, inside the centre
circle and off every handle. -/
theorem release_over_center_never_snaps_witness :
    (Manipulate (⟨Real.sqrt, Real.sin, Real.cos⟩ : MathOps ℝ) defaultStyle
      (clickInput 0 ⟨130, 130⟩) initialContext ⟨0, 0, 5⟩ identityRot ⟨100, 100⟩ 5
      (1 / 200)).ctx.hoveredAxisID = 6 ∧
    (Manipulate (⟨Real.sqrt, Real.sin, Real.cos⟩ : MathOps ℝ) defaultStyle
      (clickInput 0 ⟨130, 130⟩) initialContext ⟨0, 0, 5⟩ identityRot ⟨100, 100⟩ 5
      (1 / 200)).cameraPos = ⟨0, 0, 5⟩ ∧
    (Manipulate (⟨Real.sqrt, Real.sin, Real.cos⟩ : MathOps ℝ) defaultStyle
      (clickInput 0 ⟨130, 130⟩) initialContext ⟨0, 0, 5⟩ identityRot ⟨100, 100⟩ 5
      (1 / 200)).wasModified = false :=
  ⟨scenario_inner_hover,
   (release_over_center_never_snaps _ _ _ _ _ _ _ _ _ rfl rfl scenario_inner_hover).1,
   (release_over_center_never_snaps _ _ _ _ _ _ _ _ _ rfl rfl scenario_inner_hover).2.2.2.2⟩

/-- Claim C19.  A false result guarantees an untouched camera: if `Manipulate` returns `false`
then `cameraPos` and `cameraRot` after the call equal their values before the call. -/
theorem false_result_leaves_camera_untouched (ops : MathOps F) (style : Style F)
    (input : HostInput F) (ctx : Context F) (cameraPos : vec3 F) (cameraRot : quat F)
    (position : vec2 F) (snapDistance mouseSpeed : F)
    (h : (Manipulate ops style input ctx cameraPos cameraRot position snapDistance
      mouseSpeed).wasModified = false) :
    (Manipulate ops style input ctx cameraPos cameraRot position snapDistance
      mouseSpeed).cameraPos = cameraPos ∧
    (Manipulate ops style input ctx cameraPos cameraRot position snapDistance
      mouseSpeed).cameraRot = cameraRot :=
  Manipulate_false_camera ops style input ctx cameraPos cameraRot position snapDistance
    mouseSpeed h

/-- Witness for C19: the release over the centre from the scenario start pose returns `false`
and leaves the camera at `(0,0,5)` with the identity rotation. -/
theorem false_result_leaves_camera_untouched_witness :
    (Manipulate (⟨Real.sqrt, Real.sin, Real.cos⟩ : MathOps ℝ) defaultStyle
      (clickInput 0 ⟨130, 130⟩) initialContext ⟨0, 0, 5⟩ identityRot ⟨100, 100⟩ 5
      (1 / 200)).wasModified = false ∧
    (Manipulate (⟨Real.sqrt, Real.sin, Real.cos⟩ : MathOps ℝ) defaultStyle
      (clickInput 0 ⟨130, 130⟩) initialContext ⟨0, 0, 5⟩ identityRot ⟨100, 100⟩ 5
      (1 / 200)).cameraPos = ⟨0, 0, 5⟩ ∧
    (Manipulate (⟨Real.sqrt, Real.sin, Real.cos⟩ : MathOps ℝ) defaultStyle
      (clickInput 0 ⟨130, 130⟩) initialContext ⟨0, 0, 5⟩ identityRot ⟨100, 100⟩ 5
      (1 / 200)).cameraRot = identityRot := by
  have hf : (Manipulate (⟨Real.sqrt, Real.sin, Real.cos⟩ : MathOps ℝ) defaultStyle
      (clickInput 0 ⟨130, 130⟩) initialContext ⟨0, 0, 5⟩ identityRot ⟨100, 100⟩ 5
      (1 / 200)).wasModified = false := by
    rw [Manipulate_release_over_center _ _ _ _ _ _ _ _ _ rfl rfl scenario_inner_hover]
  exact ⟨hf, false_result_leaves_camera_untouched _ _ _ _ _ _ _ _ _ hf⟩

/-- Counterexample to C20 as stated, in binary32.  The animation of `animatingContext`,
started at time 0, with the duration `0.3f`, in a call at time `10064987 / 2^25`, about
`0.29996`, with the button held at `(130,130)` and the mouse moving: the elapsed time is that
time, it is at least 0 and below the duration, yet the tick computes the eased parameter 1 and
completes the animation, the hit test runs and finds the mouse over the centre, and the drag
starts: the call returns with `isAnimating = false`, `hoveredAxisID = 6` and
`isDragging = true`. -/
theorem animation_ends_before_duration :
    (animatingContext : Context ℝ).isAnimating = true ∧
    (animatingContext : Context ℝ).isDragging = false ∧
    (0 : ℝ) < (binary32Style : Style ℝ).snapAnimationDuration ∧
    (0 : ℝ) ≤ fl32 (10064987 / 2 ^ 25 - (animatingContext : Context ℝ).animationStartTime) ∧
    fl32 (10064987 / 2 ^ 25 - (animatingContext : Context ℝ).animationStartTime)
      < (binary32Style : Style ℝ).snapAnimationDuration ∧
    binary32Easing (10064987 / 2 ^ 25 : ℝ) (animatingContext : Context ℝ).animationStartTime
      (binary32Style : Style ℝ).snapAnimationDuration = 1 ∧
    (ManipulateWith binary32Easing (⟨Real.sqrt, Real.sin, Real.cos⟩ : MathOps ℝ) binary32Style
      (heldInput (10064987 / 2 ^ 25) ⟨130, 130⟩ ⟨3, 4⟩) animatingContext ⟨0, 0, 5⟩ identityRot
      ⟨100, 100⟩ 5 (1 / 200)).ctx.isAnimating = false ∧
    (ManipulateWith binary32Easing (⟨Real.sqrt, Real.sin, Real.cos⟩ : MathOps ℝ) binary32Style
      (heldInput (10064987 / 2 ^ 25) ⟨130, 130⟩ ⟨3, 4⟩) animatingContext ⟨0, 0, 5⟩ identityRot
      ⟨100, 100⟩ 5 (1 / 200)).ctx.hoveredAxisID = 6 ∧
    (ManipulateWith binary32Easing (⟨Real.sqrt, Real.sin, Real.cos⟩ : MathOps ℝ) binary32Style
      (heldInput (10064987 / 2 ^ 25) ⟨130, 130⟩ ⟨3, 4⟩) animatingContext ⟨0, 0, 5⟩ identityRot
      ⟨100, 100⟩ 5 (1 / 200)).ctx.isDragging = true := by
  have hel : fl32 (10064987 / 2 ^ 25 - 0 : ℝ) = 10064987 / 2 ^ 25 := by
    rw [fl32_eq _ (-2) 10064987 (by norm_num) (by norm_num [abs_of_pos])
      (by norm_num [abs_of_pos]) (by norm_num) (by norm_num)]
    norm_num
  have hstart : (animatingContext : Context ℝ).animationStartTime = 0 := rfl
  have hdur : (binary32Style : Style ℝ).snapAnimationDuration = 10066330 / 2 ^ 25 := rfl
  rw [hstart, hdur, hel]
  refine ⟨rfl, rfl, by norm_num, by norm_num, by norm_num, binary32Easing_early, ?_⟩
  exact ManipulateWith_completes_held binary32Easing _ binary32Style
    (heldInput (10064987 / 2 ^ 25) ⟨130, 130⟩ ⟨3, 4⟩) animatingContext _ _ _ _ _ rfl rfl
    (le_of_eq binary32Easing_early.symm) rfl rfl
    (by
      rw [hitTest_binary32Style]
      exact hitTest_quarter_inner _ _ scenario_target_rotation)

/-- Claim C20, amended.  A running animation cannot be interrupted by input.  The eased
parameter of the animation tick is computed by `easing`, in whatever arithmetic.  A call that
begins with `isAnimating = true`, `isDragging = false` and whose tick computes an eased
parameter below 1 returns, for every mouse position, button state, drag-gesture flag and mouse
delta, with `hoveredAxisID = -1`, `isDragging = false`, `isAnimating = true`, with the stored
start and target positions, start and target up vectors and start time unchanged, and returns
`true`. -/
theorem unfinished_animation_is_not_interrupted (easing : F → F → F → F) (ops : MathOps F)
    (style : Style F) (input : HostInput F) (ctx : Context F) (cameraPos : vec3 F)
    (cameraRot : quat F) (position : vec2 F) (snapDistance mouseSpeed : F)
    (ha : ctx.isAnimating = true) (hd : ctx.isDragging = false)
    (ht : easing input.time ctx.animationStartTime style.snapAnimationDuration < 1) :
    (ManipulateWith easing ops style input ctx cameraPos cameraRot position snapDistance
      mouseSpeed).ctx.hoveredAxisID = -1 ∧
    (ManipulateWith easing ops style input ctx cameraPos cameraRot position snapDistance
      mouseSpeed).ctx.isDragging = false ∧
    (ManipulateWith easing ops style input ctx cameraPos cameraRot position snapDistance
      mouseSpeed).ctx.isAnimating = true ∧
    (ManipulateWith easing ops style input ctx cameraPos cameraRot position snapDistance
      mouseSpeed).ctx.startPos = ctx.startPos ∧
    (ManipulateWith easing ops style input ctx cameraPos cameraRot position snapDistance
      mouseSpeed).ctx.targetPos = ctx.targetPos ∧
    (ManipulateWith easing ops style input ctx cameraPos cameraRot position snapDistance
      mouseSpeed).ctx.startUp = ctx.startUp ∧
    (ManipulateWith easing ops style input ctx cameraPos cameraRot position snapDistance
      mouseSpeed).ctx.targetUp = ctx.targetUp ∧
    (ManipulateWith easing ops style input ctx cameraPos cameraRot position snapDistance
      mouseSpeed).ctx.animationStartTime = ctx.animationStartTime ∧
    (ManipulateWith easing ops style input ctx cameraPos cameraRot position snapDistance
      mouseSpeed).wasModified = true := by
  rw [ManipulateWith_in_progress easing ops style input ctx cameraPos cameraRot position
    snapDistance mouseSpeed ha hd ht]
  exact ⟨rfl, hd, ha, rfl, rfl, rfl, rfl, rfl, rfl⟩

/-- Witness for C20, in binary32: the animation of `animatingContext` (started at time 0) with
the duration `0.3f`, at time `0.1f = 13421773 / 2^27`, where the tick computes the eased
parameter `9320675 / 2^24`, with the button held inside the centre circle and the mouse
moving. -/
theorem unfinished_animation_is_not_interrupted_witness :
    binary32Easing (13421773 / 2 ^ 27 : ℝ) (animatingContext : Context ℝ).animationStartTime
      (binary32Style : Style ℝ).snapAnimationDuration < 1 ∧
    (ManipulateWith binary32Easing (⟨Real.sqrt, Real.sin, Real.cos⟩ : MathOps ℝ) binary32Style
      (heldInput (13421773 / 2 ^ 27) ⟨130, 130⟩ ⟨3, 4⟩) animatingContext ⟨0, 0, 5⟩ identityRot
      ⟨100, 100⟩ 5 (1 / 200)).ctx.isAnimating = true ∧
    (ManipulateWith binary32Easing (⟨Real.sqrt, Real.sin, Real.cos⟩ : MathOps ℝ) binary32Style
      (heldInput (13421773 / 2 ^ 27) ⟨130, 130⟩ ⟨3, 4⟩) animatingContext ⟨0, 0, 5⟩ identityRot
      ⟨100, 100⟩ 5 (1 / 200)).ctx.isDragging = false ∧
    (ManipulateWith binary32Easing (⟨Real.sqrt, Real.sin, Real.cos⟩ : MathOps ℝ) binary32Style
      (heldInput (13421773 / 2 ^ 27) ⟨130, 130⟩ ⟨3, 4⟩) animatingContext ⟨0, 0, 5⟩ identityRot
      ⟨100, 100⟩ 5 (1 / 200)).wasModified = true := by
  have hb : binary32Easing (13421773 / 2 ^ 27 : ℝ)
      (animatingContext : Context ℝ).animationStartTime
      (binary32Style : Style ℝ).snapAnimationDuration < 1 := by
    show binary32Easing (13421773 / 2 ^ 27 : ℝ) 0 (10066330 / 2 ^ 25) < 1
    rw [binary32Easing_third]
    norm_num
  have h := unfinished_animation_is_not_interrupted binary32Easing
    (⟨Real.sqrt, Real.sin, Real.cos⟩ : MathOps ℝ) binary32Style
    (heldInput (13421773 / 2 ^ 27) ⟨130, 130⟩ ⟨3, 4⟩) animatingContext ⟨0, 0, 5⟩ identityRot
    ⟨100, 100⟩ 5 (1 / 200) rfl rfl hb
  exact ⟨hb, h.2.2.1, h.2.1, h.2.2.2.2.2.2.2.2⟩

/-- Claim C13, evaluated at the failing input.  With the default style, the identity rotation
and the anchor `position = (100,100)`, the gizmo centre is drawn at `position` itself, the
handle with id 0 at `(36,100)`, left of `position`, and the handle with id 2 at `(100,36)`,
above `position`: `position` is the centre of the gizmo, not its top-left corner. -/
theorem position_is_the_gizmo_centre :
    centerScreenPos (defaultStyle : Style ℝ) ⟨100, 100⟩ ⟨0, 0, 5⟩ identityRot = ⟨100, 100⟩ ∧
    handleScreenPos (defaultStyle : Style ℝ) ⟨100, 100⟩ ⟨0, 0, 5⟩ identityRot 0 = ⟨36, 100⟩ ∧
    handleScreenPos (defaultStyle : Style ℝ) ⟨100, 100⟩ ⟨0, 0, 5⟩ identityRot 2 = ⟨100, 36⟩ ∧
    ¬ ((100 : ℝ) ≤
        (handleScreenPos (defaultStyle : Style ℝ) ⟨100, 100⟩ ⟨0, 0, 5⟩ identityRot 0).x) ∧
    ¬ ((100 : ℝ) ≤
        (handleScreenPos (defaultStyle : Style ℝ) ⟨100, 100⟩ ⟨0, 0, 5⟩ identityRot 2).y) := by
  have hc : centerScreenPos (defaultStyle : Style ℝ) ⟨100, 100⟩ ⟨0, 0, 5⟩ identityRot
      = ⟨100, 100⟩ := by
    unfold centerScreenPos
    rw [gizmoMvp_identityRot]
    simp [worldToScreen, mat4_mulVec, origin, vec4_add_def, vec4_smul_def, vec3_div_def]
  have h0 : handleScreenPos (defaultStyle : Style ℝ) ⟨100, 100⟩ ⟨0, 0, 5⟩ identityRot 0
      = ⟨36, 100⟩ := by
    unfold handleScreenPos
    rw [gizmoMvp_identityRot]
    simp [worldToScreen, mat4_mulVec, axisDirection, axisVectors, defaultStyle, baseSize,
      vec4_add_def, vec4_smul_def, vec3_mul_def, vec3_div_def]
    norm_num
  have h2 : handleScreenPos (defaultStyle : Style ℝ) ⟨100, 100⟩ ⟨0, 0, 5⟩ identityRot 2
      = ⟨100, 36⟩ := by
    unfold handleScreenPos
    rw [gizmoMvp_identityRot]
    simp [worldToScreen, mat4_mulVec, axisDirection, axisVectors, defaultStyle, baseSize,
      vec4_add_def, vec4_smul_def, vec3_mul_def, vec3_div_def]
    norm_num
  refine ⟨hc, h0, h2, ?_, ?_⟩
  · rw [h0]; norm_num
  · rw [h2]; norm_num

/-- Counterexample to C15 as stated.  The `GizmoAxis` created with id 0 points along `+X`,
while the snap target direction computed for the hovered id 0 is `-X`. -/
theorem handle_direction_differs_from_snap_target :
    ¬ (∀ a ∈ unsortedAxes (mat4_identity : mat4 ℝ), a.direction = snapTargetDir a.id) := by
  intro h
  obtain ⟨a, ha, hid⟩ := exists_mem_unsortedAxes (mat4_identity : mat4 ℝ) 0 (le_refl 0)
    (by norm_num)
  have h1 := h a ha
  have h2 := mem_unsortedAxes_direction _ a ha
  rw [hid] at h1 h2
  rw [h2] at h1
  have hx := congrArg vec3.x h1
  simp [snapTargetDir, Int.tdiv, Int.tmod, axisVectors, vec3_neg_def, vec3_smul_def] at hx
  linarith

/-- Claim C15, amended.  For every id `k` in `0..5`, a `GizmoAxis` with id `k` is created, its
direction vector is the negative of the snap target direction computed for
`hoveredAxisID = k`, and that snap target direction is `sign(k) * axisVectors[k/2]` with
`sign(k) = -1` for even `k` and `+1` for odd `k`: even ids are the positive-axis handles, and
a click on a handle moves the camera to the side of the origin opposite to where the handle
points. -/
theorem handle_direction_is_minus_snap_target (view : mat4 F) (k : Int) (hk0 : 0 ≤ k)
    (hk5 : k ≤ 5) :
    (∃ a ∈ unsortedAxes view, a.id = k) ∧
    (∀ a ∈ unsortedAxes view, a.id = k →
      a.direction = -((if k % 2 = 0 then (-1 : F) else 1) * (axisVectors (k / 2) : vec3 F))) ∧
    (snapTargetDir k : vec3 F)
      = (if k % 2 = 0 then (-1 : F) else 1) * (axisVectors (k / 2) : vec3 F) := by
  refine ⟨exists_mem_unsortedAxes view k hk0 hk5, fun a ha hid => ?_,
    snapTargetDir_eq k hk0 hk5⟩
  rw [← snapTargetDir_eq k hk0 hk5, ← hid]
  exact mem_unsortedAxes_direction view a ha

/-- Witness for C15: id 0, whose snap target direction is `-X`. -/
theorem handle_direction_is_minus_snap_target_witness :
    (snapTargetDir 0 : vec3 ℝ)
      = (if (0 : Int) % 2 = 0 then (-1 : ℝ) else 1) * (axisVectors ((0 : Int) / 2) : vec3 ℝ) :=
  (handle_direction_is_minus_snap_target (mat4_identity : mat4 ℝ) 0 (le_refl 0)
    (by norm_num)).2.2

/-- Counterexample to C17 as stated.  With duration 0.3 and elapsed time `-0.3` the tick uses
`t = -1`, not `clamp(-1, 0, 1) = 0`, and the eased value is `-3`; the same happens with
elapsed time 0.3 and the duration set to `-0.3`. -/
theorem tick_parameter_has_no_lower_clamp :
    tickT (defaultStyle : Style ℝ) (idleInput 0 ⟨0, 0⟩)
      { animatingContext with animationStartTime := 3 / 10 } = -1 ∧
    specClamp01 (((0 : ℝ) - 3 / 10) / (defaultStyle : Style ℝ).snapAnimationDuration) = 0 ∧
    easedT (defaultStyle : Style ℝ) (idleInput 0 ⟨0, 0⟩)
      { animatingContext with animationStartTime := 3 / 10 } = -3 ∧
    tickT ({ defaultStyle with snapAnimationDuration := -(3 / 10) } : Style ℝ)
      (idleInput (3 / 10) ⟨0, 0⟩) animatingContext = -1 ∧
    easedT ({ defaultStyle with snapAnimationDuration := -(3 / 10) } : Style ℝ)
      (idleInput (3 / 10) ⟨0, 0⟩) animatingContext = -3 := by
  refine ⟨?_, ?_, ?_, ?_, ?_⟩ <;>
    norm_num [tickT, easedT, stdMin, specClamp01, defaultStyle, idleInput, animatingContext]

/-- Claim C17, amended.  The tick uses `t = min(1, elapsed / duration)`, with no lower clamp.
For a positive duration and a non-negative elapsed time this is `clamp(elapsed / duration, 0, 1)`
and the eased value `t' = 1 - (1 - t)^2` lies in `[0,1]`. -/
theorem tick_parameter_clamped_when_elapsed_nonneg (style : Style F) (input : HostInput F)
    (ctx : Context F) (hdur : 0 < style.snapAnimationDuration)
    (h0 : 0 ≤ input.time - ctx.animationStartTime) :
    tickT style input ctx
      = specClamp01 ((input.time - ctx.animationStartTime) / style.snapAnimationDuration) ∧
    easedT style input ctx = 1 - (1 - tickT style input ctx) ^ 2 ∧
    0 ≤ easedT style input ctx ∧ easedT style input ctx ≤ 1 := by
  have hx : 0 ≤ (input.time - ctx.animationStartTime) / style.snapAnimationDuration :=
    div_nonneg h0 (le_of_lt hdur)
  have ht : tickT style input ctx
      = specClamp01 ((input.time - ctx.animationStartTime) / style.snapAnimationDuration) := by
    unfold tickT specClamp01 stdMin
    rw [max_eq_left hx]
    split
    · rename_i h
      exact (min_eq_left (le_of_lt h)).symm
    · rename_i h
      exact (min_eq_right (not_lt.mp h)).symm
  have ht0 : 0 ≤ tickT style input ctx := by
    unfold tickT stdMin
    split
    · exact hx
    · exact zero_le_one
  have ht1 : tickT style input ctx ≤ 1 := stdMin_one_le_one _
  refine ⟨ht, ?_, ?_, ?_⟩
  · rw [easedT_eq_tickT]; ring
  · rw [easedT_eq_tickT]; nlinarith
  · rw [easedT_eq_tickT]; nlinarith [mul_self_nonneg (1 - tickT style input ctx)]

/-- Witness for C17: duration 0.3, elapsed time 0.1. -/
theorem tick_parameter_clamped_when_elapsed_nonneg_witness :
    tickT (defaultStyle : Style ℝ) (idleInput (1 / 10) ⟨0, 0⟩) animatingContext
      = specClamp01 ((1 / 10 - 0) / (3 / 10)) ∧
    0 ≤ easedT (defaultStyle : Style ℝ) (idleInput (1 / 10) ⟨0, 0⟩) animatingContext ∧
    easedT (defaultStyle : Style ℝ) (idleInput (1 / 10) ⟨0, 0⟩) animatingContext ≤ 1 := by
  have h := tick_parameter_clamped_when_elapsed_nonneg (defaultStyle : Style ℝ)
    (idleInput (1 / 10) ⟨0, 0⟩) animatingContext (by norm_num [defaultStyle])
    (by norm_num [idleInput, animatingContext])
  exact ⟨h.1, h.2.2.1, h.2.2.2⟩

/-- Claim C11.  Idle to Animating fires exactly on the stated condition.  For a call that begins
with `isAnimating = false`, `isAnimating` is true on return if and only if the button was
released, the gesture is not a drag, the hovered id left by the hit test is in `0..5`,
animation is enabled with a positive duration, and the camera differs from the target
(`|cameraPos - targetPos|^2 > 1e-4` or `1 - |dot(cameraRot, targetRot)| > 1e-4`).  When it
fires, the call leaves `cameraPos` and `cameraRot` unchanged and stores `startPos = cameraPos`,
the target position and the target up vector. -/
theorem idle_to_animating_iff (ops : MathOps F) (style : Style F) (input : HostInput F)
    (ctx : Context F) (cameraPos : vec3 F) (cameraRot : quat F) (position : vec2 F)
    (d mouseSpeed : F) (hrest : ctx.isAnimating = false) :
    ((Manipulate ops style input ctx cameraPos cameraRot position d
        mouseSpeed).ctx.isAnimating = true ↔
      input.mouseReleased = true ∧ input.mouseDragging = false ∧
      0 ≤ (Manipulate ops style input ctx cameraPos cameraRot position d
        mouseSpeed).ctx.hoveredAxisID ∧
      (Manipulate ops style input ctx cameraPos cameraRot position d
        mouseSpeed).ctx.hoveredAxisID ≤ 5 ∧
      style.animateSnap = true ∧ 0 < style.snapAnimationDuration ∧
      (1 / 10000 < length2 (cameraPos
          - (specSnapDir (Manipulate ops style input ctx cameraPos cameraRot position d
              mouseSpeed).ctx.hoveredAxisID : vec3 F) * d) ∨
        1 / 10000 < 1 - |quatDot cameraRot
          (quatLookAt ops
            (specSnapDir (Manipulate ops style input ctx cameraPos cameraRot position d
              mouseSpeed).ctx.hoveredAxisID)
            (specSnapUp (Manipulate ops style input ctx cameraPos cameraRot position d
              mouseSpeed).ctx.hoveredAxisID))|)) ∧
    ((Manipulate ops style input ctx cameraPos cameraRot position d
        mouseSpeed).ctx.isAnimating = true →
      (Manipulate ops style input ctx cameraPos cameraRot position d
        mouseSpeed).cameraPos = cameraPos ∧
      (Manipulate ops style input ctx cameraPos cameraRot position d
        mouseSpeed).cameraRot = cameraRot ∧
      (Manipulate ops style input ctx cameraPos cameraRot position d
        mouseSpeed).ctx.startPos = cameraPos ∧
      (Manipulate ops style input ctx cameraPos cameraRot position d
        mouseSpeed).ctx.targetPos =
        (specSnapDir (Manipulate ops style input ctx cameraPos cameraRot position d
          mouseSpeed).ctx.hoveredAxisID : vec3 F) * d ∧
      (Manipulate ops style input ctx cameraPos cameraRot position d
        mouseSpeed).ctx.targetUp =
        specSnapUp (Manipulate ops style input ctx cameraPos cameraRot position d
          mouseSpeed).ctx.hoveredAxisID) := by
  have hiff := Manipulate_isAnimating_iff ops style input ctx cameraPos cameraRot position d
    mouseSpeed hrest _ rfl
  generalize hk : (Manipulate ops style input ctx cameraPos cameraRot position d
    mouseSpeed).ctx.hoveredAxisID = k at hiff ⊢
  constructor
  · rw [hiff]
    constructor
    · rintro ⟨h1, h2, h3, h4, h5, h6, h7⟩
      rw [specSnapDir_eq k h3 h4, specSnapUp_eq k h3 h4]
      exact ⟨h1, h2, h3, h4, h5, h6, h7⟩
    · rintro ⟨h1, h2, h3, h4, h5, h6, h7⟩
      rw [specSnapDir_eq k h3 h4, specSnapUp_eq k h3 h4] at h7
      exact ⟨h1, h2, h3, h4, h5, h6, h7⟩
  · intro ha
    obtain ⟨_, _, h3, h4, _, _, _⟩ := hiff.mp ha
    have ht := (trigger_from_rest ops style ⟨ctx, cameraPos, cameraRot, false⟩
      ⟨input, position, d, mouseSpeed⟩ k h3 h4 hrest hk ha).2
    have hM : Manipulate ops style input ctx cameraPos cameraRot position d mouseSpeed
        = beginAnimation input.time ((snapTargetDir k : vec3 F) * d) (snapTargetUp k)
            ⟨{ ctx with hoveredAxisID := k }, cameraPos, cameraRot, false⟩ := ht
    rw [hM, specSnapDir_eq k h3 h4, specSnapUp_eq k h3 h4]
    exact ⟨rfl, rfl, rfl, rfl, rfl⟩

/-- Witness for C11: from the scenario start pose (initial context, not animating), the click
on the handle with id 0 starts the animation, leaves the camera at `(0,0,5)` and stores the
target `(-5,0,0)`. -/
theorem idle_to_animating_iff_witness :
    (Manipulate (⟨Real.sqrt, Real.sin, Real.cos⟩ : MathOps ℝ) defaultStyle
      (clickInput 0 ⟨36, 100⟩) initialContext ⟨0, 0, 5⟩ identityRot ⟨100, 100⟩ 5
      (1 / 200)).ctx.isAnimating = true ∧
    (Manipulate (⟨Real.sqrt, Real.sin, Real.cos⟩ : MathOps ℝ) defaultStyle
      (clickInput 0 ⟨36, 100⟩) initialContext ⟨0, 0, 5⟩ identityRot ⟨100, 100⟩ 5
      (1 / 200)).cameraPos = ⟨0, 0, 5⟩ ∧
    (Manipulate (⟨Real.sqrt, Real.sin, Real.cos⟩ : MathOps ℝ) defaultStyle
      (clickInput 0 ⟨36, 100⟩) initialContext ⟨0, 0, 5⟩ identityRot ⟨100, 100⟩ 5
      (1 / 200)).ctx.startPos = ⟨0, 0, 5⟩ :=
  ⟨scenario_trigger_animating,
   ((idle_to_animating_iff (⟨Real.sqrt, Real.sin, Real.cos⟩ : MathOps ℝ) defaultStyle
      (clickInput 0 ⟨36, 100⟩) initialContext ⟨0, 0, 5⟩ identityRot ⟨100, 100⟩ 5 (1 / 200)
      rfl).2 scenario_trigger_animating).1,
   ((idle_to_animating_iff (⟨Real.sqrt, Real.sin, Real.cos⟩ : MathOps ℝ) defaultStyle
      (clickInput 0 ⟨36, 100⟩) initialContext ⟨0, 0, 5⟩ identityRot ⟨100, 100⟩ 5 (1 / 200)
      rfl).2 scenario_trigger_animating).2.2.1⟩

/-- Claim C18.  Drag is an orbit: for every camera position, every unit camera rotation, every
mouse delta and every mouse speed, the camera position left by the drag stage has the same
distance from the origin as the position before it, and the camera rotation left by it is
again a unit quaternion.  Only `sin^2 + cos^2 = 1` is assumed of the C library. -/
theorem drag_is_an_orbit (ops : MathOps F)
    (hsc : ∀ x : F, ops.sin x * ops.sin x + ops.cos x * ops.cos x = 1)
    (input : HostInput F) (mouseSpeed : F) (s : State F)
    (hq : quatDot s.cameraRot s.cameraRot = 1) :
    length ops (dragLogic ops input mouseSpeed s).cameraPos = length ops s.cameraPos ∧
    quatDot (dragLogic ops input mouseSpeed s).cameraRot
      (dragLogic ops input mouseSpeed s).cameraRot = 1 := by
  obtain ⟨h1, h2⟩ := dragLogic_orbit ops hsc input mouseSpeed s hq
  unfold length
  rw [h1]
  exact ⟨rfl, h2⟩

/-- Witness for C18: mid-drag at `(0,0,5)` with the identity rotation, mouse delta `(10, 20)`,
mouse speed 0.005. -/
theorem drag_is_an_orbit_witness :
    quatDot (identityRot : quat ℝ) identityRot = 1 ∧
    length (⟨Real.sqrt, Real.sin, Real.cos⟩ : MathOps ℝ)
      (dragLogic ⟨Real.sqrt, Real.sin, Real.cos⟩ (heldInput 0 ⟨100, 100⟩ ⟨10, 20⟩) (1 / 200)
        ⟨draggingContext, ⟨0, 0, 5⟩, identityRot, false⟩).cameraPos
      = length ⟨Real.sqrt, Real.sin, Real.cos⟩ ⟨0, 0, 5⟩ ∧
    quatDot
      (dragLogic (⟨Real.sqrt, Real.sin, Real.cos⟩ : MathOps ℝ)
        (heldInput 0 ⟨100, 100⟩ ⟨10, 20⟩) (1 / 200)
        ⟨draggingContext, ⟨0, 0, 5⟩, identityRot, false⟩).cameraRot
      (dragLogic (⟨Real.sqrt, Real.sin, Real.cos⟩ : MathOps ℝ)
        (heldInput 0 ⟨100, 100⟩ ⟨10, 20⟩) (1 / 200)
        ⟨draggingContext, ⟨0, 0, 5⟩, identityRot, false⟩).cameraRot = 1 :=
  ⟨by simp [quatDot, identityRot],
   drag_is_an_orbit (⟨Real.sqrt, Real.sin, Real.cos⟩ : MathOps ℝ)
     (fun x => by
       have h := Real.sin_sq_add_cos_sq x
       show Real.sin x * Real.sin x + Real.cos x * Real.cos x = 1
       nlinarith [h])
     (heldInput 0 ⟨100, 100⟩ ⟨10, 20⟩) (1 / 200)
     ⟨draggingContext, ⟨0, 0, 5⟩, identityRot, false⟩ (by simp [quatDot, identityRot])⟩

/-- Claim C16.  Nearer handle wins when handles overlap: if a call leaves an axis id `k` in
`0..5` in `hoveredAxisID`, then no axis handle `j` that is eligible (depth not below `-0.1`)
and lies within the handle radius of the mouse (squared screen distance below the squared
scaled radius) has a camera-space depth strictly greater than that of handle `k`.  Depths and
screen positions are those of the call, built from the camera as the animation stage leaves
it. -/
theorem nearer_handle_wins (ops : MathOps F) (style : Style F) (input : HostInput F)
    (ctx : Context F) (cameraPos : vec3 F) (cameraRot : quat F) (position : vec2 F)
    (snapDistance mouseSpeed : F) (k : Int) (hk0 : 0 ≤ k) (hk5 : k ≤ 5)
    (hh : (Manipulate ops style input ctx cameraPos cameraRot position snapDistance
      mouseSpeed).ctx.hoveredAxisID = k)
    (j : Int) (hj0 : 0 ≤ j) (hj5 : j ≤ 5)
    (hdep : ¬ axisDepth
        (gizmoViewMatrix
          (animationLogic ops style input ⟨ctx, cameraPos, cameraRot, false⟩).cameraPos
          (animationLogic ops style input ⟨ctx, cameraPos, cameraRot, false⟩).cameraRot) j
      < -(1 / 10))
    (hhit : ImLengthSqr
      ⟨(handleScreenPos style position
          (animationLogic ops style input ⟨ctx, cameraPos, cameraRot, false⟩).cameraPos
          (animationLogic ops style input ⟨ctx, cameraPos, cameraRot, false⟩).cameraRot j).x
          - input.mousePos.x,
       (handleScreenPos style position
          (animationLogic ops style input ⟨ctx, cameraPos, cameraRot, false⟩).cameraPos
          (animationLogic ops style input ⟨ctx, cameraPos, cameraRot, false⟩).cameraRot j).y
          - input.mousePos.y⟩
      < style.circleRadius * style.scale * (style.circleRadius * style.scale)) :
    ¬ axisDepth
        (gizmoViewMatrix
          (animationLogic ops style input ⟨ctx, cameraPos, cameraRot, false⟩).cameraPos
          (animationLogic ops style input ⟨ctx, cameraPos, cameraRot, false⟩).cameraRot) k
      < axisDepth
        (gizmoViewMatrix
          (animationLogic ops style input ⟨ctx, cameraPos, cameraRot, false⟩).cameraPos
          (animationLogic ops style input ⟨ctx, cameraPos, cameraRot, false⟩).cameraRot) j := by
  obtain ⟨_, _, hhit', _⟩ := Manipulate_of_hover_axis ops style input ctx cameraPos cameraRot
    position snapDistance mouseSpeed k hk0 hk5 hh
  exact hitTest_nearest style position input.mousePos _ _ k hk0 hk5 hhit' j hj0 hj5 hdep hhit

/-- Witness for C16: handles of radius 100, identity rotation, click at the anchor.  The mouse
lies on the handles with ids 0 to 4; the hovered one is id 4 (depth 1), and the handle with
id 0 (depth 0) is not nearer. -/
theorem nearer_handle_wins_witness :
    (Manipulate (⟨Real.sqrt, Real.sin, Real.cos⟩ : MathOps ℝ)
      { defaultStyle with circleRadius := 100 } (clickInput 0 ⟨100, 100⟩) initialContext
      ⟨0, 0, 5⟩ identityRot ⟨100, 100⟩ 5 (1 / 200)).ctx.hoveredAxisID = 4 ∧
    ¬ axisDepth (gizmoViewMatrix (⟨0, 0, 5⟩ : vec3 ℝ) identityRot) 4
      < axisDepth (gizmoViewMatrix (⟨0, 0, 5⟩ : vec3 ℝ) identityRot) 0 := by
  have h := nearer_handle_wins (⟨Real.sqrt, Real.sin, Real.cos⟩ : MathOps ℝ)
    { defaultStyle with circleRadius := 100 } (clickInput 0 ⟨100, 100⟩) initialContext
    ⟨0, 0, 5⟩ identityRot ⟨100, 100⟩ 5 (1 / 200) 4 (by norm_num) (by norm_num)
    scenario_wide_hover 0 (le_refl 0) (by norm_num)
    (by
      rw [scenario_wide_state]
      dsimp only
      rw [gizmoViewMatrix_identityRot]
      norm_num [axisDepth, axisDirection, axisVectors, mat4_identity, mat4_mulVec,
        vec4_add_def, vec4_smul_def])
    (by
      rw [scenario_wide_state]
      dsimp only
      unfold handleScreenPos
      rw [gizmoMvp_identityRot]
      simp [worldToScreen, mat4_mulVec, axisDirection, axisVectors, defaultStyle, baseSize,
        ImLengthSqr, clickInput, idleInput, vec4_add_def, vec4_smul_def, vec3_mul_def,
        vec3_div_def]
      norm_num)
  rw [scenario_wide_state] at h
  exact ⟨scenario_wide_hover, h⟩

/-- Claim C14, evaluated at the failing input.  From the scenario start pose, a click on the
handle with id 0 with snap distance 0 starts an animation whose target position is the origin.
At the next tick (time 0.1, eased parameter below 1) the fallback branch is taken and the
zero vector is among the vectors handed to `normalize`: line 176 normalises `ctx.targetPos`
itself, whose length, the divisor of the normalisation, is 0. -/
theorem tick_normalizes_zero_target :
    (Manipulate (⟨Real.sqrt, Real.sin, Real.cos⟩ : MathOps ℝ) defaultStyle
      (clickInput 0 ⟨36, 100⟩) initialContext ⟨0, 0, 5⟩ identityRot ⟨100, 100⟩ 0
      (1 / 200)).ctx.isAnimating = true ∧
    (Manipulate (⟨Real.sqrt, Real.sin, Real.cos⟩ : MathOps ℝ) defaultStyle
      (clickInput 0 ⟨36, 100⟩) initialContext ⟨0, 0, 5⟩ identityRot ⟨100, 100⟩ 0
      (1 / 200)).ctx.targetPos = ⟨0, 0, 0⟩ ∧
    ¬ (1 / 10000 < length (⟨Real.sqrt, Real.sin, Real.cos⟩ : MathOps ℝ)
      (Manipulate (⟨Real.sqrt, Real.sin, Real.cos⟩ : MathOps ℝ) defaultStyle
        (clickInput 0 ⟨36, 100⟩) initialContext ⟨0, 0, 5⟩ identityRot ⟨100, 100⟩ 0
        (1 / 200)).ctx.targetPos) ∧
    length (⟨Real.sqrt, Real.sin, Real.cos⟩ : MathOps ℝ)
      (Manipulate (⟨Real.sqrt, Real.sin, Real.cos⟩ : MathOps ℝ) defaultStyle
        (clickInput 0 ⟨36, 100⟩) initialContext ⟨0, 0, 5⟩ identityRot ⟨100, 100⟩ 0
        (1 / 200)).ctx.targetPos = 0 ∧
    (⟨0, 0, 0⟩ : vec3 ℝ) ∈
      tickNormalizeArgs (⟨Real.sqrt, Real.sin, Real.cos⟩ : MathOps ℝ)
        (Manipulate (⟨Real.sqrt, Real.sin, Real.cos⟩ : MathOps ℝ) defaultStyle
          (clickInput 0 ⟨36, 100⟩) initialContext ⟨0, 0, 5⟩ identityRot ⟨100, 100⟩ 0
          (1 / 200)).ctx
        (easedT defaultStyle (idleInput (1 / 10) ⟨0, 0⟩)
          (Manipulate (⟨Real.sqrt, Real.sin, Real.cos⟩ : MathOps ℝ) defaultStyle
            (clickInput 0 ⟨36, 100⟩) initialContext ⟨0, 0, 5⟩ identityRot ⟨100, 100⟩ 0
            (1 / 200)).ctx) := by
  rw [scenario_zero_distance_trigger]
  have hlen : ¬ (1 / 10000 < length (⟨Real.sqrt, Real.sin, Real.cos⟩ : MathOps ℝ)
      (⟨0, 0, 0⟩ : vec3 ℝ)) := by
    simp [length, dot]
  refine ⟨rfl, rfl, hlen, by simp [length, dot], ?_⟩
  unfold tickNormalizeArgs
  dsimp only
  rw [if_neg (fun h => hlen h.2)]
  simp

end ImViewGuizmo
